import Mathlib

/-!
# CoreN2G shared SPI driver (src/STM32/SharedSPI/HardwareSPI.cpp)

A shallow embedding of the transfer engine and of the blocking transceive call.

* The device object is the record `HardwareSPI`; the world it runs in (`Sys`) adds the
  memory the buffers live in, the receive FIFO fill level, the request the peripheral is
  currently working on, and the trace of calls made to the collaborators (GPIO, HAL, cache
  service, RTOS).
* The preprocessor switches and header constants are the fields of `Build`.
* What the hardware answers during one call is the oracle `Env`.
* The CCM RAM allocator of src/STM32/ccmram.cpp works on the heap pointers `CcmHeap` and the
  linker symbols `CcmSymbols`, with 32-bit arithmetic written out (`sub32`, `not32`).
* The pin tables of src/STM32/variants/STM32H723/PeripheralPins.c are lists of `PinMap`
  entries, one list per table, holding the entries that are not commented out.
-/

namespace CoreN2G

/-! ## Definitions -/

/-- Build-time inputs of HardwareSPI.cpp: the preprocessor switches STM32H7, USE_SSP1 and
RTOS, the header constant SPITimeoutMillis, and the addresses of the linker symbols
read by CAN_USE_DMA. -/
structure Build where
  STM32H7 : Bool
  USE_SSP1 : Bool
  RTOS : Bool
  SPITimeoutMillis : Nat
  nocache_ram_start : Nat
  nocache_ram_end : Nat
  sccmram : Nat
  ccmramend : Nat

/-- Modelled from the spec: the header declaring `Pin` and `NoPin` is not under src/; the
data model says the chip-select pin is a pin "or none", so a pin is an optional pin number. -/
abbrev Pin := Option Nat

/-- Modelled from the spec: the "none" chip-select value. -/
def NoPin : Pin := none

/-- Modelled from the spec: enum SpiIoType is declared in the missing HardwareSPI.h; the source
uses exactly these three enumerators. -/
inductive SpiIoType
  | dma
  | interrupt
  | polled
  deriving DecidableEq, Repr

/-- Modelled from the spec: spi_status_t is declared in the missing spi_com.h. The source
returns SPI_OK and SPI_TIMEOUT only; SPI_ERROR stands for every other enumerator. -/
inductive spi_status_t
  | SPI_OK
  | SPI_TIMEOUT
  | SPI_ERROR
  deriving DecidableEq, Repr

/-- Vendor HAL status codes. -/
inductive HAL_StatusTypeDef
  | HAL_OK
  | HAL_ERROR
  | HAL_BUSY
  | HAL_TIMEOUT
  deriving DecidableEq, Repr

/-- Vendor HAL peripheral states returned by HAL_SPI_GetState. -/
inductive HAL_SPI_StateTypeDef
  | RESET
  | READY
  | BUSY
  | BUSY_TX
  | BUSY_RX
  | BUSY_TX_RX
  | ERROR
  | ABORT
  deriving DecidableEq, Repr

/-- Vendor HAL DMA channel states returned by HAL_DMA_GetState. -/
inductive HAL_DMA_StateTypeDef
  | RESET
  | READY
  | BUSY
  | TIMEOUT
  | ERROR
  | ABORT
  deriving DecidableEq, Repr

/-- The three shapes of a transfer: rx null, tx null, or both buffers given. -/
inductive Dir
  | transmit
  | receive
  | transmitReceive
  deriving DecidableEq, Repr

/-- The three families of HAL primitives. -/
inductive Xfer
  | viaDMA
  | viaIT
  | blocking
  deriving DecidableEq, Repr

/-- The three completion handlers of the source. -/
inductive Handler
  | Tx
  | TxRx
  | Rx
  deriving DecidableEq, Repr

/-- The format strings passed to debugPrintf. -/
inductive Msg
  | spiNotReady
  | rxDmaNotReady
  | txDmaNotReady
  | spiItNotReady
  | invalidIoType
  | spiError
  | spiTimeout
  deriving DecidableEq, Repr

/-- A completion callback: the continuation `transferComplete` of the source, or some
other function supplied by a caller of startTransfer. -/
inductive SPICallbackFunction
  | transferComplete
  | user (id : Nat)
  deriving DecidableEq, Repr

/-- Calls made to the collaborators, in program order. `halStart x d tx rx len` is the HAL
primitive of family `x` and shape `d` (for example HAL_SPI_TransmitReceive_DMA);
`cpltCallback h` marks the entry of a completion handler. -/
inductive Event
  | fastDigitalWriteLow (pin : Nat)
  | fastDigitalWriteHigh (pin : Nat)
  | debugPrintf (m : Msg)
  | delay (ms : Nat)
  | HAL_SPI_GetState
  | HAL_DMA_GetState (rx : Bool)
  | FlushBeforeDMASend (ptr len : Nat)
  | FlushBeforeDMAReceive (ptr len : Nat)
  | InvalidateAfterDMAReceive (ptr len : Nat)
  | halStart (x : Xfer) (d : Dir) (tx rx len : Nat)
  | HAL_SPI_DMAStop
  | readDR
  | spi_deinit
  | spi_init (deviceMode bitRate clockMode : Nat) (ssel : Pin)
  | HAL_SPI_Abort
  | HAL_SPI_DISABLE
  | cpltCallback (h : Handler)
  | userCallback (id : Nat)
  | GiveFromISR (task : Nat)
  | Take (timeout : Nat) (signalled : Bool)
  | NVIC_SetPriority (irq prio : Nat)
  | NVIC_EnableIRQ (irq : Nat)
  | HAL_DMA_Init (rx : Bool)
  | RCC_DMA_CLK_ENABLE (unit : Nat)
  | HAL_LINKDMA (rx : Bool)
  deriving DecidableEq, Repr

/-- The fields of class HardwareSPI that the source reads or writes. `initMode` is
spi.handle.Init.Mode; the pins are the fields of the member `spi`. Pointers are addresses,
the null pointer is 0. -/
structure HardwareSPI where
  dev : Nat
  spiIrq : Nat
  rxIrq : Nat
  txIrq : Nat
  initComplete : Bool
  transferActive : Bool
  ioType : SpiIoType
  curBitRate : Nat
  curBits : Nat
  curClockMode : Nat
  csPin : Pin
  callback : Option SPICallbackFunction
  waitingTask : Option Nat
  pin_sclk : Pin
  pin_miso : Pin
  pin_mosi : Pin
  pin_ssel : Pin
  initMode : Nat
  deriving DecidableEq, Repr

/-- A non-blocking request accepted by the peripheral and not yet finished: its shape, the
receive address and the bytes that will have been stored there when it finishes. -/
structure Flight where
  dir : Dir
  rx : Nat
  data : List Nat
  deriving DecidableEq, Repr

/-- The world: the device object, byte-addressed memory, the number of bytes waiting in the
receive FIFO, the request in flight in the peripheral, and the trace. -/
structure Sys where
  spi : HardwareSPI
  mem : Nat → Nat
  rxFifo : Nat
  inFlight : Option Flight
  trace : List Event

/-- One thing that can happen while the caller waits: the peripheral finishes and raises its
completion interrupt, the caller is woken (or polls again) with nothing finished, or the
timeout expires. -/
inductive Wait
  | complete
  | wake
  | timeout
  deriving DecidableEq, Repr

/-- What the hardware and the scheduler answer during one call: the handle of the calling
task, the states reported by the readiness queries, the status returned by a blocking
primitive and by a non-blocking start primitive, the bytes the slave shifts back for the
bytes shifted out, and what happens while the caller waits. -/
structure Env where
  caller : Nat
  spiState : HAL_SPI_StateTypeDef
  dmaRxState : HAL_DMA_StateTypeDef
  dmaTxState : HAL_DMA_StateTypeDef
  blocking : HAL_StatusTypeDef
  started : HAL_StatusTypeDef
  miso : List Nat → List Nat
  waits : List Wait

/-- Append one event to the trace. -/
def emit (ev : Event) (s : Sys) : Sys := { s with trace := s.trace ++ [ev] }

/-- Append several events to the trace. -/
def emits (evs : List Event) (s : Sys) : Sys := { s with trace := s.trace ++ evs }

/-- The `len` bytes stored from address `ptr`. -/
def readBytes (mem : Nat → Nat) (ptr len : Nat) : List Nat :=
  (List.range len).map (fun i => mem (ptr + i))

/-- Store `data` from address `ptr`. -/
def writeBytes (mem : Nat → Nat) (ptr : Nat) (data : List Nat) : Nat → Nat :=
  fun a => if ptr ≤ a ∧ a < ptr + data.length then data.getD (a - ptr) 0 else mem a

/-- Modelled from the spec: bytes shifted out by a primitive. A receive-only transfer clocks
out the receive buffer itself as dummy data. -/
def sentBytes (d : Dir) (tx rx len : Nat) (mem : Nat → Nat) : List Nat :=
  match d with
  | Dir.receive => readBytes mem rx len
  | _ => readBytes mem tx len

/-- Modelled from the spec: a finished transfer has stored the received bytes in the receive
buffer; a transmit-only transfer stores nothing. -/
def deposit (d : Dir) (rx : Nat) (data : List Nat) (mem : Nat → Nat) : Nat → Nat :=
  match d with
  | Dir.transmit => mem
  | _ => writeBytes mem rx data

/-- Modelled from the spec: the blocking primitives HAL_SPI_Transmit, HAL_SPI_Receive and
HAL_SPI_TransmitReceive. They return the status the hardware gives; with HAL_OK the transfer
has been carried out. -/
def halBlocking (e : Env) (d : Dir) (tx rx len : Nat) (s : Sys) : HAL_StatusTypeDef × Sys :=
  let s1 := emit (Event.halStart Xfer.blocking d tx rx len) s
  if e.blocking = HAL_StatusTypeDef.HAL_OK then
    (e.blocking,
      { s1 with mem := deposit d rx ((e.miso (sentBytes d tx rx len s1.mem)).take len) s1.mem })
  else (e.blocking, s1)

/-- Modelled from the spec: the non-blocking start primitives (the _DMA and _IT families).
With HAL_OK the request is in flight; it finishes when the completion interrupt is raised. -/
def halAsync (e : Env) (x : Xfer) (d : Dir) (tx rx len : Nat) (s : Sys) :
    HAL_StatusTypeDef × Sys :=
  let s1 := emit (Event.halStart x d tx rx len) s
  if e.started = HAL_StatusTypeDef.HAL_OK then
    let f : Flight := Flight.mk d rx ((e.miso (sentBytes d tx rx len s1.mem)).take len)
    (e.started, { s1 with inFlight := some f })
  else (e.started, s1)

/-- Modelled from the spec: HAL_SPI_DMAStop ends any request in flight. -/
def HAL_SPI_DMAStop (s : Sys) : Sys := { emit Event.HAL_SPI_DMAStop s with inFlight := none }

/-- Modelled from the spec: HAL_SPI_Abort ends any request in flight. -/
def HAL_SPI_Abort (s : Sys) : Sys := { emit Event.HAL_SPI_Abort s with inFlight := none }

/-- Modelled from the spec: spi_deinit (spi_com.c) resets the peripheral; the handle keeps
its Init fields. -/
def spi_deinit (s : Sys) : Sys := { emit Event.spi_deinit s with inFlight := none }

/-- Modelled from the spec: spi_init (spi_com.c) initialises the peripheral with the given
device mode, bit rate and clock mode on the pins stored in `spi`, and records the device mode
in handle.Init.Mode. -/
def spi_init (deviceMode bitRate clockMode : Nat) (s : Sys) : Sys :=
  let s1 := emit (Event.spi_init deviceMode bitRate clockMode s.spi.pin_ssel) s
  { s1 with spi.initMode := deviceMode }

/-- Modelled from the spec: the macro __HAL_SPI_DISABLE. -/
def HAL_SPI_DISABLE (s : Sys) : Sys := emit Event.HAL_SPI_DISABLE s

/-- CAN_USE_DMA (lines 52 and 76). On H7 the sum ptr + len is taken modulo 2^32. -/
def CAN_USE_DMA (b : Build) (ptr len : Nat) : Bool :=
  if b.STM32H7 then
    ptr == 0 || (decide (ptr ≥ b.nocache_ram_start) && decide ((ptr + len) % 2 ^ 32 < b.nocache_ram_end))
  else
    ptr == 0 || !(decide (ptr ≥ b.sccmram) && decide (ptr ≤ b.ccmramend))

/-- transferComplete (lines 257-265). -/
def transferComplete (b : Build) (s : Sys) : Sys :=
  let s1 := match s.spi.csPin with
    | some p => emit (Event.fastDigitalWriteHigh p) s
    | none => s
  if b.RTOS then
    match s1.spi.waitingTask with
    | some t => emit (Event.GiveFromISR t) s1
    | none => s1
  else s1

/-- Call through a stored callback pointer. -/
def invoke (b : Build) (cb : SPICallbackFunction) (s : Sys) : Sys :=
  match cb with
  | SPICallbackFunction.transferComplete => transferComplete b s
  | SPICallbackFunction.user id => emit (Event.userCallback id) s

/-- HAL_SPI_TxCpltCallback (lines 94-100). -/
def HAL_SPI_TxCpltCallback (b : Build) (s : Sys) : Sys :=
  let s1 := emit (Event.cpltCallback Handler.Tx) s
  let s2 := { s1 with spi.transferActive := false }
  match s2.spi.callback with
  | some cb => invoke b cb s2
  | none => s2

/-- HAL_SPI_TxRxCpltCallback (lines 102-108). -/
def HAL_SPI_TxRxCpltCallback (b : Build) (s : Sys) : Sys :=
  let s1 := emit (Event.cpltCallback Handler.TxRx) s
  let s2 := { s1 with spi.transferActive := false }
  match s2.spi.callback with
  | some cb => invoke b cb s2
  | none => s2

/-- HAL_SPI_RxCpltCallback (lines 110-116). -/
def HAL_SPI_RxCpltCallback (b : Build) (s : Sys) : Sys :=
  let s1 := emit (Event.cpltCallback Handler.Rx) s
  let s2 := { s1 with spi.transferActive := false }
  match s2.spi.callback with
  | some cb => invoke b cb s2
  | none => s2

/-- flushRxFifo (lines 219-230): read the data register while RXNE is set. -/
def flushRxFifo (s : Sys) : Sys :=
  { s with trace := s.trace ++ List.replicate s.rxFifo Event.readDR, rxFifo := 0 }

/-- HardwareSPI::flushRx (lines 232-235). -/
def flushRx (s : Sys) : Sys := flushRxFifo s

/-- HardwareSPI::disable (lines 238-249). -/
def disable (s : Sys) : Sys :=
  if s.spi.initComplete then
    let s1 := if s.spi.ioType = SpiIoType.dma then HAL_SPI_DMAStop s else s
    let s2 := flushRxFifo s1
    let s3 := spi_deinit s2
    { s3 with spi.initComplete := false, spi.transferActive := false }
  else s

/-- HardwareSPI::initDma (lines 306-318). -/
def initDma (priority : Nat) (s : Sys) : Sys :=
  let s1 := emit (Event.RCC_DMA_CLK_ENABLE 2) s
  let s2 := emit (Event.RCC_DMA_CLK_ENABLE 1) s1
  let s3 := emit (Event.HAL_DMA_Init true) s2
  let s4 := emit (Event.NVIC_SetPriority s3.spi.rxIrq priority) s3
  let s5 := emit (Event.NVIC_EnableIRQ s4.spi.rxIrq) s4
  let s6 := emit (Event.HAL_LINKDMA true) s5
  let s7 := emit (Event.HAL_DMA_Init false) s6
  let s8 := emit (Event.NVIC_SetPriority s7.spi.txIrq priority) s7
  let s9 := emit (Event.NVIC_EnableIRQ s8.spi.txIrq) s8
  emit (Event.HAL_LINKDMA false) s9

/-- HardwareSPI::initPins (lines 267-283). -/
def initPins (clk miso mosi : Pin) (priority : Nat) (s : Sys) : Sys :=
  let s1 := { s with
    spi.pin_sclk := clk
    spi.pin_miso := miso
    spi.pin_mosi := mosi
    spi.csPin := NoPin }
  let s2 := if s1.spi.ioType = SpiIoType.dma then initDma priority s1 else s1
  let s3 :=
    if s2.spi.ioType ≠ SpiIoType.polled then
      emit (Event.NVIC_EnableIRQ s2.spi.spiIrq) (emit (Event.NVIC_SetPriority s2.spi.spiIrq priority) s2)
    else s2
  { s3 with spi.initComplete := false }

/-- HardwareSPI::configureDevice, five arguments (lines 320-338). -/
def configureDevice (deviceMode bits clockMode bitRate : Nat) (cs : Pin) (s : Sys) : Sys :=
  if !s.spi.initComplete || bitRate != s.spi.curBitRate || bits != s.spi.curBits
      || clockMode != s.spi.curClockMode then
    let s1 :=
      if s.spi.initComplete then
        spi_deinit (if s.spi.ioType = SpiIoType.dma then HAL_SPI_DMAStop s else s)
      else s
    let s2 := { s1 with spi.pin_ssel := cs }
    let s3 := spi_init deviceMode bitRate clockMode s2
    { s3 with
      spi.initComplete := true
      spi.transferActive := false
      spi.curBitRate := bitRate
      spi.curBits := bits
      spi.curClockMode := clockMode }
  else s

/-- startTransferDMA (lines 371-411). -/
def startTransferDMA (e : Env) (tx rx len : Nat) (s : Sys) : HAL_StatusTypeDef × Sys :=
  let s1 := emit Event.HAL_SPI_GetState s
  let s2 :=
    if e.spiState ≠ HAL_SPI_StateTypeDef.READY then
      emit (Event.delay 100) (emit (Event.debugPrintf Msg.spiNotReady) s1)
    else s1
  let s3 := emit (Event.HAL_DMA_GetState true) s2
  let s4 :=
    if e.dmaRxState ≠ HAL_DMA_StateTypeDef.READY then
      emit (Event.delay 100) (emit (Event.debugPrintf Msg.rxDmaNotReady) s3)
    else s3
  let s5 := emit (Event.HAL_DMA_GetState false) s4
  let s6 :=
    if e.dmaTxState ≠ HAL_DMA_StateTypeDef.READY then
      emit (Event.delay 100) (emit (Event.debugPrintf Msg.txDmaNotReady) s5)
    else s5
  if rx = 0 then
    halAsync e Xfer.viaDMA Dir.transmit tx 0 len (emit (Event.FlushBeforeDMASend tx len) s6)
  else if tx = 0 then
    halAsync e Xfer.viaDMA Dir.receive 0 rx len (emit (Event.FlushBeforeDMAReceive rx len) s6)
  else
    halAsync e Xfer.viaDMA Dir.transmitReceive tx rx len
      (emit (Event.FlushBeforeDMAReceive rx len) (emit (Event.FlushBeforeDMASend tx len) s6))

/-- startTransferIT (lines 413-437), compiled when USE_SSP1 is set. -/
def startTransferIT (e : Env) (tx rx len : Nat) (s : Sys) : HAL_StatusTypeDef × Sys :=
  let s1 := emit Event.HAL_SPI_GetState s
  let s2 :=
    if e.spiState ≠ HAL_SPI_StateTypeDef.READY then
      emit (Event.delay 100) (emit (Event.debugPrintf Msg.spiItNotReady) s1)
    else s1
  if rx = 0 then halAsync e Xfer.viaIT Dir.transmit tx 0 len s2
  else if tx = 0 then halAsync e Xfer.viaIT Dir.receive 0 rx len s2
  else halAsync e Xfer.viaIT Dir.transmitReceive tx rx len s2

/-- startTransferPolled (lines 439-452). -/
def startTransferPolled (b : Build) (e : Env) (tx rx len : Nat) (s : Sys) :
    HAL_StatusTypeDef × Sys :=
  let r :=
    if rx = 0 then halBlocking e Dir.transmit tx 0 len s
    else if tx = 0 then halBlocking e Dir.receive 0 rx len s
    else halBlocking e Dir.transmitReceive tx rx len s
  if r.1 = HAL_StatusTypeDef.HAL_OK then (r.1, HAL_SPI_RxCpltCallback b r.2) else r

/-- HardwareSPI::startTransfer (lines 454-481). The interrupt case exists only when
USE_SSP1 is set; without it an interrupt device reaches the default label. -/
def startTransfer (b : Build) (e : Env) (tx rx len : Nat)
    (ioComplete : Option SPICallbackFunction) (s : Sys) : Sys :=
  let s1 := { s with spi.callback := ioComplete, spi.transferActive := true }
  let r : HAL_StatusTypeDef × Sys :=
    match s1.spi.ioType with
    | SpiIoType.dma =>
      if CAN_USE_DMA b tx len && CAN_USE_DMA b rx len then startTransferDMA e tx rx len s1
      else startTransferPolled b e tx rx len s1
    | SpiIoType.polled => startTransferPolled b e tx rx len s1
    | SpiIoType.interrupt =>
      if b.USE_SSP1 then startTransferIT e tx rx len s1
      else (HAL_StatusTypeDef.HAL_OK, emit (Event.debugPrintf Msg.invalidIoType) s1)
  if r.1 ≠ HAL_StatusTypeDef.HAL_OK then emit (Event.debugPrintf Msg.spiError) r.2 else r.2

/-- HardwareSPI::stopTransfer (lines 483-504). -/
def stopTransfer (b : Build) (s : Sys) : Sys :=
  if s.spi.initComplete then
    let s1 :=
      if s.spi.transferActive then
        if b.STM32H7 then
          { HAL_SPI_Abort s with spi.transferActive := false }
        else
          let d := disable s
          configureDevice d.spi.initMode d.spi.curBits d.spi.curClockMode d.spi.curBitRate
            d.spi.pin_ssel d
      else s
    HAL_SPI_DISABLE s1
  else s

/-- The peripheral raises its completion interrupt: the request in flight, if any, is finished,
its bytes are in memory, and the handler for its shape runs. -/
def completionIRQ (b : Build) (s : Sys) : Sys :=
  match s.inFlight with
  | none => s
  | some f =>
    let s1 := { s with inFlight := none, mem := deposit f.dir f.rx f.data s.mem }
    match f.dir with
    | Dir.transmit => HAL_SPI_TxCpltCallback b s1
    | Dir.receive => HAL_SPI_RxCpltCallback b s1
    | Dir.transmitReceive => HAL_SPI_TxRxCpltCallback b s1

/-- One return of TaskBase::Take in the RTOS build; the other build polls millis() and makes
no call. -/
def took (b : Build) (signalled : Bool) (s : Sys) : Sys :=
  if b.RTOS then emit (Event.Take b.SPITimeoutMillis signalled) s else s

/-- The wait loop of transceivePacket (lines 514-520, and 531-533 without RTOS): while
transferActive is set, wait once more; leave when the wait times out. When the list of
things that happen is exhausted the wait times out. -/
def waitLoop (b : Build) : List Wait → Sys → Sys
  | [], s => if s.spi.transferActive then took b false s else s
  | Wait.timeout :: _, s => if s.spi.transferActive then took b false s else s
  | Wait.wake :: ws, s => if s.spi.transferActive then waitLoop b ws (took b true s) else s
  | Wait.complete :: ws, s =>
    if s.spi.transferActive then waitLoop b ws (took b true (completionIRQ b s)) else s

/-- HardwareSPI::transceivePacket up to the end of its wait (lines 508-520, and 529-533
without RTOS). -/
def transceiveWait (b : Build) (e : Env) (tx rx len : Nat) (cs : Pin) (s : Sys) : Sys :=
  let s1 := match cs with
    | some p => emit (Event.fastDigitalWriteLow p) s
    | none => s
  let s2 := { s1 with spi.csPin := cs }
  let s3 := if b.RTOS then { s2 with spi.waitingTask := some e.caller } else s2
  let s4 := startTransfer b e tx rx len (some SPICallbackFunction.transferComplete) s3
  waitLoop b e.waits s4

/-- HardwareSPI::transceivePacket after its wait, without the timeout branch (lines 527 and
541-544). -/
def transceiveEnd (b : Build) (rx len : Nat) (cs : Pin) (s : Sys) : Sys :=
  let s1 := if b.RTOS then { s with spi.waitingTask := none } else s
  let s2 :=
    if s1.spi.ioType = SpiIoType.dma ∧ rx ≠ 0 then emit (Event.InvalidateAfterDMAReceive rx len) s1
    else s1
  let s3 := { s2 with spi.csPin := NoPin }
  match cs with
  | some p => emit (Event.fastDigitalWriteHigh p) s3
  | none => s3

/-- HardwareSPI::transceivePacket (lines 506-545). -/
def transceivePacket (b : Build) (e : Env) (tx rx len : Nat) (cs : Pin) (s : Sys) :
    spi_status_t × Sys :=
  let w := transceiveWait b e tx rx len cs s
  if w.spi.transferActive then
    (spi_status_t.SPI_TIMEOUT,
      transceiveEnd b rx len cs (stopTransfer b (emit (Event.debugPrintf Msg.spiTimeout) w)))
  else
    (spi_status_t.SPI_OK, transceiveEnd b rx len cs w)

/-- Events a completion callback produces when called on device `d`. -/
def cbEvents (b : Build) (d : HardwareSPI) : List Event :=
  match d.callback with
  | none => []
  | some (SPICallbackFunction.user id) => [Event.userCallback id]
  | some SPICallbackFunction.transferComplete =>
    (match d.csPin with
      | some p => [Event.fastDigitalWriteHigh p]
      | none => []) ++
    (if b.RTOS then
      match d.waitingTask with
      | some t => [Event.GiveFromISR t]
      | none => []
    else [])

/-- The handler that serves a finished request of the given shape. -/
def handlerOf (d : Dir) : Handler :=
  match d with
  | Dir.transmit => Handler.Tx
  | Dir.receive => Handler.Rx
  | Dir.transmitReceive => Handler.TxRx

/-- The level written by a GPIO write to pin `p`: false for low, true for high. -/
def writeOf (p : Nat) : Event → Option Bool
  | Event.fastDigitalWriteLow q => if q = p then some false else none
  | Event.fastDigitalWriteHigh q => if q = p then some true else none
  | _ => none

/-- The levels written to pin `p` along a trace, in order. -/
def csWrites (p : Nat) (tr : List Event) : List Bool := tr.filterMap (writeOf p)

/-- The level of pin `p` after a trace: the last level written, if any. -/
def pinLevel (p : Nat) (tr : List Event) : Option Bool := (csWrites p tr).getLast?

/-- Number of low-to-high transitions of a line that starts at level `l0` and then
takes the given levels. -/
def risingEdges : Bool → List Bool → Nat
  | _, [] => 0
  | l0, l :: ls => (if l0 = false ∧ l = true then 1 else 0) + risingEdges l ls

/-- Number of high-to-low transitions of a line that starts at level `l0` and then
takes the given levels. -/
def fallingEdges : Bool → List Bool → Nat
  | _, [] => 0
  | l0, l :: ls => (if l0 = true ∧ l = false then 1 else 0) + fallingEdges l ls

/-- The events appended to the trace between state `s` and a later state `s2`. -/
def since (s s2 : Sys) : List Event := s2.trace.drop s.trace.length

/-- A hardware transfer request: any HAL transmit/receive primitive. -/
def isRequest : Event → Bool
  | Event.halStart _ _ _ _ _ => true
  | _ => false

/-- A DMA start primitive. -/
def isDMAStart : Event → Bool
  | Event.halStart Xfer.viaDMA _ _ _ _ => true
  | _ => false

/-- A blocking (polled) primitive. -/
def isBlockingStart : Event → Bool
  | Event.halStart Xfer.blocking _ _ _ _ => true
  | _ => false

/-- An event that ends the transfer: the entry of a completion handler, or the abort made by
stopTransfer (HAL_SPI_Abort on H7, the deinitialisation of the peripheral elsewhere). -/
def isRelease : Event → Bool
  | Event.cpltCallback _ => true
  | Event.HAL_SPI_Abort => true
  | Event.spi_deinit => true
  | _ => false

/-- Events that neither write a pin nor end a transfer nor reinitialise the peripheral. -/
def quietEv : Event → Bool
  | Event.debugPrintf _ => true
  | Event.delay _ => true
  | Event.HAL_SPI_GetState => true
  | Event.HAL_DMA_GetState _ => true
  | Event.FlushBeforeDMASend _ _ => true
  | Event.FlushBeforeDMAReceive _ _ => true
  | Event.halStart _ _ _ _ _ => true
  | Event.Take _ _ => true
  | Event.readDR => true
  | _ => false

/-- The first thing that is not a plain wake-up is the completion interrupt. -/
def arrives : List Wait → Bool
  | [] => false
  | Wait.wake :: ws => arrives ws
  | Wait.complete :: _ => true
  | Wait.timeout :: _ => false

/-- The peripheral completes a transfer: the primitives return HAL_OK and the completion
interrupt of a non-blocking request arrives before the wait times out. -/
def Env.completes (e : Env) : Prop :=
  e.blocking = HAL_StatusTypeDef.HAL_OK ∧ e.started = HAL_StatusTypeDef.HAL_OK ∧
    arrives e.waits = true

/-- The slave is wired in loopback: it shifts back exactly the bytes shifted out. -/
def Env.loopback (e : Env) : Prop := ∀ l, e.miso l = l

/-- The strategy is one that the dispatch of startTransfer handles in this build. -/
def handled (b : Build) (io : SpiIoType) : Prop := io = SpiIoType.interrupt → b.USE_SSP1 = true

/-- Number of peripheral initialisations (spi_init) in a trace. -/
def initCount (tr : List Event) : Nat :=
  (tr.filter (fun ev => match ev with
    | Event.spi_init _ _ _ _ => true
    | _ => false)).length

/-- Number of peripheral deinitialisations (spi_deinit) in a trace. -/
def deinitCount (tr : List Event) : Nat := tr.count Event.spi_deinit

/-- Every event of the list is quiet. -/
def Quiet (l : List Event) : Prop := ∀ ev ∈ l, quietEv ev = true

/-- The events logged by one return of Take. -/
def tookEv (b : Build) (signalled : Bool) : List Event :=
  if b.RTOS then [Event.Take b.SPITimeoutMillis signalled] else []

/-- Every event of the list is a return of Take. -/
def OnlyTake (l : List Event) : Prop := ∀ ev ∈ l, ∃ t r, ev = Event.Take t r

/-- Shape of a transfer as the source selects it: rx null first, then tx null. -/
def dirOf (tx rx : Nat) : Dir :=
  if rx = 0 then Dir.transmit else if tx = 0 then Dir.receive else Dir.transmitReceive

/-- The events of one readiness check that found the hardware not ready. -/
def notReadyEvents (notReady : Bool) (m : Msg) : List Event :=
  if notReady then [Event.debugPrintf m, Event.delay 100] else []

/-- The cache flushes startTransferDMA issues for its buffers. -/
def flushEvents (tx rx len : Nat) : List Event :=
  if rx = 0 then [Event.FlushBeforeDMASend tx len]
  else if tx = 0 then [Event.FlushBeforeDMAReceive rx len]
  else [Event.FlushBeforeDMASend tx len, Event.FlushBeforeDMAReceive rx len]

/-- Everything startTransferDMA does before its start primitive. -/
def dmaPrelude (e : Env) (tx rx len : Nat) : List Event :=
  [Event.HAL_SPI_GetState] ++
  notReadyEvents (decide (e.spiState ≠ HAL_SPI_StateTypeDef.READY)) Msg.spiNotReady ++
  [Event.HAL_DMA_GetState true] ++
  notReadyEvents (decide (e.dmaRxState ≠ HAL_DMA_StateTypeDef.READY)) Msg.rxDmaNotReady ++
  [Event.HAL_DMA_GetState false] ++
  notReadyEvents (decide (e.dmaTxState ≠ HAL_DMA_StateTypeDef.READY)) Msg.txDmaNotReady ++
  flushEvents tx rx len

/-- Everything startTransferIT does before its start primitive. -/
def itPrelude (e : Env) : List Event :=
  [Event.HAL_SPI_GetState] ++
  notReadyEvents (decide (e.spiState ≠ HAL_SPI_StateTypeDef.READY)) Msg.spiItNotReady

/-- The request a non-blocking primitive leaves in flight. -/
def flightOf (e : Env) (tx rx len : Nat) (mem : Nat → Nat) : Flight :=
  Flight.mk (dirOf tx rx) rx ((e.miso (sentBytes (dirOf tx rx) tx rx len mem)).take len)

/-- The message startTransfer prints for a status other than HAL_OK. -/
def errEvents (st : HAL_StatusTypeDef) : List Event :=
  if st ≠ HAL_StatusTypeDef.HAL_OK then [Event.debugPrintf Msg.spiError] else []

/-- The device fields after startTransfer: only callback and transferActive are written. -/
def started (d : HardwareSPI) (cb : Option SPICallbackFunction) (active : Bool) : HardwareSPI :=
  { d with callback := cb, transferActive := active }

/-- The dispatch of startTransfer takes the DMA path. -/
def usesDMA (b : Build) (io : SpiIoType) (tx rx len : Nat) : Prop :=
  io = SpiIoType.dma ∧ (CAN_USE_DMA b tx len && CAN_USE_DMA b rx len) = true

/-- The dispatch of startTransfer takes the polled path: a polled device, or a DMA device
with a buffer that fails CAN_USE_DMA. -/
def usesPolled (b : Build) (io : SpiIoType) (tx rx len : Nat) : Prop :=
  io = SpiIoType.polled ∨
    (io = SpiIoType.dma ∧ (CAN_USE_DMA b tx len && CAN_USE_DMA b rx len) = false)

/-- The transfer of this call never completes: if the dispatch takes the polled path the
blocking primitive does not return HAL_OK, and no completion interrupt arrives before the wait
times out. -/
def stalls (b : Build) (io : SpiIoType) (tx rx len : Nat) (e : Env) : Prop :=
  (usesPolled b io tx rx len → e.blocking ≠ HAL_StatusTypeDef.HAL_OK) ∧ arrives e.waits = false

/-- The device fields once transceivePacket has started the transfer. -/
def prep (b : Build) (e : Env) (cs : Pin) (d : HardwareSPI) (active : Bool) : HardwareSPI :=
  { d with
    csPin := cs
    waitingTask := if b.RTOS then some e.caller else d.waitingTask
    callback := some SPICallbackFunction.transferComplete
    transferActive := active }

/-- The write that asserts chip-select, when a pin is given. -/
def lowEvents (cs : Pin) : List Event :=
  match cs with
  | some p => [Event.fastDigitalWriteLow p]
  | none => []

/-- The write that releases chip-select, when a pin is given. -/
def highEvents (cs : Pin) : List Event :=
  match cs with
  | some p => [Event.fastDigitalWriteHigh p]
  | none => []

/-- The signal sent to the waiting task by transferComplete in the RTOS build. -/
def giveEvents (b : Build) (e : Env) : List Event :=
  if b.RTOS then [Event.GiveFromISR e.caller] else []

/-- The cache invalidate at the end of transceivePacket. -/
def invalEvents (io : SpiIoType) (rx len : Nat) : List Event :=
  if io = SpiIoType.dma ∧ rx ≠ 0 then [Event.InvalidateAfterDMAReceive rx len] else []

/-- What stopTransfer does to abort an active transfer on an initialised device. -/
def abortEvents (b : Build) (s : Sys) : List Event :=
  if b.STM32H7 then [Event.HAL_SPI_Abort, Event.HAL_SPI_DISABLE]
  else
    (if s.spi.ioType = SpiIoType.dma then [Event.HAL_SPI_DMAStop] else []) ++
    List.replicate s.rxFifo Event.readDR ++
    [Event.spi_deinit,
      Event.spi_init s.spi.initMode s.spi.curBitRate s.spi.curClockMode s.spi.pin_ssel,
      Event.HAL_SPI_DISABLE]

/-- The state in which transceivePacket calls startTransfer. -/
def selected (b : Build) (e : Env) (cs : Pin) (s : Sys) : Sys :=
  { s with
    spi := { s.spi with
      csPin := cs
      waitingTask := if b.RTOS then some e.caller else s.spi.waitingTask }
    trace := s.trace ++ lowEvents cs }

/-- The device fields when transceivePacket returns, given the busy flag and the rest of the
fields at entry. -/
def finalSpi (b : Build) (d : HardwareSPI) (active : Bool) : HardwareSPI :=
  { d with
    csPin := NoPin
    waitingTask := if b.RTOS then none else d.waitingTask
    callback := some SPICallbackFunction.transferComplete
    transferActive := active }

/-- An F4 build with RTOS and SSP1: CCM RAM at 0x10000000..0x10010000. -/
def buildF4 : Build :=
  { STM32H7 := false, USE_SSP1 := true, RTOS := true, SPITimeoutMillis := 2000
    nocache_ram_start := 0, nocache_ram_end := 0
    sccmram := 0x10000000, ccmramend := 0x10010000 }

/-- An F4 build without SSP1, so without the interrupt case of the dispatch. -/
def buildF4noSSP1 : Build := { buildF4 with USE_SSP1 := false }

/-- An H7 build: non-cached RAM at 0x30000000..0x30008000. -/
def buildH7 : Build :=
  { STM32H7 := true, USE_SSP1 := true, RTOS := true, SPITimeoutMillis := 2000
    nocache_ram_start := 0x30000000, nocache_ram_end := 0x30008000
    sccmram := 0, ccmramend := 0 }

/-- A device of the given strategy, configured for 8 bits, mode 0, 4 MHz when `init` is set. -/
def device (io : SpiIoType) (init : Bool) : HardwareSPI :=
  { dev := 1, spiIrq := 35, rxIrq := 14, txIrq := 15
    initComplete := init, transferActive := false, ioType := io
    curBitRate := 4000000, curBits := 8, curClockMode := 0
    csPin := NoPin, callback := none, waitingTask := none
    pin_sclk := some 5, pin_miso := some 6, pin_mosi := some 7, pin_ssel := NoPin
    initMode := 260 }

/-- Memory holding the bytes 0xAA, 0x55 at 0x20000100 and zero elsewhere. -/
def memAA55 : Nat → Nat := fun a =>
  if a = 0x20000100 then 0xAA else if a = 0x20000101 then 0x55 else 0

/-- An idle world around the given device. -/
def world (io : SpiIoType) (init : Bool) : Sys :=
  { spi := device io init, mem := memAA55, rxFifo := 0, inFlight := none, trace := [] }

/-- A peripheral that never completes: the blocking primitive times out, a non-blocking
request is accepted but its interrupt never comes. -/
def envStall : Env :=
  { caller := 7, spiState := HAL_SPI_StateTypeDef.READY
    dmaRxState := HAL_DMA_StateTypeDef.READY, dmaTxState := HAL_DMA_StateTypeDef.READY
    blocking := HAL_StatusTypeDef.HAL_TIMEOUT, started := HAL_StatusTypeDef.HAL_OK
    miso := fun l => l, waits := [Wait.wake, Wait.timeout] }

/-- A loopback-wired peripheral that completes after one spurious wake-up. -/
def envLoop : Env :=
  { caller := 7, spiState := HAL_SPI_StateTypeDef.READY
    dmaRxState := HAL_DMA_StateTypeDef.READY, dmaTxState := HAL_DMA_StateTypeDef.READY
    blocking := HAL_StatusTypeDef.HAL_OK, started := HAL_StatusTypeDef.HAL_OK
    miso := fun l => l, waits := [Wait.wake, Wait.complete] }

/-- No event of the list is a hardware transfer request. -/
def NoRequest (l : List Event) : Prop := ∀ ev ∈ l, isRequest ev = false

/-- No event of the list drives a pin high. -/
def NoHigh (l : List Event) : Prop := ∀ ev ∈ l, ∀ q, ev ≠ Event.fastDigitalWriteHigh q

/-- Two worlds that differ at most in their traces. -/
def agree (s s2 : Sys) : Prop :=
  s.spi = s2.spi ∧ s.mem = s2.mem ∧ s.inFlight = s2.inFlight ∧ s.rxFifo = s2.rxFifo

/-- The test of configureDevice (line 322): the device is not initialised, or the requested
bit rate, word size or clock mode differs from the cached one. -/
def mustReinit (bits clockMode bitRate : Nat) (d : HardwareSPI) : Bool :=
  !d.initComplete || bitRate != d.curBitRate || bits != d.curBits || clockMode != d.curClockMode

/-- What configureDevice does to an initialised peripheral before it initialises it again. -/
def teardownEvents (d : HardwareSPI) : List Event :=
  if d.initComplete then
    (if d.ioType = SpiIoType.dma then [Event.HAL_SPI_DMAStop] else []) ++ [Event.spi_deinit]
  else []

/-- Call through a callback pointer that may be null: `if (s->callback) s->callback(s)`. -/
def call (b : Build) (cb : Option SPICallbackFunction) (s : Sys) : Sys :=
  match cb with
  | some c => invoke b c s
  | none => s

/-- The operations that can run on a device between two points of a program: the member
functions of the engine and the completion interrupt of the peripheral. -/
inductive Op
  | initPins (clk miso mosi : Pin) (priority : Nat)
  | configureDevice (deviceMode bits clockMode bitRate : Nat) (cs : Pin)
  | startTransfer (e : Env) (tx rx len : Nat) (cb : Option SPICallbackFunction)
  | stopTransfer
  | disable
  | flushRx
  | interrupt

/-- Run one operation. -/
def step (b : Build) (op : Op) (s : Sys) : Sys :=
  match op with
  | Op.initPins clk miso mosi priority => initPins clk miso mosi priority s
  | Op.configureDevice deviceMode bits clockMode bitRate cs =>
    configureDevice deviceMode bits clockMode bitRate cs s
  | Op.startTransfer e tx rx len cb => startTransfer b e tx rx len cb s
  | Op.stopTransfer => stopTransfer b s
  | Op.disable => disable s
  | Op.flushRx => flushRx s
  | Op.interrupt => completionIRQ b s

/-- Run operations one after the other. -/
def run (b : Build) : List Op → Sys → Sys
  | [], s => s
  | op :: ops, s => run b ops (step b op s)

/-- The operation, run in state `s`, is one of those that may clear the busy flag: stopTransfer,
disable, a configureDevice whose test holds, or any operation during which a completion handler
runs. -/
def clears (b : Build) (op : Op) (s : Sys) : Prop :=
  (match op with
    | Op.stopTransfer => True
    | Op.disable => True
    | Op.configureDevice _ bits clockMode bitRate _ =>
      mustReinit bits clockMode bitRate s.spi = true
    | _ => False) ∨
  ∃ h, Event.cpltCallback h ∈ since s (step b op s)

/-- A cache flush before DMA. -/
def isFlush : Event → Bool
  | Event.FlushBeforeDMASend _ _ => true
  | Event.FlushBeforeDMAReceive _ _ => true
  | _ => false

/-- A cache invalidate after DMA. -/
def isInvalidate : Event → Bool
  | Event.InvalidateAfterDMAReceive _ _ => true
  | _ => false

/-- The signal transferComplete sends to the recorded waiting task. -/
def taskEvents (t : Option Nat) : List Event :=
  match t with
  | some task => [Event.GiveFromISR task]
  | none => []

/-- The source function of each completion handler. -/
def handlerFn (h : Handler) : Build → Sys → Sys :=
  match h with
  | Handler.Tx => HAL_SPI_TxCpltCallback
  | Handler.TxRx => HAL_SPI_TxRxCpltCallback
  | Handler.Rx => HAL_SPI_RxCpltCallback

/-- Modelled from the spec: the constants that configureDmaStream stores are defined in HAL
headers that are not under src/; they are kept by name. -/
inductive DmaConst
  | DMA_PERIPH_TO_MEMORY
  | DMA_MEMORY_TO_PERIPH
  | DMA_PINC_DISABLE
  | DMA_MINC_ENABLE
  | DMA_PDATAALIGN_BYTE
  | DMA_MDATAALIGN_BYTE
  | DMA_NORMAL
  | DMA_PRIORITY_LOW
  | DMA_PRIORITY_HIGH
  | DMA_FIFOMODE_DISABLE
  | DMA_FIFO_THRESHOLD_FULL
  | DMA_MBURST_SINGLE
  | DMA_PBURST_SINGLE
  deriving DecidableEq, Repr

/-- Modelled from the spec: DMA_HandleTypeDef is declared in a HAL header that is not under
src/; these are the fields the source writes. `Request` is Init.Request on H7 and
Init.Channel elsewhere. -/
structure DMA_HandleTypeDef where
  Instance : Nat
  Request : Nat
  Direction : DmaConst
  PeriphInc : DmaConst
  MemInc : DmaConst
  PeriphDataAlignment : DmaConst
  MemDataAlignment : DmaConst
  Mode : DmaConst
  Priority : DmaConst
  FIFOMode : DmaConst
  FIFOThreshold : DmaConst
  MemBurst : DmaConst
  PeriphBurst : DmaConst
  deriving DecidableEq, Repr

/-- HardwareSPI::configureDmaStream (lines 285-304). Every field of the descriptor is
written, so the old descriptor is not an argument. -/
def configureDmaStream (inst chan : Nat) (dir minc : DmaConst) : DMA_HandleTypeDef :=
  { Instance := inst
    Request := chan
    Direction := dir
    PeriphInc := DmaConst.DMA_PINC_DISABLE
    MemInc := minc
    PeriphDataAlignment := DmaConst.DMA_PDATAALIGN_BYTE
    MemDataAlignment := DmaConst.DMA_MDATAALIGN_BYTE
    Mode := DmaConst.DMA_NORMAL
    Priority := DmaConst.DMA_PRIORITY_LOW
    FIFOMode := DmaConst.DMA_FIFOMODE_DISABLE
    FIFOThreshold := DmaConst.DMA_FIFO_THRESHOLD_FULL
    MemBurst := DmaConst.DMA_MBURST_SINGLE
    PeriphBurst := DmaConst.DMA_PBURST_SINGLE }

/-- A device object of the DMA strategy together with its two stream descriptors, which the
record HardwareSPI does not carry. -/
structure DmaDevice where
  spi : HardwareSPI
  dmaRx : DMA_HandleTypeDef
  dmaTx : DMA_HandleTypeDef
  deriving DecidableEq, Repr

/-- The eight-argument constructor (lines 346-355): the DMA device. `d0` is the storage the
object is built in; members the constructor does not name keep its contents. -/
def HardwareSPI.HardwareSPI8 (d0 : HardwareSPI) (spi spiIrqNo rxStream rxChan rxIrqNo
    txStream txChan txIrqNo : Nat) : DmaDevice :=
  { spi := { d0 with
      dev := spi, spiIrq := spiIrqNo, rxIrq := rxIrqNo, txIrq := txIrqNo
      initComplete := false, transferActive := false, ioType := SpiIoType.dma
      curBitRate := 0xffffffff, curClockMode := 0xffffffff, curBits := 0xffffffff }
    dmaRx := { configureDmaStream rxStream rxChan DmaConst.DMA_PERIPH_TO_MEMORY
        DmaConst.DMA_MINC_ENABLE with Priority := DmaConst.DMA_PRIORITY_HIGH }
    dmaTx := configureDmaStream txStream txChan DmaConst.DMA_MEMORY_TO_PERIPH
      DmaConst.DMA_MINC_ENABLE }

/-- The two-argument constructor (lines 357-362): the interrupt device. -/
def HardwareSPI.HardwareSPI2 (d0 : HardwareSPI) (spi spiIrqNo : Nat) : HardwareSPI :=
  { d0 with
    dev := spi, spiIrq := spiIrqNo
    initComplete := false, transferActive := false, ioType := SpiIoType.interrupt
    curBitRate := 0xffffffff, curClockMode := 0xffffffff, curBits := 0xffffffff }

/-- The one-argument constructor (lines 364-369): the polled device. -/
def HardwareSPI.HardwareSPI1 (d0 : HardwareSPI) (spi : Nat) : HardwareSPI :=
  { d0 with
    dev := spi
    initComplete := false, transferActive := false, ioType := SpiIoType.polled
    curBitRate := 0xffffffff, curClockMode := 0xffffffff, curBits := 0xffffffff }

/-- An interrupt-driven start primitive. -/
def isITStart : Event → Bool
  | Event.halStart Xfer.viaIT _ _ _ _ => true
  | _ => false

/-- A readiness query: HAL_SPI_GetState or HAL_DMA_GetState. -/
def isReadinessQuery : Event → Bool
  | Event.HAL_SPI_GetState => true
  | Event.HAL_DMA_GetState _ => true
  | _ => false

/-- What a readiness check that found the hardware not ready adds: the message and the delay. -/
def isReport : Event → Bool
  | Event.debugPrintf _ => true
  | Event.delay _ => true
  | _ => false

/-- How many of the three readiness checks of startTransferDMA find the hardware not ready. -/
def dmaNotReady (e : Env) : Nat :=
  (if e.spiState ≠ HAL_SPI_StateTypeDef.READY then 1 else 0) +
  (if e.dmaRxState ≠ HAL_DMA_StateTypeDef.READY then 1 else 0) +
  (if e.dmaTxState ≠ HAL_DMA_StateTypeDef.READY then 1 else 0)

/-- How many of the readiness checks of startTransferIT (there is one) find the peripheral not
ready. -/
def itNotReady (e : Env) : Nat :=
  if e.spiState ≠ HAL_SPI_StateTypeDef.READY then 1 else 0

/-- A peripheral and two DMA channels that all report busy, and a request that is accepted. -/
def envBusy : Env :=
  { caller := 7, spiState := HAL_SPI_StateTypeDef.BUSY
    dmaRxState := HAL_DMA_StateTypeDef.BUSY, dmaTxState := HAL_DMA_StateTypeDef.BUSY
    blocking := HAL_StatusTypeDef.HAL_OK, started := HAL_StatusTypeDef.HAL_OK
    miso := fun l => l, waits := [Wait.complete] }

/-- The linker symbols ccmram.cpp refers to, as 32-bit addresses: the start of CCM RAM, the end
of its static data and the end of CCM RAM. The file is compiled only when STM32H7 is not
set. -/
structure CcmSymbols where
  sccmram : Nat
  eccmram : Nat
  ccmramend : Nat
  deriving DecidableEq, Repr

/-- The two heap pointers of ccmram.cpp. -/
structure CcmHeap where
  ccmHeapLimit : Nat
  ccmHeapTop : Nat
  deriving DecidableEq, Repr

/-- The static initialisers of the heap pointers (ccmram.cpp lines 7-8). -/
def ccmHeapInit (l : CcmSymbols) : CcmHeap :=
  { ccmHeapLimit := l.ccmramend, ccmHeapTop := l.eccmram }

/-- Subtraction of 32-bit unsigned values. -/
def sub32 (a b : Nat) : Nat := (a % 2 ^ 32 + 2 ^ 32 - b % 2 ^ 32) % 2 ^ 32

/-- Bitwise complement of a 32-bit unsigned value. -/
def not32 (a : Nat) : Nat := 2 ^ 32 - 1 - a % 2 ^ 32

/-- CoreAllocCCMRAMPermanent (ccmram.cpp lines 15-24). The result is `none` when the function
calls OutOfMemoryHandler, which does not return; otherwise the returned address and the heap
pointers afterwards. -/
def CoreAllocCCMRAMPermanent (sz align : Nat) (h : CcmHeap) : Option (Nat × CcmHeap) :=
  let newHeapLimit := sub32 h.ccmHeapLimit sz &&& not32 (sub32 align 1)
  if newHeapLimit < h.ccmHeapTop then none
  else some (newHeapLimit, { h with ccmHeapLimit := newHeapLimit })

/-- What CoreCCMRAMUsage stores through its three reference parameters. -/
structure CcmUsage where
  ccmStatic : Nat
  ccmUsed : Nat
  ccmFree : Nat
  deriving DecidableEq, Repr

/-- CoreCCMRAMUsage (ccmram.cpp lines 26-31): three pointer differences stored as size_t. -/
def CoreCCMRAMUsage (l : CcmSymbols) (h : CcmHeap) : CcmUsage :=
  { ccmStatic := sub32 l.eccmram l.sccmram
    ccmUsed := sub32 l.ccmramend h.ccmHeapLimit
    ccmFree := sub32 h.ccmHeapLimit h.ccmHeapTop }

/-- A sequence of CoreAllocCCMRAMPermanent calls, each given as (sz, align): the heap pointers
after the last call, or `none` when one of the calls does not return. -/
def allocAll : List (Nat × Nat) → CcmHeap → Option CcmHeap
  | [], h => some h
  | (sz, align) :: rest, h =>
    match CoreAllocCCMRAMPermanent sz align h with
    | some r => allocAll rest r.2
    | none => none

/-- The heap pointers are where the code can have put them while no subtraction wrapped:
ccmHeapTop is the end of the static data and ccmHeapLimit lies between it and the end of
CCM RAM. -/
def CcmHeap.inBounds (l : CcmSymbols) (h : CcmHeap) : Prop :=
  h.ccmHeapTop = l.eccmram ∧ l.eccmram ≤ h.ccmHeapLimit ∧ h.ccmHeapLimit ≤ l.ccmramend

/-- The symbols of a linker script that lays out CCM RAM: start, end of static data and end in
this order, all below 2^32. -/
def CcmSymbols.wellFormed (l : CcmSymbols) : Prop :=
  l.sccmram ≤ l.eccmram ∧ l.eccmram ≤ l.ccmramend ∧ l.ccmramend < 2 ^ 32

/-- The 64 KiB of CCM RAM of an F4 at 0x10000000, with 1 KiB of static data. -/
def ccmF4 : CcmSymbols := { sccmram := 0x10000000, eccmram := 0x10000400, ccmramend := 0x10010000 }

/-- Modelled from the spec: the macros STM_PIN_DATA and STM_PIN_DATA_EXT are defined in a
header that is not under src/. The third member of a PinMap entry is the literal 0 of the
terminator or one of the two macros, which pack mode, pull and alternate function (and, for
the second, channel and inversion); the arguments are kept by name. -/
inductive PinFunction
  | zero
  | STM_PIN_DATA (mode pull afnum : String)
  | STM_PIN_DATA_EXT (mode pull afnum : String) (channel inverted : Nat)
  deriving DecidableEq, Repr

/-- Modelled from the spec: struct PinMap is declared in the missing PeripheralPins.h. One
entry of a table of PeripheralPins.c has three members, here pin, peripheral and function,
the two names kept as written. -/
structure PinMap where
  pin : String
  peripheral : String
  function : PinFunction
  deriving DecidableEq, Repr

/-- The terminator entry, written {NC, NP, 0} in the source. -/
def PinMap.terminator : PinMap := ⟨"NC", "NP", PinFunction.zero⟩

/-- PinMap_ADC (PeripheralPins.c lines 43-75), the entries that are not commented out. -/
def PinMap_ADC : List PinMap :=
  [
    ⟨"PA_3", "ADC1", PinFunction.STM_PIN_DATA_EXT "STM_MODE_ANALOG" "GPIO_NOPULL" "0" 15 0⟩,
    ⟨"PH_4", "ADC3", PinFunction.STM_PIN_DATA_EXT "STM_MODE_ANALOG" "GPIO_NOPULL" "0" 15 0⟩,
    ⟨"PH_5", "ADC3", PinFunction.STM_PIN_DATA_EXT "STM_MODE_ANALOG" "GPIO_NOPULL" "0" 16 0⟩,
    ⟨"PA_0", "ADC1", PinFunction.STM_PIN_DATA_EXT "STM_MODE_ANALOG" "GPIO_NOPULL" "0" 16 0⟩,
    ⟨"PA_1", "ADC1", PinFunction.STM_PIN_DATA_EXT "STM_MODE_ANALOG" "GPIO_NOPULL" "0" 17 0⟩,
    ⟨"PA_2", "ADC1", PinFunction.STM_PIN_DATA_EXT "STM_MODE_ANALOG" "GPIO_NOPULL" "0" 14 0⟩,
    ⟨"PA_4", "ADC1", PinFunction.STM_PIN_DATA_EXT "STM_MODE_ANALOG" "GPIO_NOPULL" "0" 18 0⟩,
    ⟨"PA_5", "ADC1", PinFunction.STM_PIN_DATA_EXT "STM_MODE_ANALOG" "GPIO_NOPULL" "0" 19 0⟩,
    ⟨"PA_6", "ADC1", PinFunction.STM_PIN_DATA_EXT "STM_MODE_ANALOG" "GPIO_NOPULL" "0" 3 0⟩,
    ⟨"PA_7", "ADC1", PinFunction.STM_PIN_DATA_EXT "STM_MODE_ANALOG" "GPIO_NOPULL" "0" 7 0⟩,
    ⟨"PB_0", "ADC1", PinFunction.STM_PIN_DATA_EXT "STM_MODE_ANALOG" "GPIO_NOPULL" "0" 9 0⟩,
    ⟨"PB_1", "ADC1", PinFunction.STM_PIN_DATA_EXT "STM_MODE_ANALOG" "GPIO_NOPULL" "0" 5 0⟩,
    ⟨"PC_0", "ADC3", PinFunction.STM_PIN_DATA_EXT "STM_MODE_ANALOG" "GPIO_NOPULL" "0" 10 0⟩,
    ⟨"PC_1", "ADC1", PinFunction.STM_PIN_DATA_EXT "STM_MODE_ANALOG" "GPIO_NOPULL" "0" 11 0⟩,
    ⟨"PC_2", "ADC3", PinFunction.STM_PIN_DATA_EXT "STM_MODE_ANALOG" "GPIO_NOPULL" "0" 0 0⟩,
    ⟨"PC_3", "ADC3", PinFunction.STM_PIN_DATA_EXT "STM_MODE_ANALOG" "GPIO_NOPULL" "0" 1 0⟩,
    ⟨"PC_4", "ADC1", PinFunction.STM_PIN_DATA_EXT "STM_MODE_ANALOG" "GPIO_NOPULL" "0" 4 0⟩,
    ⟨"PC_5", "ADC1", PinFunction.STM_PIN_DATA_EXT "STM_MODE_ANALOG" "GPIO_NOPULL" "0" 8 0⟩,
    ⟨"PF_3", "ADC3", PinFunction.STM_PIN_DATA_EXT "STM_MODE_ANALOG" "GPIO_NOPULL" "0" 5 0⟩,
    ⟨"PF_4", "ADC3", PinFunction.STM_PIN_DATA_EXT "STM_MODE_ANALOG" "GPIO_NOPULL" "0" 9 0⟩,
    ⟨"PF_5", "ADC3", PinFunction.STM_PIN_DATA_EXT "STM_MODE_ANALOG" "GPIO_NOPULL" "0" 4 0⟩,
    ⟨"PF_6", "ADC3", PinFunction.STM_PIN_DATA_EXT "STM_MODE_ANALOG" "GPIO_NOPULL" "0" 8 0⟩,
    ⟨"PF_7", "ADC3", PinFunction.STM_PIN_DATA_EXT "STM_MODE_ANALOG" "GPIO_NOPULL" "0" 3 0⟩,
    ⟨"PF_8", "ADC3", PinFunction.STM_PIN_DATA_EXT "STM_MODE_ANALOG" "GPIO_NOPULL" "0" 7 0⟩,
    ⟨"PF_9", "ADC3", PinFunction.STM_PIN_DATA_EXT "STM_MODE_ANALOG" "GPIO_NOPULL" "0" 2 0⟩,
    ⟨"PF_10", "ADC3", PinFunction.STM_PIN_DATA_EXT "STM_MODE_ANALOG" "GPIO_NOPULL" "0" 6 0⟩,
    ⟨"PF_11", "ADC1", PinFunction.STM_PIN_DATA_EXT "STM_MODE_ANALOG" "GPIO_NOPULL" "0" 2 0⟩,
    ⟨"PF_12", "ADC1", PinFunction.STM_PIN_DATA_EXT "STM_MODE_ANALOG" "GPIO_NOPULL" "0" 6 0⟩,
    ⟨"PF_13", "ADC2", PinFunction.STM_PIN_DATA_EXT "STM_MODE_ANALOG" "GPIO_NOPULL" "0" 2 0⟩,
    ⟨"PF_14", "ADC2", PinFunction.STM_PIN_DATA_EXT "STM_MODE_ANALOG" "GPIO_NOPULL" "0" 6 0⟩,
    ⟨"NC", "NP", PinFunction.zero⟩
  ]

/-- PinMap_DAC (PeripheralPins.c lines 81-85), the entries that are not commented out. -/
def PinMap_DAC : List PinMap :=
  [
    ⟨"PA_4", "DAC1", PinFunction.STM_PIN_DATA_EXT "STM_MODE_ANALOG" "GPIO_NOPULL" "0" 1 0⟩,
    ⟨"PA_5", "DAC1", PinFunction.STM_PIN_DATA_EXT "STM_MODE_ANALOG" "GPIO_NOPULL" "0" 2 0⟩,
    ⟨"NC", "NP", PinFunction.zero⟩
  ]

/-- PinMap_I2C_SDA (PeripheralPins.c lines 91-102), the entries that are not commented out. -/
def PinMap_I2C_SDA : List PinMap :=
  [
    ⟨"PB_9", "I2C1", PinFunction.STM_PIN_DATA "STM_MODE_AF_OD" "GPIO_NOPULL" "GPIO_AF4_I2C1"⟩,
    ⟨"PB_7", "I2C4", PinFunction.STM_PIN_DATA "STM_MODE_AF_OD" "GPIO_NOPULL" "GPIO_AF6_I2C4"⟩,
    ⟨"PB_11", "I2C2", PinFunction.STM_PIN_DATA "STM_MODE_AF_OD" "GPIO_NOPULL" "GPIO_AF4_I2C2"⟩,
    ⟨"PD_13", "I2C4", PinFunction.STM_PIN_DATA "STM_MODE_AF_OD" "GPIO_NOPULL" "GPIO_AF4_I2C4"⟩,
    ⟨"PF_0", "I2C2", PinFunction.STM_PIN_DATA "STM_MODE_AF_OD" "GPIO_NOPULL" "GPIO_AF4_I2C2"⟩,
    ⟨"PF_15", "I2C4", PinFunction.STM_PIN_DATA "STM_MODE_AF_OD" "GPIO_NOPULL" "GPIO_AF4_I2C4"⟩,
    ⟨"NC", "NP", PinFunction.zero⟩
  ]

/-- PinMap_I2C_SCL (PeripheralPins.c lines 104-115), the entries that are not commented out. -/
def PinMap_I2C_SCL : List PinMap :=
  [
    ⟨"PB_8", "I2C1", PinFunction.STM_PIN_DATA "STM_MODE_AF_OD" "GPIO_NOPULL" "GPIO_AF4_I2C1"⟩,
    ⟨"PB_6", "I2C4", PinFunction.STM_PIN_DATA "STM_MODE_AF_OD" "GPIO_NOPULL" "GPIO_AF6_I2C4"⟩,
    ⟨"PB_10", "I2C2", PinFunction.STM_PIN_DATA "STM_MODE_AF_OD" "GPIO_NOPULL" "GPIO_AF4_I2C2"⟩,
    ⟨"PD_12", "I2C4", PinFunction.STM_PIN_DATA "STM_MODE_AF_OD" "GPIO_NOPULL" "GPIO_AF4_I2C4"⟩,
    ⟨"PF_1", "I2C2", PinFunction.STM_PIN_DATA "STM_MODE_AF_OD" "GPIO_NOPULL" "GPIO_AF4_I2C2"⟩,
    ⟨"PF_14", "I2C4", PinFunction.STM_PIN_DATA "STM_MODE_AF_OD" "GPIO_NOPULL" "GPIO_AF4_I2C4"⟩,
    ⟨"NC", "NP", PinFunction.zero⟩
  ]

/-- PinMap_PWM (PeripheralPins.c lines 121-201), the entries that are not commented out. -/
def PinMap_PWM : List PinMap :=
  [
    ⟨"PA_0", "TIM2",
      PinFunction.STM_PIN_DATA_EXT "STM_MODE_AF_PP" "GPIO_PULLUP" "GPIO_AF1_TIM2" 1 0⟩,
    ⟨"PA_1", "TIM2",
      PinFunction.STM_PIN_DATA_EXT "STM_MODE_AF_PP" "GPIO_PULLUP" "GPIO_AF1_TIM2" 2 0⟩,
    ⟨"PA_2", "TIM15",
      PinFunction.STM_PIN_DATA_EXT "STM_MODE_AF_PP" "GPIO_PULLUP" "GPIO_AF4_TIM15" 1 0⟩,
    ⟨"PA_3", "TIM2",
      PinFunction.STM_PIN_DATA_EXT "STM_MODE_AF_PP" "GPIO_PULLUP" "GPIO_AF1_TIM2" 4 0⟩,
    ⟨"PA_5", "TIM2",
      PinFunction.STM_PIN_DATA_EXT "STM_MODE_AF_PP" "GPIO_PULLUP" "GPIO_AF1_TIM2" 1 0⟩,
    ⟨"PA_6", "TIM13",
      PinFunction.STM_PIN_DATA_EXT "STM_MODE_AF_PP" "GPIO_PULLUP" "GPIO_AF9_TIM13" 1 0⟩,
    ⟨"PA_7", "TIM14",
      PinFunction.STM_PIN_DATA_EXT "STM_MODE_AF_PP" "GPIO_PULLUP" "GPIO_AF9_TIM14" 1 0⟩,
    ⟨"PA_15", "TIM2",
      PinFunction.STM_PIN_DATA_EXT "STM_MODE_AF_PP" "GPIO_PULLUP" "GPIO_AF1_TIM2" 1 0⟩,
    ⟨"PB_0", "TIM3",
      PinFunction.STM_PIN_DATA_EXT "STM_MODE_AF_PP" "GPIO_PULLUP" "GPIO_AF2_TIM3" 3 0⟩,
    ⟨"PB_1", "TIM3",
      PinFunction.STM_PIN_DATA_EXT "STM_MODE_AF_PP" "GPIO_PULLUP" "GPIO_AF2_TIM3" 4 0⟩,
    ⟨"PB_3", "TIM2",
      PinFunction.STM_PIN_DATA_EXT "STM_MODE_AF_PP" "GPIO_PULLUP" "GPIO_AF1_TIM2" 2 0⟩,
    ⟨"PB_4", "TIM3",
      PinFunction.STM_PIN_DATA_EXT "STM_MODE_AF_PP" "GPIO_PULLUP" "GPIO_AF2_TIM3" 1 0⟩,
    ⟨"PB_5", "TIM3",
      PinFunction.STM_PIN_DATA_EXT "STM_MODE_AF_PP" "GPIO_PULLUP" "GPIO_AF2_TIM3" 2 0⟩,
    ⟨"PB_6", "TIM4",
      PinFunction.STM_PIN_DATA_EXT "STM_MODE_AF_PP" "GPIO_PULLUP" "GPIO_AF2_TIM4" 1 0⟩,
    ⟨"PB_7", "TIM4",
      PinFunction.STM_PIN_DATA_EXT "STM_MODE_AF_PP" "GPIO_PULLUP" "GPIO_AF2_TIM4" 2 0⟩,
    ⟨"PB_8", "TIM16",
      PinFunction.STM_PIN_DATA_EXT "STM_MODE_AF_PP" "GPIO_PULLUP" "GPIO_AF1_TIM16" 1 0⟩,
    ⟨"PB_9", "TIM17",
      PinFunction.STM_PIN_DATA_EXT "STM_MODE_AF_PP" "GPIO_PULLUP" "GPIO_AF1_TIM17" 1 0⟩,
    ⟨"PB_10", "TIM2",
      PinFunction.STM_PIN_DATA_EXT "STM_MODE_AF_PP" "GPIO_PULLUP" "GPIO_AF1_TIM2" 3 0⟩,
    ⟨"PB_11", "TIM2",
      PinFunction.STM_PIN_DATA_EXT "STM_MODE_AF_PP" "GPIO_PULLUP" "GPIO_AF1_TIM2" 4 0⟩,
    ⟨"PB_14", "TIM12",
      PinFunction.STM_PIN_DATA_EXT "STM_MODE_AF_PP" "GPIO_PULLUP" "GPIO_AF2_TIM12" 1 0⟩,
    ⟨"PB_15", "TIM12",
      PinFunction.STM_PIN_DATA_EXT "STM_MODE_AF_PP" "GPIO_PULLUP" "GPIO_AF2_TIM12" 2 0⟩,
    ⟨"PC_6", "TIM3",
      PinFunction.STM_PIN_DATA_EXT "STM_MODE_AF_PP" "GPIO_PULLUP" "GPIO_AF2_TIM3" 1 0⟩,
    ⟨"PC_7", "TIM8",
      PinFunction.STM_PIN_DATA_EXT "STM_MODE_AF_PP" "GPIO_PULLUP" "GPIO_AF3_TIM8" 2 0⟩,
    ⟨"PC_8", "TIM8",
      PinFunction.STM_PIN_DATA_EXT "STM_MODE_AF_PP" "GPIO_PULLUP" "GPIO_AF3_TIM8" 3 0⟩,
    ⟨"PC_9", "TIM8",
      PinFunction.STM_PIN_DATA_EXT "STM_MODE_AF_PP" "GPIO_PULLUP" "GPIO_AF3_TIM8" 4 0⟩,
    ⟨"PD_12", "TIM4",
      PinFunction.STM_PIN_DATA_EXT "STM_MODE_AF_PP" "GPIO_PULLUP" "GPIO_AF2_TIM4" 1 0⟩,
    ⟨"PD_13", "TIM4",
      PinFunction.STM_PIN_DATA_EXT "STM_MODE_AF_PP" "GPIO_PULLUP" "GPIO_AF2_TIM4" 2 0⟩,
    ⟨"PD_14", "TIM4",
      PinFunction.STM_PIN_DATA_EXT "STM_MODE_AF_PP" "GPIO_PULLUP" "GPIO_AF2_TIM4" 3 0⟩,
    ⟨"PD_15", "TIM4",
      PinFunction.STM_PIN_DATA_EXT "STM_MODE_AF_PP" "GPIO_PULLUP" "GPIO_AF2_TIM4" 4 0⟩,
    ⟨"PE_5", "TIM15",
      PinFunction.STM_PIN_DATA_EXT "STM_MODE_AF_PP" "GPIO_PULLUP" "GPIO_AF4_TIM15" 1 0⟩,
    ⟨"PE_6", "TIM15",
      PinFunction.STM_PIN_DATA_EXT "STM_MODE_AF_PP" "GPIO_PULLUP" "GPIO_AF4_TIM15" 2 0⟩,
    ⟨"PF_6", "TIM16",
      PinFunction.STM_PIN_DATA_EXT "STM_MODE_AF_PP" "GPIO_PULLUP" "GPIO_AF1_TIM16" 1 0⟩,
    ⟨"PF_7", "TIM17",
      PinFunction.STM_PIN_DATA_EXT "STM_MODE_AF_PP" "GPIO_PULLUP" "GPIO_AF1_TIM17" 1 0⟩,
    ⟨"PF_8", "TIM13",
      PinFunction.STM_PIN_DATA_EXT "STM_MODE_AF_PP" "GPIO_PULLUP" "GPIO_AF9_TIM13" 1 0⟩,
    ⟨"PF_9", "TIM14",
      PinFunction.STM_PIN_DATA_EXT "STM_MODE_AF_PP" "GPIO_PULLUP" "GPIO_AF9_TIM14" 1 0⟩,
    ⟨"NC", "NP", PinFunction.zero⟩
  ]

/-- PinMap_UART_TX (PeripheralPins.c lines 207-234), the entries that are not commented out. -/
def PinMap_UART_TX : List PinMap :=
  [
    ⟨"PA_0", "UART4", PinFunction.STM_PIN_DATA "STM_MODE_AF_PP" "GPIO_PULLUP" "GPIO_AF8_UART4"⟩,
    ⟨"PA_2", "USART2", PinFunction.STM_PIN_DATA "STM_MODE_AF_PP" "GPIO_PULLUP" "GPIO_AF7_USART2"⟩,
    ⟨"PA_9", "USART1", PinFunction.STM_PIN_DATA "STM_MODE_AF_PP" "GPIO_PULLUP" "GPIO_AF7_USART1"⟩,
    ⟨"PA_12", "UART4", PinFunction.STM_PIN_DATA "STM_MODE_AF_PP" "GPIO_PULLUP" "GPIO_AF6_UART4"⟩,
    ⟨"PA_15", "UART7", PinFunction.STM_PIN_DATA "STM_MODE_AF_PP" "GPIO_PULLUP" "GPIO_AF11_UART7"⟩,
    ⟨"PB_4", "UART7", PinFunction.STM_PIN_DATA "STM_MODE_AF_PP" "GPIO_PULLUP" "GPIO_AF11_UART7"⟩,
    ⟨"PB_6", "UART5", PinFunction.STM_PIN_DATA "STM_MODE_AF_PP" "GPIO_PULLUP" "GPIO_AF14_UART5"⟩,
    ⟨"PB_6", "USART1", PinFunction.STM_PIN_DATA "STM_MODE_AF_PP" "GPIO_PULLUP" "GPIO_AF7_USART1"⟩,
    ⟨"PB_9", "UART4", PinFunction.STM_PIN_DATA "STM_MODE_AF_PP" "GPIO_PULLUP" "GPIO_AF8_UART4"⟩,
    ⟨"PB_10", "USART3", PinFunction.STM_PIN_DATA "STM_MODE_AF_PP" "GPIO_PULLUP" "GPIO_AF7_USART3"⟩,
    ⟨"PB_13", "UART5", PinFunction.STM_PIN_DATA "STM_MODE_AF_PP" "GPIO_PULLUP" "GPIO_AF14_UART5"⟩,
    ⟨"PB_14", "USART1", PinFunction.STM_PIN_DATA "STM_MODE_AF_PP" "GPIO_PULLUP" "GPIO_AF4_USART1"⟩,
    ⟨"PC_6", "USART6", PinFunction.STM_PIN_DATA "STM_MODE_AF_PP" "GPIO_PULLUP" "GPIO_AF7_USART6"⟩,
    ⟨"PC_10", "UART4", PinFunction.STM_PIN_DATA "STM_MODE_AF_PP" "GPIO_PULLUP" "GPIO_AF8_UART4"⟩,
    ⟨"PC_10", "USART3", PinFunction.STM_PIN_DATA "STM_MODE_AF_PP" "GPIO_PULLUP" "GPIO_AF7_USART3"⟩,
    ⟨"PC_12", "UART5", PinFunction.STM_PIN_DATA "STM_MODE_AF_PP" "GPIO_PULLUP" "GPIO_AF8_UART5"⟩,
    ⟨"PD_1", "UART4", PinFunction.STM_PIN_DATA "STM_MODE_AF_PP" "GPIO_PULLUP" "GPIO_AF8_UART4"⟩,
    ⟨"PD_5", "USART2", PinFunction.STM_PIN_DATA "STM_MODE_AF_PP" "GPIO_PULLUP" "GPIO_AF7_USART2"⟩,
    ⟨"PD_8", "USART3", PinFunction.STM_PIN_DATA "STM_MODE_AF_PP" "GPIO_PULLUP" "GPIO_AF7_USART3"⟩,
    ⟨"PE_1", "UART8", PinFunction.STM_PIN_DATA "STM_MODE_AF_PP" "GPIO_PULLUP" "GPIO_AF8_UART8"⟩,
    ⟨"PE_8", "UART7", PinFunction.STM_PIN_DATA "STM_MODE_AF_PP" "GPIO_PULLUP" "GPIO_AF7_UART7"⟩,
    ⟨"PF_7", "UART7", PinFunction.STM_PIN_DATA "STM_MODE_AF_PP" "GPIO_PULLUP" "GPIO_AF7_UART7"⟩,
    ⟨"PG_14", "USART6", PinFunction.STM_PIN_DATA "STM_MODE_AF_PP" "GPIO_PULLUP" "GPIO_AF7_USART6"⟩,
    ⟨"NC", "NP", PinFunction.zero⟩
  ]

/-- PinMap_UART_RX (PeripheralPins.c lines 236-263), the entries that are not commented out. -/
def PinMap_UART_RX : List PinMap :=
  [
    ⟨"PA_1", "UART4", PinFunction.STM_PIN_DATA "STM_MODE_AF_PP" "GPIO_PULLUP" "GPIO_AF8_UART4"⟩,
    ⟨"PA_3", "USART2", PinFunction.STM_PIN_DATA "STM_MODE_AF_PP" "GPIO_PULLUP" "GPIO_AF7_USART2"⟩,
    ⟨"PA_8", "UART7", PinFunction.STM_PIN_DATA "STM_MODE_AF_PP" "GPIO_PULLUP" "GPIO_AF11_UART7"⟩,
    ⟨"PA_10", "USART1", PinFunction.STM_PIN_DATA "STM_MODE_AF_PP" "GPIO_PULLUP" "GPIO_AF7_USART1"⟩,
    ⟨"PA_11", "UART4", PinFunction.STM_PIN_DATA "STM_MODE_AF_PP" "GPIO_PULLUP" "GPIO_AF6_UART4"⟩,
    ⟨"PB_3", "UART7", PinFunction.STM_PIN_DATA "STM_MODE_AF_PP" "GPIO_PULLUP" "GPIO_AF11_UART7"⟩,
    ⟨"PB_5", "UART5", PinFunction.STM_PIN_DATA "STM_MODE_AF_PP" "GPIO_PULLUP" "GPIO_AF14_UART5"⟩,
    ⟨"PB_7", "USART1", PinFunction.STM_PIN_DATA "STM_MODE_AF_PP" "GPIO_PULLUP" "GPIO_AF7_USART1"⟩,
    ⟨"PB_8", "UART4", PinFunction.STM_PIN_DATA "STM_MODE_AF_PP" "GPIO_PULLUP" "GPIO_AF8_UART4"⟩,
    ⟨"PB_11", "USART3", PinFunction.STM_PIN_DATA "STM_MODE_AF_PP" "GPIO_PULLUP" "GPIO_AF7_USART3"⟩,
    ⟨"PB_12", "UART5", PinFunction.STM_PIN_DATA "STM_MODE_AF_PP" "GPIO_PULLUP" "GPIO_AF14_UART5"⟩,
    ⟨"PB_15", "USART1", PinFunction.STM_PIN_DATA "STM_MODE_AF_PP" "GPIO_PULLUP" "GPIO_AF4_USART1"⟩,
    ⟨"PC_7", "USART6", PinFunction.STM_PIN_DATA "STM_MODE_AF_PP" "GPIO_PULLUP" "GPIO_AF7_USART6"⟩,
    ⟨"PC_11", "UART4", PinFunction.STM_PIN_DATA "STM_MODE_AF_PP" "GPIO_PULLUP" "GPIO_AF8_UART4"⟩,
    ⟨"PC_11", "USART3", PinFunction.STM_PIN_DATA "STM_MODE_AF_PP" "GPIO_PULLUP" "GPIO_AF7_USART3"⟩,
    ⟨"PD_0", "UART4", PinFunction.STM_PIN_DATA "STM_MODE_AF_PP" "GPIO_PULLUP" "GPIO_AF8_UART4"⟩,
    ⟨"PD_2", "UART5", PinFunction.STM_PIN_DATA "STM_MODE_AF_PP" "GPIO_PULLUP" "GPIO_AF8_UART5"⟩,
    ⟨"PD_6", "USART2", PinFunction.STM_PIN_DATA "STM_MODE_AF_PP" "GPIO_PULLUP" "GPIO_AF7_USART2"⟩,
    ⟨"PD_9", "USART3", PinFunction.STM_PIN_DATA "STM_MODE_AF_PP" "GPIO_PULLUP" "GPIO_AF7_USART3"⟩,
    ⟨"PE_0", "UART8", PinFunction.STM_PIN_DATA "STM_MODE_AF_PP" "GPIO_PULLUP" "GPIO_AF8_UART8"⟩,
    ⟨"PE_7", "UART7", PinFunction.STM_PIN_DATA "STM_MODE_AF_PP" "GPIO_PULLUP" "GPIO_AF7_UART7"⟩,
    ⟨"PF_6", "UART7", PinFunction.STM_PIN_DATA "STM_MODE_AF_PP" "GPIO_PULLUP" "GPIO_AF7_UART7"⟩,
    ⟨"PG_9", "USART6", PinFunction.STM_PIN_DATA "STM_MODE_AF_PP" "GPIO_PULLUP" "GPIO_AF7_USART6"⟩,
    ⟨"NC", "NP", PinFunction.zero⟩
  ]

/-- PinMap_UART_RTS (PeripheralPins.c lines 265-281): every line between the braces is
commented out, the line of the terminator included. -/
def PinMap_UART_RTS : List PinMap := []

/-- PinMap_UART_CTS (PeripheralPins.c lines 283-299), the entries that are not commented out. -/
def PinMap_UART_CTS : List PinMap :=
  [
    ⟨"PA_0", "USART2", PinFunction.STM_PIN_DATA "STM_MODE_AF_PP" "GPIO_PULLUP" "GPIO_AF7_USART2"⟩,
    ⟨"NC", "NP", PinFunction.zero⟩
  ]

/-- PinMap_SPI_MOSI (PeripheralPins.c lines 305-324), the entries that are not commented out. -/
def PinMap_SPI_MOSI : List PinMap :=
  [
    ⟨"PC_12", "SPI3", PinFunction.STM_PIN_DATA "STM_MODE_AF_PP" "GPIO_PULLUP" "GPIO_AF6_SPI3"⟩,
    ⟨"PA_7", "SPI1", PinFunction.STM_PIN_DATA "STM_MODE_AF_PP" "GPIO_PULLUP" "GPIO_AF5_SPI1"⟩,
    ⟨"PB_2", "SPI3", PinFunction.STM_PIN_DATA "STM_MODE_AF_PP" "GPIO_PULLUP" "GPIO_AF7_SPI3"⟩,
    ⟨"PB_5", "SPI1", PinFunction.STM_PIN_DATA "STM_MODE_AF_PP" "GPIO_PULLUP" "GPIO_AF5_SPI1"⟩,
    ⟨"PB_5", "SPI3", PinFunction.STM_PIN_DATA "STM_MODE_AF_PP" "GPIO_PULLUP" "GPIO_AF7_SPI3"⟩,
    ⟨"PB_15", "SPI2", PinFunction.STM_PIN_DATA "STM_MODE_AF_PP" "GPIO_PULLUP" "GPIO_AF5_SPI2"⟩,
    ⟨"PC_1", "SPI2", PinFunction.STM_PIN_DATA "STM_MODE_AF_PP" "GPIO_PULLUP" "GPIO_AF5_SPI2"⟩,
    ⟨"PC_3", "SPI2", PinFunction.STM_PIN_DATA "STM_MODE_AF_PP" "GPIO_PULLUP" "GPIO_AF5_SPI2"⟩,
    ⟨"PD_6", "SPI3", PinFunction.STM_PIN_DATA "STM_MODE_AF_PP" "GPIO_PULLUP" "GPIO_AF5_SPI3"⟩,
    ⟨"PD_7", "SPI1", PinFunction.STM_PIN_DATA "STM_MODE_AF_PP" "GPIO_PULLUP" "GPIO_AF5_SPI1"⟩,
    ⟨"PE_6", "SPI4", PinFunction.STM_PIN_DATA "STM_MODE_AF_PP" "GPIO_PULLUP" "GPIO_AF5_SPI4"⟩,
    ⟨"PE_14", "SPI4", PinFunction.STM_PIN_DATA "STM_MODE_AF_PP" "GPIO_PULLUP" "GPIO_AF5_SPI4"⟩,
    ⟨"NC", "NP", PinFunction.zero⟩
  ]

/-- PinMap_SPI_MISO (PeripheralPins.c lines 326-341), the entries that are not commented out. -/
def PinMap_SPI_MISO : List PinMap :=
  [
    ⟨"PC_11", "SPI3", PinFunction.STM_PIN_DATA "STM_MODE_AF_PP" "GPIO_PULLUP" "GPIO_AF6_SPI3"⟩,
    ⟨"PA_6", "SPI1", PinFunction.STM_PIN_DATA "STM_MODE_AF_PP" "GPIO_PULLUP" "GPIO_AF5_SPI1"⟩,
    ⟨"PA_6", "SPI6", PinFunction.STM_PIN_DATA "STM_MODE_AF_PP" "GPIO_PULLUP" "GPIO_AF8_SPI6"⟩,
    ⟨"PB_4", "SPI1", PinFunction.STM_PIN_DATA "STM_MODE_AF_PP" "GPIO_PULLUP" "GPIO_AF5_SPI1"⟩,
    ⟨"PB_4", "SPI3", PinFunction.STM_PIN_DATA "STM_MODE_AF_PP" "GPIO_PULLUP" "GPIO_AF6_SPI3"⟩,
    ⟨"PB_4", "SPI6", PinFunction.STM_PIN_DATA "STM_MODE_AF_PP" "GPIO_PULLUP" "GPIO_AF8_SPI6"⟩,
    ⟨"PB_14", "SPI2", PinFunction.STM_PIN_DATA "STM_MODE_AF_PP" "GPIO_PULLUP" "GPIO_AF5_SPI2"⟩,
    ⟨"PC_2", "SPI2", PinFunction.STM_PIN_DATA "STM_MODE_AF_PP" "GPIO_PULLUP" "GPIO_AF5_SPI2"⟩,
    ⟨"PE_5", "SPI4", PinFunction.STM_PIN_DATA "STM_MODE_AF_PP" "GPIO_PULLUP" "GPIO_AF5_SPI4"⟩,
    ⟨"PE_13", "SPI4", PinFunction.STM_PIN_DATA "STM_MODE_AF_PP" "GPIO_PULLUP" "GPIO_AF5_SPI4"⟩,
    ⟨"PF_8", "SPI5", PinFunction.STM_PIN_DATA "STM_MODE_AF_PP" "GPIO_PULLUP" "GPIO_AF5_SPI5"⟩,
    ⟨"PG_9", "SPI1", PinFunction.STM_PIN_DATA "STM_MODE_AF_PP" "GPIO_PULLUP" "GPIO_AF5_SPI1"⟩,
    ⟨"PG_12", "SPI6", PinFunction.STM_PIN_DATA "STM_MODE_AF_PP" "GPIO_PULLUP" "GPIO_AF5_SPI6"⟩,
    ⟨"NC", "NP", PinFunction.zero⟩
  ]

/-- PinMap_SPI_SCLK (PeripheralPins.c lines 343-361), the entries that are not commented out. -/
def PinMap_SPI_SCLK : List PinMap :=
  [
    ⟨"PC_10", "SPI3", PinFunction.STM_PIN_DATA "STM_MODE_AF_PP" "GPIO_PULLUP" "GPIO_AF6_SPI3"⟩,
    ⟨"PA_5", "SPI1", PinFunction.STM_PIN_DATA "STM_MODE_AF_PP" "GPIO_PULLUP" "GPIO_AF5_SPI1"⟩,
    ⟨"PA_5", "SPI6", PinFunction.STM_PIN_DATA "STM_MODE_AF_PP" "GPIO_PULLUP" "GPIO_AF8_SPI6"⟩,
    ⟨"PA_9", "SPI2", PinFunction.STM_PIN_DATA "STM_MODE_AF_PP" "GPIO_PULLUP" "GPIO_AF5_SPI2"⟩,
    ⟨"PA_12", "SPI2", PinFunction.STM_PIN_DATA "STM_MODE_AF_PP" "GPIO_PULLUP" "GPIO_AF5_SPI2"⟩,
    ⟨"PB_3", "SPI1", PinFunction.STM_PIN_DATA "STM_MODE_AF_PP" "GPIO_PULLUP" "GPIO_AF5_SPI1"⟩,
    ⟨"PB_3", "SPI3", PinFunction.STM_PIN_DATA "STM_MODE_AF_PP" "GPIO_PULLUP" "GPIO_AF6_SPI3"⟩,
    ⟨"PB_3", "SPI6", PinFunction.STM_PIN_DATA "STM_MODE_AF_PP" "GPIO_PULLUP" "GPIO_AF8_SPI6"⟩,
    ⟨"PB_10", "SPI2", PinFunction.STM_PIN_DATA "STM_MODE_AF_PP" "GPIO_PULLUP" "GPIO_AF5_SPI2"⟩,
    ⟨"PB_13", "SPI2", PinFunction.STM_PIN_DATA "STM_MODE_AF_PP" "GPIO_PULLUP" "GPIO_AF5_SPI2"⟩,
    ⟨"PD_3", "SPI2", PinFunction.STM_PIN_DATA "STM_MODE_AF_PP" "GPIO_PULLUP" "GPIO_AF5_SPI2"⟩,
    ⟨"PE_2", "SPI4", PinFunction.STM_PIN_DATA "STM_MODE_AF_PP" "GPIO_PULLUP" "GPIO_AF5_SPI4"⟩,
    ⟨"PE_12", "SPI4", PinFunction.STM_PIN_DATA "STM_MODE_AF_PP" "GPIO_PULLUP" "GPIO_AF5_SPI4"⟩,
    ⟨"PF_7", "SPI5", PinFunction.STM_PIN_DATA "STM_MODE_AF_PP" "GPIO_PULLUP" "GPIO_AF5_SPI5"⟩,
    ⟨"PG_11", "SPI1", PinFunction.STM_PIN_DATA "STM_MODE_AF_PP" "GPIO_PULLUP" "GPIO_AF5_SPI1"⟩,
    ⟨"PG_13", "SPI6", PinFunction.STM_PIN_DATA "STM_MODE_AF_PP" "GPIO_PULLUP" "GPIO_AF5_SPI6"⟩,
    ⟨"NC", "NP", PinFunction.zero⟩
  ]

/-- PinMap_SPI_SSEL (PeripheralPins.c lines 363-380), the entries that are not commented out. -/
def PinMap_SPI_SSEL : List PinMap :=
  [
    ⟨"PA_15", "SPI3", PinFunction.STM_PIN_DATA "STM_MODE_AF_PP" "GPIO_PULLUP" "GPIO_AF6_SPI3"⟩,
    ⟨"PA_4", "SPI1", PinFunction.STM_PIN_DATA "STM_MODE_AF_PP" "GPIO_PULLUP" "GPIO_AF5_SPI1"⟩,
    ⟨"PA_4", "SPI3", PinFunction.STM_PIN_DATA "STM_MODE_AF_PP" "GPIO_PULLUP" "GPIO_AF6_SPI3"⟩,
    ⟨"PA_4", "SPI6", PinFunction.STM_PIN_DATA "STM_MODE_AF_PP" "GPIO_PULLUP" "GPIO_AF8_SPI6"⟩,
    ⟨"PA_11", "SPI2", PinFunction.STM_PIN_DATA "STM_MODE_AF_PP" "GPIO_PULLUP" "GPIO_AF5_SPI2"⟩,
    ⟨"PA_15", "SPI1", PinFunction.STM_PIN_DATA "STM_MODE_AF_PP" "GPIO_PULLUP" "GPIO_AF5_SPI1"⟩,
    ⟨"PA_15", "SPI6", PinFunction.STM_PIN_DATA "STM_MODE_AF_PP" "GPIO_PULLUP" "GPIO_AF7_SPI6"⟩,
    ⟨"PB_4", "SPI2", PinFunction.STM_PIN_DATA "STM_MODE_AF_PP" "GPIO_PULLUP" "GPIO_AF7_SPI2"⟩,
    ⟨"PB_9", "SPI2", PinFunction.STM_PIN_DATA "STM_MODE_AF_PP" "GPIO_PULLUP" "GPIO_AF5_SPI2"⟩,
    ⟨"PB_12", "SPI2", PinFunction.STM_PIN_DATA "STM_MODE_AF_PP" "GPIO_PULLUP" "GPIO_AF5_SPI2"⟩,
    ⟨"PE_4", "SPI4", PinFunction.STM_PIN_DATA "STM_MODE_AF_PP" "GPIO_PULLUP" "GPIO_AF5_SPI4"⟩,
    ⟨"PE_11", "SPI4", PinFunction.STM_PIN_DATA "STM_MODE_AF_PP" "GPIO_PULLUP" "GPIO_AF5_SPI4"⟩,
    ⟨"PF_6", "SPI5", PinFunction.STM_PIN_DATA "STM_MODE_AF_PP" "GPIO_PULLUP" "GPIO_AF5_SPI5"⟩,
    ⟨"PG_8", "SPI6", PinFunction.STM_PIN_DATA "STM_MODE_AF_PP" "GPIO_PULLUP" "GPIO_AF5_SPI6"⟩,
    ⟨"PG_10", "SPI1", PinFunction.STM_PIN_DATA "STM_MODE_AF_PP" "GPIO_PULLUP" "GPIO_AF5_SPI1"⟩,
    ⟨"NC", "NP", PinFunction.zero⟩
  ]

/-- PinMap_CAN_RD (PeripheralPins.c lines 386-393), the entries that are not commented out. -/
def PinMap_CAN_RD : List PinMap :=
  [
    ⟨"PA_11", "FDCAN1", PinFunction.STM_PIN_DATA "STM_MODE_AF_PP" "GPIO_NOPULL" "GPIO_AF9_FDCAN1"⟩,
    ⟨"PB_5", "FDCAN2", PinFunction.STM_PIN_DATA "STM_MODE_AF_PP" "GPIO_NOPULL" "GPIO_AF9_FDCAN2"⟩,
    ⟨"PB_8", "FDCAN1", PinFunction.STM_PIN_DATA "STM_MODE_AF_PP" "GPIO_NOPULL" "GPIO_AF9_FDCAN1"⟩,
    ⟨"PB_12", "FDCAN2", PinFunction.STM_PIN_DATA "STM_MODE_AF_PP" "GPIO_NOPULL" "GPIO_AF9_FDCAN2"⟩,
    ⟨"PD_0", "FDCAN1", PinFunction.STM_PIN_DATA "STM_MODE_AF_PP" "GPIO_NOPULL" "GPIO_AF9_FDCAN1"⟩,
    ⟨"NC", "NP", PinFunction.zero⟩
  ]

/-- PinMap_CAN_TD (PeripheralPins.c lines 395-403), the entries that are not commented out. -/
def PinMap_CAN_TD : List PinMap :=
  [
    ⟨"PA_12", "FDCAN1", PinFunction.STM_PIN_DATA "STM_MODE_AF_PP" "GPIO_NOPULL" "GPIO_AF9_FDCAN1"⟩,
    ⟨"PB_6", "FDCAN2", PinFunction.STM_PIN_DATA "STM_MODE_AF_PP" "GPIO_NOPULL" "GPIO_AF9_FDCAN2"⟩,
    ⟨"PB_7", "FDCAN2", PinFunction.STM_PIN_DATA "STM_MODE_AF_PP" "GPIO_NOPULL" "GPIO_AF9_FDCAN2"⟩,
    ⟨"PB_9", "FDCAN1", PinFunction.STM_PIN_DATA "STM_MODE_AF_PP" "GPIO_NOPULL" "GPIO_AF9_FDCAN1"⟩,
    ⟨"PB_13", "FDCAN2", PinFunction.STM_PIN_DATA "STM_MODE_AF_PP" "GPIO_NOPULL" "GPIO_AF9_FDCAN2"⟩,
    ⟨"PD_1", "FDCAN1", PinFunction.STM_PIN_DATA "STM_MODE_AF_PP" "GPIO_NOPULL" "GPIO_AF9_FDCAN1"⟩,
    ⟨"NC", "NP", PinFunction.zero⟩
  ]

/-- PinMap_USB_OTG_HS (PeripheralPins.c lines 444-466), the entries that are not commented out.
The first entries depend on USE_USB_HS_IN_FS. -/
def PinMap_USB_OTG_HS (USE_USB_HS_IN_FS : Bool) : List PinMap :=
  (if USE_USB_HS_IN_FS then
    [
      ⟨"PA_8", "USB_OTG_HS",
        PinFunction.STM_PIN_DATA "STM_MODE_AF_PP" "GPIO_PULLUP" "GPIO_AF10_OTG1_HS"⟩,
      ⟨"PA_9", "USB_OTG_HS",
        PinFunction.STM_PIN_DATA "STM_MODE_INPUT" "GPIO_NOPULL" "GPIO_AF_NONE"⟩,
      ⟨"PA_10", "USB_OTG_HS",
        PinFunction.STM_PIN_DATA "STM_MODE_AF_OD" "GPIO_PULLUP" "GPIO_AF10_OTG1_HS"⟩,
      ⟨"PA_11", "USB_OTG_HS",
        PinFunction.STM_PIN_DATA "STM_MODE_AF_PP" "GPIO_PULLUP" "GPIO_AF_NONE"⟩,
      ⟨"PA_12", "USB_OTG_HS",
        PinFunction.STM_PIN_DATA "STM_MODE_AF_PP" "GPIO_PULLUP" "GPIO_AF_NONE"⟩
    ]
  else
    [
      ⟨"PA_3", "USB_OTG_HS",
        PinFunction.STM_PIN_DATA "STM_MODE_AF_PP" "GPIO_PULLUP" "GPIO_AF10_OTG1_HS"⟩,
      ⟨"PA_5", "USB_OTG_HS",
        PinFunction.STM_PIN_DATA "STM_MODE_AF_PP" "GPIO_PULLUP" "GPIO_AF10_OTG1_HS"⟩,
      ⟨"PB_0", "USB_OTG_HS",
        PinFunction.STM_PIN_DATA "STM_MODE_AF_PP" "GPIO_PULLUP" "GPIO_AF10_OTG1_HS"⟩,
      ⟨"PB_1", "USB_OTG_HS",
        PinFunction.STM_PIN_DATA "STM_MODE_AF_PP" "GPIO_PULLUP" "GPIO_AF10_OTG1_HS"⟩,
      ⟨"PB_5", "USB_OTG_HS",
        PinFunction.STM_PIN_DATA "STM_MODE_AF_PP" "GPIO_PULLUP" "GPIO_AF10_OTG1_HS"⟩,
      ⟨"PB_10", "USB_OTG_HS",
        PinFunction.STM_PIN_DATA "STM_MODE_AF_PP" "GPIO_PULLUP" "GPIO_AF10_OTG1_HS"⟩,
      ⟨"PB_11", "USB_OTG_HS",
        PinFunction.STM_PIN_DATA "STM_MODE_AF_PP" "GPIO_PULLUP" "GPIO_AF10_OTG1_HS"⟩,
      ⟨"PB_12", "USB_OTG_HS",
        PinFunction.STM_PIN_DATA "STM_MODE_AF_PP" "GPIO_PULLUP" "GPIO_AF10_OTG1_HS"⟩,
      ⟨"PB_13", "USB_OTG_HS",
        PinFunction.STM_PIN_DATA "STM_MODE_AF_PP" "GPIO_PULLUP" "GPIO_AF10_OTG1_HS"⟩,
      ⟨"PC_0", "USB_OTG_HS",
        PinFunction.STM_PIN_DATA "STM_MODE_AF_PP" "GPIO_PULLUP" "GPIO_AF10_OTG1_HS"⟩,
      ⟨"PC_2_C", "USB_OTG_HS",
        PinFunction.STM_PIN_DATA "STM_MODE_AF_PP" "GPIO_PULLUP" "GPIO_AF10_OTG1_HS"⟩,
      ⟨"PC_3_C", "USB_OTG_HS",
        PinFunction.STM_PIN_DATA "STM_MODE_AF_PP" "GPIO_PULLUP" "GPIO_AF10_OTG1_HS"⟩
    ]) ++
  [
    ⟨"NC", "NP", PinFunction.zero⟩
  ]

/-- PinMap_SD (PeripheralPins.c lines 508-537), the entries that are not commented out. -/
def PinMap_SD : List PinMap :=
  [
    ⟨"PA_0", "SDMMC2", PinFunction.STM_PIN_DATA "STM_MODE_AF_PP" "GPIO_NOPULL" "GPIO_AF9_SDIO2"⟩,
    ⟨"PB_3", "SDMMC2", PinFunction.STM_PIN_DATA "STM_MODE_AF_PP" "GPIO_PULLUP" "GPIO_AF9_SDIO2"⟩,
    ⟨"PB_4", "SDMMC2", PinFunction.STM_PIN_DATA "STM_MODE_AF_PP" "GPIO_PULLUP" "GPIO_AF9_SDIO2"⟩,
    ⟨"PB_8", "SDMMC1", PinFunction.STM_PIN_DATA "STM_MODE_AF_PP" "GPIO_NOPULL" "GPIO_AF7_SDIO1"⟩,
    ⟨"PB_8", "SDMMC1", PinFunction.STM_PIN_DATA "STM_MODE_AF_PP" "GPIO_PULLUP" "GPIO_AF12_SDIO1"⟩,
    ⟨"PB_8", "SDMMC2", PinFunction.STM_PIN_DATA "STM_MODE_AF_PP" "GPIO_PULLUP" "GPIO_AF10_SDIO2"⟩,
    ⟨"PB_9", "SDMMC1", PinFunction.STM_PIN_DATA "STM_MODE_AF_PP" "GPIO_NOPULL" "GPIO_AF7_SDIO1"⟩,
    ⟨"PB_9", "SDMMC1", PinFunction.STM_PIN_DATA "STM_MODE_AF_PP" "GPIO_PULLUP" "GPIO_AF12_SDIO1"⟩,
    ⟨"PB_9", "SDMMC2", PinFunction.STM_PIN_DATA "STM_MODE_AF_PP" "GPIO_PULLUP" "GPIO_AF10_SDIO2"⟩,
    ⟨"PB_14", "SDMMC2", PinFunction.STM_PIN_DATA "STM_MODE_AF_PP" "GPIO_PULLUP" "GPIO_AF9_SDIO2"⟩,
    ⟨"PB_15", "SDMMC2", PinFunction.STM_PIN_DATA "STM_MODE_AF_PP" "GPIO_PULLUP" "GPIO_AF9_SDIO2"⟩,
    ⟨"PC_1", "SDMMC2", PinFunction.STM_PIN_DATA "STM_MODE_AF_PP" "GPIO_NOPULL" "GPIO_AF9_SDIO2"⟩,
    ⟨"PC_6", "SDMMC1", PinFunction.STM_PIN_DATA "STM_MODE_AF_PP" "GPIO_NOPULL" "GPIO_AF8_SDIO1"⟩,
    ⟨"PC_6", "SDMMC1", PinFunction.STM_PIN_DATA "STM_MODE_AF_PP" "GPIO_PULLUP" "GPIO_AF12_SDIO1"⟩,
    ⟨"PC_6", "SDMMC2", PinFunction.STM_PIN_DATA "STM_MODE_AF_PP" "GPIO_PULLUP" "GPIO_AF10_SDIO2"⟩,
    ⟨"PC_7", "SDMMC1", PinFunction.STM_PIN_DATA "STM_MODE_AF_PP" "GPIO_NOPULL" "GPIO_AF8_SDIO1"⟩,
    ⟨"PC_7", "SDMMC1", PinFunction.STM_PIN_DATA "STM_MODE_AF_PP" "GPIO_PULLUP" "GPIO_AF12_SDIO1"⟩,
    ⟨"PC_7", "SDMMC2", PinFunction.STM_PIN_DATA "STM_MODE_AF_PP" "GPIO_PULLUP" "GPIO_AF10_SDIO2"⟩,
    ⟨"PC_8", "SDMMC1", PinFunction.STM_PIN_DATA "STM_MODE_AF_PP" "GPIO_PULLUP" "GPIO_AF12_SDIO1"⟩,
    ⟨"PC_9", "SDMMC1", PinFunction.STM_PIN_DATA "STM_MODE_AF_PP" "GPIO_PULLUP" "GPIO_AF12_SDIO1"⟩,
    ⟨"PC_10", "SDMMC1", PinFunction.STM_PIN_DATA "STM_MODE_AF_PP" "GPIO_PULLUP" "GPIO_AF12_SDIO1"⟩,
    ⟨"PC_11", "SDMMC1", PinFunction.STM_PIN_DATA "STM_MODE_AF_PP" "GPIO_PULLUP" "GPIO_AF12_SDIO1"⟩,
    ⟨"PC_12", "SDMMC1", PinFunction.STM_PIN_DATA "STM_MODE_AF_PP" "GPIO_NOPULL" "GPIO_AF12_SDIO1"⟩,
    ⟨"PD_2", "SDMMC1", PinFunction.STM_PIN_DATA "STM_MODE_AF_PP" "GPIO_NOPULL" "GPIO_AF12_SDIO1"⟩,
    ⟨"PD_6", "SDMMC2", PinFunction.STM_PIN_DATA "STM_MODE_AF_PP" "GPIO_NOPULL" "GPIO_AF11_SDIO2"⟩,
    ⟨"PD_7", "SDMMC2", PinFunction.STM_PIN_DATA "STM_MODE_AF_PP" "GPIO_NOPULL" "GPIO_AF11_SDIO2"⟩,
    ⟨"PG_11", "SDMMC2", PinFunction.STM_PIN_DATA "STM_MODE_AF_PP" "GPIO_PULLUP" "GPIO_AF10_SDIO2"⟩,
    ⟨"NC", "NP", PinFunction.zero⟩
  ]
/-- The tables PeripheralPins.c defines for the STM32H723, by name. PinMap_Ethernet,
PinMap_USB_OTG_FS and the second PinMap_USB_OTG_HS stand between `#if 0` and `#endif` and are
not compiled. -/
def pinMapTables (USE_USB_HS_IN_FS : Bool) : List (String × List PinMap) :=
  [ ("PinMap_ADC", PinMap_ADC), ("PinMap_DAC", PinMap_DAC),
    ("PinMap_I2C_SDA", PinMap_I2C_SDA), ("PinMap_I2C_SCL", PinMap_I2C_SCL),
    ("PinMap_PWM", PinMap_PWM),
    ("PinMap_UART_TX", PinMap_UART_TX), ("PinMap_UART_RX", PinMap_UART_RX),
    ("PinMap_UART_RTS", PinMap_UART_RTS), ("PinMap_UART_CTS", PinMap_UART_CTS),
    ("PinMap_SPI_MOSI", PinMap_SPI_MOSI), ("PinMap_SPI_MISO", PinMap_SPI_MISO),
    ("PinMap_SPI_SCLK", PinMap_SPI_SCLK), ("PinMap_SPI_SSEL", PinMap_SPI_SSEL),
    ("PinMap_CAN_RD", PinMap_CAN_RD), ("PinMap_CAN_TD", PinMap_CAN_TD),
    ("PinMap_USB_OTG_HS", PinMap_USB_OTG_HS USE_USB_HS_IN_FS), ("PinMap_SD", PinMap_SD) ]

/-- A table in the form a scan for NC relies on: not empty, and its last entry is the
terminator. -/
def Terminated (t : List PinMap) : Prop := t ≠ [] ∧ t.getLast? = some PinMap.terminator

instance (t : List PinMap) : Decidable (Terminated t) := by
  unfold Terminated
  infer_instance

/-- Modelled from the spec: a lookup that scans a table, entry by entry from the first, until
it meets NC or the pin it looks for. The result is `none` when the scan reaches the end of the
table without having met either, which in C is a read past the array. -/
def pinmapScan (pin : String) : List PinMap → Option (Option PinMap)
  | [] => none
  | e :: rest =>
    if e.pin = "NC" then some none
    else if e.pin = pin then some (some e)
    else pinmapScan pin rest

/-! ## Lemmas -/

@[simp] theorem emit_eq (ev : Event) (s : Sys) : emit ev s = emits [ev] s := rfl

@[simp] theorem emits_nil (s : Sys) : emits [] s = s := by simp [emits]

@[simp] theorem emits_emits (l1 l2 : List Event) (s : Sys) :
    emits l2 (emits l1 s) = emits (l1 ++ l2) s := by simp [emits]

@[simp] theorem emits_spi (l : List Event) (s : Sys) : (emits l s).spi = s.spi := rfl

@[simp] theorem emits_mem (l : List Event) (s : Sys) : (emits l s).mem = s.mem := rfl

@[simp] theorem emits_inFlight (l : List Event) (s : Sys) : (emits l s).inFlight = s.inFlight := rfl

@[simp] theorem emits_rxFifo (l : List Event) (s : Sys) : (emits l s).rxFifo = s.rxFifo := rfl

@[simp] theorem emits_trace (l : List Event) (s : Sys) : (emits l s).trace = s.trace ++ l := rfl

@[simp] theorem since_emits (l : List Event) (s : Sys) : since s (emits l s) = l := by
  simp [since]

/-- Normal form of the three completion handlers. -/
theorem handler_eq (b : Build) (s : Sys) :
    HAL_SPI_TxCpltCallback b s =
      { s with spi.transferActive := false
               trace := s.trace ++ Event.cpltCallback Handler.Tx :: cbEvents b s.spi } ∧
    HAL_SPI_TxRxCpltCallback b s =
      { s with spi.transferActive := false
               trace := s.trace ++ Event.cpltCallback Handler.TxRx :: cbEvents b s.spi } ∧
    HAL_SPI_RxCpltCallback b s =
      { s with spi.transferActive := false
               trace := s.trace ++ Event.cpltCallback Handler.Rx :: cbEvents b s.spi } := by
  refine ⟨?_, ?_, ?_⟩ <;>
  · simp only [HAL_SPI_TxCpltCallback, HAL_SPI_TxRxCpltCallback, HAL_SPI_RxCpltCallback, invoke,
      transferComplete, cbEvents, emit_eq, emits]
    rcases hcb : s.spi.callback with _ | cb
    · simp
    · cases cb with
      | user id => simp
      | transferComplete =>
        rcases hp : s.spi.csPin with _ | p <;> rcases ht : s.spi.waitingTask with _ | t <;>
          cases hR : b.RTOS <;> simp [hp, ht]

/-- Normal form of the completion interrupt. -/
theorem completionIRQ_some (b : Build) (s : Sys) (f : Flight) (h : s.inFlight = some f) :
    completionIRQ b s =
      { s with spi.transferActive := false
               inFlight := none
               mem := deposit f.dir f.rx f.data s.mem
               trace := s.trace ++ Event.cpltCallback (handlerOf f.dir) :: cbEvents b s.spi } := by
  unfold completionIRQ
  rw [h]
  rcases f with ⟨d, r, dat⟩
  cases d <;>
    simp [handlerOf, (handler_eq b _).1, (handler_eq b _).2.1, (handler_eq b _).2.2]

theorem completionIRQ_none (b : Build) (s : Sys) (h : s.inFlight = none) :
    completionIRQ b s = s := by
  unfold completionIRQ
  rw [h]

theorem took_eq (b : Build) (r : Bool) (s : Sys) : took b r s = emits (tookEv b r) s := by
  unfold took tookEv
  split <;> simp

theorem onlyTake_tookEv (b : Build) (r : Bool) : OnlyTake (tookEv b r) := by
  unfold OnlyTake tookEv
  split
  · intro ev hev
    exact ⟨b.SPITimeoutMillis, r, by simpa using hev⟩
  · simp

theorem onlyTake_nil : OnlyTake [] := by simp [OnlyTake]

theorem onlyTake_append {l1 l2 : List Event} (h1 : OnlyTake l1) (h2 : OnlyTake l2) :
    OnlyTake (l1 ++ l2) := by
  intro ev hev
  rcases List.mem_append.1 hev with h | h
  · exact h1 ev h
  · exact h2 ev h

theorem OnlyTake.quiet {l : List Event} (h : OnlyTake l) : Quiet l := by
  intro ev hev
  obtain ⟨t, r, rfl⟩ := h ev hev
  rfl

theorem quiet_tookEv (b : Build) (r : Bool) : Quiet (tookEv b r) := (onlyTake_tookEv b r).quiet

theorem quiet_append {l1 l2 : List Event} (h1 : Quiet l1) (h2 : Quiet l2) : Quiet (l1 ++ l2) := by
  intro ev hev
  rcases List.mem_append.1 hev with h | h
  · exact h1 ev h
  · exact h2 ev h

theorem quiet_nil : Quiet [] := by simp [Quiet]

theorem waitLoop_inactive (b : Build) (ws : List Wait) (s : Sys)
    (h : s.spi.transferActive = false) : waitLoop b ws s = s := by
  cases ws with
  | nil => simp [waitLoop, h]
  | cons w ws => cases w <;> simp [waitLoop, h]

/-- The wait loop, started with the busy flag set, ends in one of two ways: only Take calls
were made and nothing else changed, or the completion interrupt of the request in flight was
served between Take calls. -/
theorem waitLoop_cases (b : Build) (ws : List Wait) (s : Sys)
    (h : s.spi.transferActive = true) :
    ∃ W, OnlyTake W ∧ (waitLoop b ws s = emits W s ∨
      ∃ f, s.inFlight = some f ∧
        waitLoop b ws s = emits (tookEv b true) (completionIRQ b (emits W s))) := by
  induction ws generalizing s with
  | nil => exact ⟨tookEv b false, onlyTake_tookEv b false, Or.inl (by simp [waitLoop, h, took_eq])⟩
  | cons w ws ih =>
    cases w with
    | timeout =>
      exact ⟨tookEv b false, onlyTake_tookEv b false, Or.inl (by simp [waitLoop, h, took_eq])⟩
    | wake =>
      obtain ⟨W, hW, hc⟩ := ih (emits (tookEv b true) s) (by simpa using h)
      refine ⟨tookEv b true ++ W, onlyTake_append (onlyTake_tookEv b true) hW, ?_⟩
      rcases hc with hc | ⟨f, hf, hc⟩
      · left
        simp [waitLoop, h, hc, took_eq]
      · right
        refine ⟨f, by simpa using hf, ?_⟩
        simp [waitLoop, h, hc, took_eq]
    | complete =>
      rcases hfl : s.inFlight with _ | f
      · obtain ⟨W, hW, hc⟩ := ih (emits (tookEv b true) s) (by simpa using h)
        refine ⟨tookEv b true ++ W, onlyTake_append (onlyTake_tookEv b true) hW, ?_⟩
        rcases hc with hc | ⟨f, hf, hc⟩
        · left
          simp [waitLoop, h, hc, took_eq, completionIRQ_none b s hfl]
        · exfalso
          simp [hfl] at hf
      · refine ⟨[], onlyTake_nil, Or.inr ⟨f, rfl, ?_⟩⟩
        have hin : (took b true (completionIRQ b s)).spi.transferActive = false := by
          simp [took_eq, completionIRQ_some b s f hfl]
        simp only [waitLoop, h, if_true]
        rw [waitLoop_inactive b ws _ hin]
        simp [took_eq]

/-- When no completion interrupt arrives, the wait loop only makes Take calls. -/
theorem waitLoop_noArrival (b : Build) (ws : List Wait) (s : Sys)
    (h : s.spi.transferActive = true) (ha : arrives ws = false) :
    ∃ W, OnlyTake W ∧ waitLoop b ws s = emits W s := by
  induction ws generalizing s with
  | nil => exact ⟨tookEv b false, onlyTake_tookEv b false, by simp [waitLoop, h, took_eq]⟩
  | cons w ws ih =>
    cases w with
    | timeout => exact ⟨tookEv b false, onlyTake_tookEv b false, by simp [waitLoop, h, took_eq]⟩
    | wake =>
      obtain ⟨W, hW, hc⟩ := ih (emits (tookEv b true) s) (by simpa using h)
        (by simpa [arrives] using ha)
      exact ⟨tookEv b true ++ W, onlyTake_append (onlyTake_tookEv b true) hW,
        by simp [waitLoop, h, hc, took_eq]⟩
    | complete => simp [arrives] at ha

/-- When nothing is in flight, the wait loop only makes Take calls. -/
theorem waitLoop_idle (b : Build) (ws : List Wait) (s : Sys)
    (h : s.spi.transferActive = true) (hfl : s.inFlight = none) :
    ∃ W, OnlyTake W ∧ waitLoop b ws s = emits W s := by
  obtain ⟨W, hW, hc⟩ := waitLoop_cases b ws s h
  rcases hc with hc | ⟨f, hf, _⟩
  · exact ⟨W, hW, hc⟩
  · simp [hfl] at hf

/-- When the completion interrupt arrives for the request in flight, it is served. -/
theorem waitLoop_arrival (b : Build) (ws : List Wait) (s : Sys) (f : Flight)
    (h : s.spi.transferActive = true) (hfl : s.inFlight = some f) (ha : arrives ws = true) :
    ∃ W, OnlyTake W ∧ waitLoop b ws s = emits (tookEv b true) (completionIRQ b (emits W s)) := by
  induction ws generalizing s with
  | nil => simp [arrives] at ha
  | cons w ws ih =>
    cases w with
    | timeout => simp [arrives] at ha
    | wake =>
      obtain ⟨W, hW, hc⟩ := ih (emits (tookEv b true) s) (by simpa using h)
        (by simpa using hfl) (by simpa [arrives] using ha)
      exact ⟨tookEv b true ++ W, onlyTake_append (onlyTake_tookEv b true) hW,
        by simp [waitLoop, h, hc, took_eq]⟩
    | complete =>
      refine ⟨[], onlyTake_nil, ?_⟩
      have hin : (took b true (completionIRQ b s)).spi.transferActive = false := by
        simp [took_eq, completionIRQ_some b s f hfl]
      simp only [waitLoop, h, if_true]
      rw [waitLoop_inactive b ws _ hin]
      simp [took_eq]

theorem quiet_notReadyEvents (c : Bool) (m : Msg) : Quiet (notReadyEvents c m) := by
  unfold Quiet notReadyEvents
  split <;> simp [quietEv]

theorem quiet_flushEvents (tx rx len : Nat) : Quiet (flushEvents tx rx len) := by
  unfold Quiet flushEvents
  split_ifs <;> simp [quietEv]

theorem quiet_errEvents (st : HAL_StatusTypeDef) : Quiet (errEvents st) := by
  unfold Quiet errEvents
  split_ifs <;> simp [quietEv]

theorem quiet_dmaPrelude (e : Env) (tx rx len : Nat) : Quiet (dmaPrelude e tx rx len) := by
  unfold dmaPrelude
  refine quiet_append (quiet_append (quiet_append (quiet_append (quiet_append (quiet_append
    ?_ (quiet_notReadyEvents _ _)) ?_) (quiet_notReadyEvents _ _)) ?_)
    (quiet_notReadyEvents _ _)) (quiet_flushEvents _ _ _) <;> simp [Quiet, quietEv]

theorem quiet_itPrelude (e : Env) : Quiet (itPrelude e) := by
  unfold itPrelude
  refine quiet_append ?_ (quiet_notReadyEvents _ _)
  simp [Quiet, quietEv]

/-- Normal form of startTransferDMA. -/
theorem startTransferDMA_eq (e : Env) (tx rx len : Nat) (s : Sys) :
    startTransferDMA e tx rx len s =
      (e.started,
        { s with
          trace := s.trace ++ (dmaPrelude e tx rx len ++
            [Event.halStart Xfer.viaDMA (dirOf tx rx) tx rx len])
          inFlight := if e.started = HAL_StatusTypeDef.HAL_OK
            then some (flightOf e tx rx len s.mem) else s.inFlight }) := by
  simp only [startTransferDMA, halAsync, emit_eq, emits_emits, dmaPrelude, notReadyEvents,
    flushEvents, dirOf, flightOf]
  by_cases h1 : e.spiState = HAL_SPI_StateTypeDef.READY <;>
  by_cases h2 : e.dmaRxState = HAL_DMA_StateTypeDef.READY <;>
  by_cases h3 : e.dmaTxState = HAL_DMA_StateTypeDef.READY <;>
  by_cases h4 : rx = 0 <;> by_cases h5 : tx = 0 <;>
  by_cases h6 : e.started = HAL_StatusTypeDef.HAL_OK <;>
    simp [h1, h2, h3, h4, h5, h6, emits]

/-- Normal form of startTransferIT. -/
theorem startTransferIT_eq (e : Env) (tx rx len : Nat) (s : Sys) :
    startTransferIT e tx rx len s =
      (e.started,
        { s with
          trace := s.trace ++ (itPrelude e ++
            [Event.halStart Xfer.viaIT (dirOf tx rx) tx rx len])
          inFlight := if e.started = HAL_StatusTypeDef.HAL_OK
            then some (flightOf e tx rx len s.mem) else s.inFlight }) := by
  simp only [startTransferIT, halAsync, emit_eq, emits_emits, itPrelude, notReadyEvents,
    dirOf, flightOf]
  by_cases h1 : e.spiState = HAL_SPI_StateTypeDef.READY <;>
  by_cases h4 : rx = 0 <;> by_cases h5 : tx = 0 <;>
  by_cases h6 : e.started = HAL_StatusTypeDef.HAL_OK <;>
    simp [h1, h4, h5, h6, emits]

/-- Normal form of startTransferPolled when the blocking primitive fails. -/
theorem startTransferPolled_fail (b : Build) (e : Env) (tx rx len : Nat) (s : Sys)
    (h : e.blocking ≠ HAL_StatusTypeDef.HAL_OK) :
    startTransferPolled b e tx rx len s =
      (e.blocking, emits [Event.halStart Xfer.blocking (dirOf tx rx) tx rx len] s) := by
  simp only [startTransferPolled, halBlocking, emit_eq, dirOf]
  by_cases h4 : rx = 0 <;> by_cases h5 : tx = 0 <;> simp [h, h4, h5]

/-- Normal form of startTransferPolled when the blocking primitive succeeds. -/
theorem startTransferPolled_ok (b : Build) (e : Env) (tx rx len : Nat) (s : Sys)
    (h : e.blocking = HAL_StatusTypeDef.HAL_OK) :
    startTransferPolled b e tx rx len s =
      (HAL_StatusTypeDef.HAL_OK,
        { s with
          spi.transferActive := false
          mem := deposit (dirOf tx rx) rx
            ((e.miso (sentBytes (dirOf tx rx) tx rx len s.mem)).take len) s.mem
          trace := s.trace ++ (Event.halStart Xfer.blocking (dirOf tx rx) tx rx len ::
            Event.cpltCallback Handler.Rx :: cbEvents b s.spi) }) := by
  simp only [startTransferPolled, halBlocking, emit_eq, dirOf, (handler_eq b _).2.2]
  by_cases h4 : rx = 0 <;> by_cases h5 : tx = 0 <;> simp [h, h4, h5, emits]

/-- Normal form of startTransfer on the DMA path. -/
theorem startTransfer_dma (b : Build) (e : Env) (tx rx len : Nat)
    (cb : Option SPICallbackFunction) (s : Sys) (h : usesDMA b s.spi.ioType tx rx len) :
    startTransfer b e tx rx len cb s =
      { s with
        spi := started s.spi cb true
        trace := s.trace ++ (dmaPrelude e tx rx len ++
          [Event.halStart Xfer.viaDMA (dirOf tx rx) tx rx len] ++ errEvents e.started)
        inFlight := if e.started = HAL_StatusTypeDef.HAL_OK
          then some (flightOf e tx rx len s.mem) else s.inFlight } := by
  obtain ⟨hio, hcan⟩ := h
  simp only [startTransfer, hio, hcan, if_true, startTransferDMA_eq, errEvents, started, emit_eq]
  by_cases h6 : e.started = HAL_StatusTypeDef.HAL_OK <;> simp [h6, emits]

/-- Normal form of startTransfer on the interrupt path. -/
theorem startTransfer_it (b : Build) (e : Env) (tx rx len : Nat)
    (cb : Option SPICallbackFunction) (s : Sys) (hio : s.spi.ioType = SpiIoType.interrupt)
    (hb : b.USE_SSP1 = true) :
    startTransfer b e tx rx len cb s =
      { s with
        spi := started s.spi cb true
        trace := s.trace ++ (itPrelude e ++
          [Event.halStart Xfer.viaIT (dirOf tx rx) tx rx len] ++ errEvents e.started)
        inFlight := if e.started = HAL_StatusTypeDef.HAL_OK
          then some (flightOf e tx rx len s.mem) else s.inFlight } := by
  simp only [startTransfer, hio, hb, if_true, startTransferIT_eq, errEvents, started, emit_eq]
  by_cases h6 : e.started = HAL_StatusTypeDef.HAL_OK <;> simp [h6, emits]

/-- Normal form of startTransfer for an interrupt device in a build without USE_SSP1. -/
theorem startTransfer_unhandled (b : Build) (e : Env) (tx rx len : Nat)
    (cb : Option SPICallbackFunction) (s : Sys) (hio : s.spi.ioType = SpiIoType.interrupt)
    (hb : b.USE_SSP1 = false) :
    startTransfer b e tx rx len cb s =
      { s with
        spi := started s.spi cb true
        trace := s.trace ++ [Event.debugPrintf Msg.invalidIoType] } := by
  simp [startTransfer, hio, hb, started, emits]

/-- Normal form of startTransfer on the polled path when the blocking primitive fails. -/
theorem startTransfer_polled_fail (b : Build) (e : Env) (tx rx len : Nat)
    (cb : Option SPICallbackFunction) (s : Sys) (h : usesPolled b s.spi.ioType tx rx len)
    (hs : e.blocking ≠ HAL_StatusTypeDef.HAL_OK) :
    startTransfer b e tx rx len cb s =
      { s with
        spi := started s.spi cb true
        trace := s.trace ++ [Event.halStart Xfer.blocking (dirOf tx rx) tx rx len,
          Event.debugPrintf Msg.spiError] } := by
  rcases h with hio | ⟨hio, hcan⟩
  · simp [startTransfer, hio, startTransferPolled_fail b e tx rx len _ hs, hs, started, emits]
  · simp [startTransfer, hio, hcan, startTransferPolled_fail b e tx rx len _ hs, hs, started,
      emits]

/-- Normal form of startTransfer on the polled path when the blocking primitive succeeds. -/
theorem startTransfer_polled_ok (b : Build) (e : Env) (tx rx len : Nat)
    (cb : Option SPICallbackFunction) (s : Sys) (h : usesPolled b s.spi.ioType tx rx len)
    (hs : e.blocking = HAL_StatusTypeDef.HAL_OK) :
    startTransfer b e tx rx len cb s =
      { s with
        spi := started s.spi cb false
        mem := deposit (dirOf tx rx) rx
          ((e.miso (sentBytes (dirOf tx rx) tx rx len s.mem)).take len) s.mem
        trace := s.trace ++ (Event.halStart Xfer.blocking (dirOf tx rx) tx rx len ::
          Event.cpltCallback Handler.Rx :: cbEvents b (started s.spi cb true)) } := by
  rcases h with hio | ⟨hio, hcan⟩
  · simp [startTransfer, hio, startTransferPolled_ok b e tx rx len _ hs, started, cbEvents]
  · simp [startTransfer, hio, hcan, startTransferPolled_ok b e tx rx len _ hs, started, cbEvents]

/-- The dispatch takes exactly one of its paths. -/
theorem dispatch_cases (b : Build) (io : SpiIoType) (tx rx len : Nat) :
    usesDMA b io tx rx len ∨ usesPolled b io tx rx len ∨
      (io = SpiIoType.interrupt ∧ b.USE_SSP1 = true) ∨
      (io = SpiIoType.interrupt ∧ b.USE_SSP1 = false) := by
  unfold usesDMA usesPolled
  cases io <;> cases b.USE_SSP1 <;>
    cases (CAN_USE_DMA b tx len && CAN_USE_DMA b rx len) <;> simp

/-- What startTransfer does, whatever the strategy: either it returns with the busy flag set
after quiet events only, or the blocking primitive returned HAL_OK and the Rx completion handler
ran right after it. -/
theorem startTransfer_cases (b : Build) (e : Env) (tx rx len : Nat)
    (cb : Option SPICallbackFunction) (s : Sys) :
    (∃ Q fl, Quiet Q ∧
      startTransfer b e tx rx len cb s =
        { s with spi := started s.spi cb true, trace := s.trace ++ Q, inFlight := fl }) ∨
    (usesPolled b s.spi.ioType tx rx len ∧ e.blocking = HAL_StatusTypeDef.HAL_OK ∧
      ∃ q m, quietEv q = true ∧
      startTransfer b e tx rx len cb s =
        { s with spi := started s.spi cb false, mem := m,
                 trace := s.trace ++ (q :: Event.cpltCallback Handler.Rx ::
                   cbEvents b (started s.spi cb true)) }) := by
  rcases dispatch_cases b s.spi.ioType tx rx len with h | h | ⟨h1, h2⟩ | ⟨h1, h2⟩
  · left
    exact ⟨_, _, quiet_append (quiet_append (quiet_dmaPrelude e tx rx len)
      (by simp [Quiet, quietEv])) (quiet_errEvents _), startTransfer_dma b e tx rx len cb s h⟩
  · by_cases hs : e.blocking = HAL_StatusTypeDef.HAL_OK
    · right
      exact ⟨h, hs, _, _, by simp [quietEv], startTransfer_polled_ok b e tx rx len cb s h hs⟩
    · left
      exact ⟨_, s.inFlight, by simp [Quiet, quietEv],
        startTransfer_polled_fail b e tx rx len cb s h hs⟩
  · left
    exact ⟨_, _, quiet_append (quiet_append (quiet_itPrelude e) (by simp [Quiet, quietEv]))
      (quiet_errEvents _), startTransfer_it b e tx rx len cb s h1 h2⟩
  · left
    exact ⟨_, s.inFlight, by simp [Quiet, quietEv],
      startTransfer_unhandled b e tx rx len cb s h1 h2⟩

theorem cbEvents_prep (b : Build) (e : Env) (cs : Pin) (d : HardwareSPI) (a : Bool) :
    cbEvents b (prep b e cs d a) = highEvents cs ++ giveEvents b e := by
  cases cs <;> cases hR : b.RTOS <;> simp [cbEvents, prep, highEvents, giveEvents, hR]

/-- Normal form of the end of transceivePacket. -/
theorem transceiveEnd_eq (b : Build) (rx len : Nat) (cs : Pin) (s : Sys) :
    transceiveEnd b rx len cs s =
      { s with
        spi := { s.spi with
          waitingTask := if b.RTOS then none else s.spi.waitingTask
          csPin := NoPin }
        trace := s.trace ++ (invalEvents s.spi.ioType rx len ++ highEvents cs) } := by
  unfold transceiveEnd invalEvents highEvents
  cases cs <;> cases hR : b.RTOS <;>
    by_cases h : s.spi.ioType = SpiIoType.dma ∧ rx ≠ 0 <;> simp [h, emits]

/-- Normal form of stopTransfer on an initialised device with the busy flag set. -/
theorem stopTransfer_active (b : Build) (s : Sys) (hi : s.spi.initComplete = true)
    (ha : s.spi.transferActive = true) :
    stopTransfer b s =
      { s with
        spi := { s.spi with transferActive := false }
        inFlight := none
        rxFifo := if b.STM32H7 then s.rxFifo else 0
        trace := s.trace ++ abortEvents b s } := by
  unfold stopTransfer abortEvents
  cases hH : b.STM32H7
  · by_cases hd : s.spi.ioType = SpiIoType.dma <;>
      simp [hi, ha, hd, disable, configureDevice, HAL_SPI_DISABLE, HAL_SPI_DMAStop, spi_deinit,
        spi_init, flushRxFifo, emits]
  · simp [hi, ha, HAL_SPI_DISABLE, HAL_SPI_Abort, emits]

/-- Normal form of stopTransfer on an initialised device with the busy flag clear. -/
theorem stopTransfer_idle (b : Build) (s : Sys) (hi : s.spi.initComplete = true)
    (ha : s.spi.transferActive = false) :
    stopTransfer b s = emits [Event.HAL_SPI_DISABLE] s := by
  simp [stopTransfer, hi, ha, HAL_SPI_DISABLE]

/-- On a device that is not initialised stopTransfer does nothing. -/
theorem stopTransfer_uninit (b : Build) (s : Sys) (hi : s.spi.initComplete = false) :
    stopTransfer b s = s := by
  simp [stopTransfer, hi]

theorem transceiveWait_eq (b : Build) (e : Env) (tx rx len : Nat) (cs : Pin) (s : Sys) :
    transceiveWait b e tx rx len cs s =
      waitLoop b e.waits
        (startTransfer b e tx rx len (some SPICallbackFunction.transferComplete)
          (selected b e cs s)) := by
  unfold transceiveWait selected lowEvents
  cases cs <;> cases hR : b.RTOS <;> simp [emits]

/-- The two ways the wait of transceivePacket ends: busy flag still set after quiet events
only, or a completion handler has run. -/
theorem transceiveWait_cases (b : Build) (e : Env) (tx rx len : Nat) (cs : Pin) (s : Sys) :
    (∃ Q fl, Quiet Q ∧
      transceiveWait b e tx rx len cs s =
        { s with spi := prep b e cs s.spi true, inFlight := fl
                 trace := s.trace ++ (lowEvents cs ++ Q) }) ∨
    (∃ Q h T m fl, Quiet Q ∧ OnlyTake T ∧
      transceiveWait b e tx rx len cs s =
        { s with spi := prep b e cs s.spi false, mem := m, inFlight := fl
                 trace := s.trace ++ (lowEvents cs ++ Q ++
                   Event.cpltCallback h :: (cbEvents b (prep b e cs s.spi true) ++ T)) }) := by
  rw [transceiveWait_eq]
  rcases startTransfer_cases b e tx rx len (some SPICallbackFunction.transferComplete)
    (selected b e cs s) with ⟨Q, fl, hQ, hst⟩ | ⟨_, _, q, m, hq, hst⟩
  · rw [hst]
    obtain ⟨W, hW, hw⟩ := waitLoop_cases b e.waits
      { selected b e cs s with
        spi := started (selected b e cs s).spi (some SPICallbackFunction.transferComplete) true
        trace := (selected b e cs s).trace ++ Q, inFlight := fl } rfl
    rcases hw with hw | ⟨f, hf, hw⟩
    · left
      refine ⟨Q ++ W, fl, quiet_append hQ hW.quiet, ?_⟩
      rw [hw]
      simp [emits, selected, started, prep]
    · right
      refine ⟨Q ++ W, handlerOf f.dir, tookEv b true, deposit f.dir f.rx f.data s.mem, none,
        quiet_append hQ hW.quiet, onlyTake_tookEv b true, ?_⟩
      rw [hw, completionIRQ_some b _ f (by simpa using hf)]
      simp [emits, selected, started, prep]
  · right
    refine ⟨[q], Handler.Rx, [], m, s.inFlight, ?_, onlyTake_nil, ?_⟩
    · simpa [Quiet] using hq
    · rw [hst, waitLoop_inactive _ _ _ (by simp [started])]
      simp [selected, started, prep]

theorem abortEvents_congr (b : Build) (s s2 : Sys) (h1 : s2.spi.ioType = s.spi.ioType)
    (h2 : s2.rxFifo = s.rxFifo) (h3 : s2.spi.initMode = s.spi.initMode)
    (h4 : s2.spi.curBitRate = s.spi.curBitRate) (h5 : s2.spi.curClockMode = s.spi.curClockMode)
    (h6 : s2.spi.pin_ssel = s.spi.pin_ssel) : abortEvents b s2 = abortEvents b s := by
  simp [abortEvents, h1, h2, h3, h4, h5, h6]

/-- The three ways a call of transceivePacket runs: timeout on an initialised device (the
transfer is aborted), timeout on a device that is not initialised (stopTransfer does nothing),
and completion. -/
theorem transceivePacket_shape (b : Build) (e : Env) (tx rx len : Nat) (cs : Pin) (s : Sys) :
    ∃ Q, Quiet Q ∧
      (((transceivePacket b e tx rx len cs s).1 = spi_status_t.SPI_TIMEOUT ∧
          s.spi.initComplete = true ∧
          (transceivePacket b e tx rx len cs s).2.spi = finalSpi b s.spi false ∧
          (transceivePacket b e tx rx len cs s).2.inFlight = none ∧
          (transceivePacket b e tx rx len cs s).2.mem = s.mem ∧
          (transceivePacket b e tx rx len cs s).2.trace = s.trace ++
            (lowEvents cs ++ Q ++ Event.debugPrintf Msg.spiTimeout :: abortEvents b s ++
              invalEvents s.spi.ioType rx len ++ highEvents cs)) ∨
        ((transceivePacket b e tx rx len cs s).1 = spi_status_t.SPI_TIMEOUT ∧
          s.spi.initComplete = false ∧
          (transceivePacket b e tx rx len cs s).2.spi = finalSpi b s.spi true ∧
          (transceivePacket b e tx rx len cs s).2.mem = s.mem ∧
          (transceivePacket b e tx rx len cs s).2.trace = s.trace ++
            (lowEvents cs ++ Q ++ [Event.debugPrintf Msg.spiTimeout] ++
              invalEvents s.spi.ioType rx len ++ highEvents cs)) ∨
        ((transceivePacket b e tx rx len cs s).1 = spi_status_t.SPI_OK ∧
          (transceivePacket b e tx rx len cs s).2.spi = finalSpi b s.spi false ∧
          ∃ h T, OnlyTake T ∧
            (transceivePacket b e tx rx len cs s).2.trace = s.trace ++
              (lowEvents cs ++ Q ++ Event.cpltCallback h ::
                (highEvents cs ++ giveEvents b e ++ T) ++
                invalEvents s.spi.ioType rx len ++ highEvents cs))) := by
  rcases transceiveWait_cases b e tx rx len cs s with ⟨Q, fl, hQ, hw⟩ | ⟨Q, h, T, m, fl, hQ, hT, hw⟩
  · refine ⟨Q, hQ, ?_⟩
    cases hi : s.spi.initComplete
    · right; left
      simp only [transceivePacket, hw, transceiveEnd_eq]
      rw [stopTransfer_uninit b _ (by simpa [prep] using hi)]
      cases hR : b.RTOS <;> simp [prep, finalSpi, emits, hR]
    · left
      simp only [transceivePacket, hw, transceiveEnd_eq]
      rw [stopTransfer_active b _ (by simpa [prep] using hi) (by simp [prep])]
      cases hR : b.RTOS <;> simp [prep, finalSpi, emits, abortEvents, hR]
  · refine ⟨Q, hQ, Or.inr (Or.inr ?_)⟩
    simp only [transceivePacket, hw, transceiveEnd_eq, cbEvents_prep]
    refine ⟨by simp [prep], ?_, h, T, hT, ?_⟩
    · cases hR : b.RTOS <;> simp [prep, finalSpi, hR]
    · simp [prep]

theorem csWrites_append (p : Nat) (l1 l2 : List Event) :
    csWrites p (l1 ++ l2) = csWrites p l1 ++ csWrites p l2 := by
  simp [csWrites]

theorem csWrites_quiet (p : Nat) (l : List Event) (h : Quiet l) : csWrites p l = [] := by
  induction l with
  | nil => rfl
  | cons a l ih =>
    have ha : quietEv a = true := h a (List.mem_cons_self a l)
    have hl : Quiet l := fun ev hev => h ev (List.mem_cons_of_mem a hev)
    have : csWrites p (a :: l) = csWrites p l := by
      cases a <;> simp_all [csWrites, writeOf, quietEv]
    rw [this, ih hl]

theorem csWrites_abortEvents (p : Nat) (b : Build) (s : Sys) :
    csWrites p (abortEvents b s) = [] := by
  unfold abortEvents
  split_ifs <;> simp [csWrites, writeOf, List.filterMap_replicate]

theorem csWrites_invalEvents (p : Nat) (io : SpiIoType) (rx len : Nat) :
    csWrites p (invalEvents io rx len) = [] := by
  unfold invalEvents
  split_ifs <;> simp [csWrites, writeOf]

theorem csWrites_giveEvents (p : Nat) (b : Build) (e : Env) :
    csWrites p (giveEvents b e) = [] := by
  unfold giveEvents
  split_ifs <;> simp [csWrites, writeOf]

theorem waitLoop_noArrival_active (b : Build) (ws : List Wait) (s : Sys)
    (h : s.spi.transferActive = true) (ha : arrives ws = false) :
    (waitLoop b ws s).spi.transferActive = true := by
  obtain ⟨W, _, hw⟩ := waitLoop_noArrival b ws s h ha
  rw [hw]
  simpa using h

theorem waitLoop_arrival_result (b : Build) (ws : List Wait) (s : Sys) (f : Flight)
    (h : s.spi.transferActive = true) (hfl : s.inFlight = some f) (ha : arrives ws = true) :
    (waitLoop b ws s).spi.transferActive = false ∧
    (waitLoop b ws s).mem = deposit f.dir f.rx f.data s.mem := by
  obtain ⟨W, _, hw⟩ := waitLoop_arrival b ws s f h hfl ha
  rw [hw, completionIRQ_some b (emits W s) f (by simpa using hfl)]
  simp

/-- When the transfer never completes, the wait ends with the busy flag still set. -/
theorem transceiveWait_never (b : Build) (e : Env) (tx rx len : Nat) (cs : Pin) (s : Sys)
    (h : stalls b s.spi.ioType tx rx len e) :
    (transceiveWait b e tx rx len cs s).spi.transferActive = true := by
  rw [transceiveWait_eq]
  apply waitLoop_noArrival_active _ _ _ _ h.2
  rcases startTransfer_cases b e tx rx len (some SPICallbackFunction.transferComplete)
    (selected b e cs s) with ⟨Q, fl, _, hst⟩ | ⟨hpol, hok, _⟩
  · rw [hst]
    rfl
  · exact absurd hok (h.1 hpol)

theorem readBytes_length (mem : Nat → Nat) (ptr len : Nat) :
    (readBytes mem ptr len).length = len := by
  simp [readBytes]

theorem readBytes_writeBytes (mem : Nat → Nat) (ptr : Nat) (data : List Nat) :
    readBytes (writeBytes mem ptr data) ptr data.length = data := by
  apply List.ext_getElem
  · simp [readBytes]
  · intro i h1 h2
    simp [readBytes, writeBytes, h2, List.getD_eq_getElem]

/-- When the peripheral completes and the strategy is handled, the call returns SPI_OK and the
receive buffer holds what the hardware stored. -/
theorem transceive_completes (b : Build) (e : Env) (tx rx len : Nat) (cs : Pin) (s : Sys)
    (hc : e.completes) (hh : handled b s.spi.ioType) :
    (transceivePacket b e tx rx len cs s).1 = spi_status_t.SPI_OK ∧
    (transceivePacket b e tx rx len cs s).2.mem =
      deposit (dirOf tx rx) rx
        ((e.miso (sentBytes (dirOf tx rx) tx rx len s.mem)).take len) s.mem := by
  obtain ⟨hb, hs, ha⟩ := hc
  have hsel : (selected b e cs s).spi.ioType = s.spi.ioType := rfl
  have key : (transceiveWait b e tx rx len cs s).spi.transferActive = false ∧
      (transceiveWait b e tx rx len cs s).mem =
        deposit (dirOf tx rx) rx
          ((e.miso (sentBytes (dirOf tx rx) tx rx len s.mem)).take len) s.mem := by
    rw [transceiveWait_eq]
    rcases dispatch_cases b s.spi.ioType tx rx len with h | h | ⟨h1, h2⟩ | ⟨h1, h2⟩
    · have hst := startTransfer_dma b e tx rx len (some SPICallbackFunction.transferComplete)
        (selected b e cs s) (hsel ▸ h)
      have hw := waitLoop_arrival_result b e.waits _ (flightOf e tx rx len s.mem)
        (show (startTransfer b e tx rx len (some SPICallbackFunction.transferComplete)
          (selected b e cs s)).spi.transferActive = true by rw [hst]; rfl)
        (by rw [hst]; simp [hs, selected]) ha
      refine ⟨hw.1, ?_⟩
      rw [hw.2, hst]
      simp [flightOf, selected]
    · rw [startTransfer_polled_ok b e tx rx len _ _ (hsel ▸ h) hb,
        waitLoop_inactive _ _ _ (by simp [started])]
      simp [started, selected]
    · have hst := startTransfer_it b e tx rx len (some SPICallbackFunction.transferComplete)
        (selected b e cs s) (hsel ▸ h1) h2
      have hw := waitLoop_arrival_result b e.waits _ (flightOf e tx rx len s.mem)
        (show (startTransfer b e tx rx len (some SPICallbackFunction.transferComplete)
          (selected b e cs s)).spi.transferActive = true by rw [hst]; rfl)
        (by rw [hst]; simp [hs, selected]) ha
      refine ⟨hw.1, ?_⟩
      rw [hw.2, hst]
      simp [flightOf, selected]
    · rw [hh h1] at h2
      exact absurd h2 (by simp)
  simp only [transceivePacket, key.1, transceiveEnd_eq]
  simp [key.2]

theorem noRequest_append {l1 l2 : List Event} (h1 : NoRequest l1) (h2 : NoRequest l2) :
    NoRequest (l1 ++ l2) := by
  intro ev hev
  rcases List.mem_append.1 hev with h | h
  · exact h1 ev h
  · exact h2 ev h

theorem noRequest_notReadyEvents (c : Bool) (m : Msg) : NoRequest (notReadyEvents c m) := by
  unfold NoRequest notReadyEvents
  split <;> simp [isRequest]

theorem noRequest_flushEvents (tx rx len : Nat) : NoRequest (flushEvents tx rx len) := by
  unfold NoRequest flushEvents
  split_ifs <;> simp [isRequest]

theorem noRequest_errEvents (st : HAL_StatusTypeDef) : NoRequest (errEvents st) := by
  unfold NoRequest errEvents
  split_ifs <;> simp [isRequest]

theorem noRequest_dmaPrelude (e : Env) (tx rx len : Nat) : NoRequest (dmaPrelude e tx rx len) := by
  unfold dmaPrelude
  refine noRequest_append (noRequest_append (noRequest_append (noRequest_append
    (noRequest_append (noRequest_append ?_ (noRequest_notReadyEvents _ _)) ?_)
    (noRequest_notReadyEvents _ _)) ?_) (noRequest_notReadyEvents _ _))
    (noRequest_flushEvents _ _ _) <;> simp [NoRequest, isRequest]

theorem noRequest_cbEvents (b : Build) (d : HardwareSPI) : NoRequest (cbEvents b d) := by
  unfold NoRequest cbEvents
  rcases d.callback with _ | cb
  · simp
  · cases cb with
    | user id => simp [isRequest]
    | transferComplete =>
      rcases d.csPin with _ | p <;> rcases d.waitingTask with _ | w <;> cases b.RTOS <;>
        simp [isRequest]

theorem countP_noRequest (l : List Event) (h : NoRequest l) :
    l.countP isDMAStart = 0 ∧ l.countP isBlockingStart = 0 := by
  constructor <;>
  · rw [List.countP_eq_zero]
    intro ev hev
    have := h ev hev
    cases ev <;> simp_all [isRequest, isDMAStart, isBlockingStart]

theorem risingEdges_low_high (l0 : Bool) :
    risingEdges l0 [false, true] = 1 ∧ risingEdges l0 [false, true, true] = 1 := by
  cases l0 <;> simp [risingEdges]

theorem csWrites_nil (p : Nat) : csWrites p [] = [] := rfl

theorem csWrites_lowEvents (p : Nat) : csWrites p (lowEvents (some p)) = [false] := by
  simp [csWrites, lowEvents, writeOf]

theorem csWrites_highEvents (p : Nat) : csWrites p (highEvents (some p)) = [true] := by
  simp [csWrites, highEvents, writeOf]

theorem csWrites_cons_debugPrintf (p : Nat) (m : Msg) (l : List Event) :
    csWrites p (Event.debugPrintf m :: l) = csWrites p l := by
  simp [csWrites, writeOf]

theorem csWrites_cons_cpltCallback (p : Nat) (h : Handler) (l : List Event) :
    csWrites p (Event.cpltCallback h :: l) = csWrites p l := by
  simp [csWrites, writeOf]

theorem pinLevel_append (p : Nat) (t l : List Event) (w : List Bool) (v : Bool)
    (hw : csWrites p l = w) (hv : w.getLast? = some v) : pinLevel p (t ++ l) = some v := by
  simp [pinLevel, csWrites_append, hw, hv]

/-- The chip-select writes of a call that times out on an initialised device. -/
theorem csWrites_timeout_init (b : Build) (p rx len : Nat) (s : Sys) (Q : List Event)
    (hQ : Quiet Q) :
    csWrites p (lowEvents (some p) ++ Q ++ Event.debugPrintf Msg.spiTimeout :: abortEvents b s ++
      invalEvents s.spi.ioType rx len ++ highEvents (some p)) = [false, true] := by
  simp only [csWrites_append, csWrites_lowEvents, csWrites_highEvents, csWrites_quiet p Q hQ,
    csWrites_cons_debugPrintf, csWrites_abortEvents, csWrites_invalEvents, List.append_nil,
    List.singleton_append]

/-- The chip-select writes of a call that times out on a device that is not initialised. -/
theorem csWrites_timeout_uninit (p rx len : Nat) (io : SpiIoType) (Q : List Event)
    (hQ : Quiet Q) :
    csWrites p (lowEvents (some p) ++ Q ++ [Event.debugPrintf Msg.spiTimeout] ++
      invalEvents io rx len ++ highEvents (some p)) = [false, true] := by
  simp only [csWrites_append, csWrites_lowEvents, csWrites_highEvents, csWrites_quiet p Q hQ,
    csWrites_cons_debugPrintf, csWrites_nil, csWrites_invalEvents, List.append_nil,
    List.singleton_append]

/-- The chip-select writes of a call that completes. -/
theorem csWrites_completed (b : Build) (e : Env) (p rx len : Nat) (io : SpiIoType)
    (Q T : List Event) (h : Handler) (hQ : Quiet Q) (hT : Quiet T) :
    csWrites p (lowEvents (some p) ++ Q ++ Event.cpltCallback h ::
      (highEvents (some p) ++ giveEvents b e ++ T) ++
      invalEvents io rx len ++ highEvents (some p)) = [false, true, true] := by
  simp only [csWrites_append, csWrites_lowEvents, csWrites_highEvents, csWrites_quiet p Q hQ,
    csWrites_quiet p T hT, csWrites_cons_cpltCallback, csWrites_giveEvents, csWrites_invalEvents,
    List.append_nil, List.singleton_append, List.cons_append, List.nil_append]

theorem since_of_trace (s r : Sys) (l : List Event) (h : r.trace = s.trace ++ l) :
    since s r = l := by
  simp [since, h]

theorem noHigh_append {l1 l2 : List Event} (h1 : NoHigh l1) (h2 : NoHigh l2) :
    NoHigh (l1 ++ l2) := by
  intro ev hev
  rcases List.mem_append.1 hev with h | h
  · exact h1 ev h
  · exact h2 ev h

theorem Quiet.noHigh {l : List Event} (h : Quiet l) : NoHigh l := by
  intro ev hev q hq
  have := h ev hev
  rw [hq] at this
  simp [quietEv] at this

theorem OnlyTake.noRequest {l : List Event} (h : OnlyTake l) : NoRequest l := by
  intro ev hev
  obtain ⟨t, r, rfl⟩ := h ev hev
  rfl

theorem noHigh_lowEvents (cs : Pin) : NoHigh (lowEvents cs) := by
  cases cs <;> simp [NoHigh, lowEvents]

theorem noRequest_highEvents (cs : Pin) : NoRequest (highEvents cs) := by
  cases cs <;> simp [NoRequest, highEvents, isRequest]

theorem noRequest_giveEvents (b : Build) (e : Env) : NoRequest (giveEvents b e) := by
  unfold NoRequest giveEvents
  split <;> simp [isRequest]

theorem noRequest_invalEvents (io : SpiIoType) (rx len : Nat) :
    NoRequest (invalEvents io rx len) := by
  unfold NoRequest invalEvents
  split <;> simp [isRequest]

/-- The abort made by stopTransfer: events that drive no pin, then the event that ends the
transfer, then events that are not transfer requests. -/
theorem abortEvents_split (b : Build) (s : Sys) :
    ∃ A rel C, abortEvents b s = A ++ rel :: C ∧ NoHigh A ∧ isRelease rel = true ∧
      NoRequest C := by
  unfold abortEvents
  cases b.STM32H7
  · refine ⟨(if s.spi.ioType = SpiIoType.dma then [Event.HAL_SPI_DMAStop] else []) ++
        List.replicate s.rxFifo Event.readDR, Event.spi_deinit,
      [Event.spi_init s.spi.initMode s.spi.curBitRate s.spi.curClockMode s.spi.pin_ssel,
        Event.HAL_SPI_DISABLE], by simp, ?_, rfl, by simp [NoRequest, isRequest]⟩
    intro ev hev q hq
    subst hq
    split_ifs at hev <;> simp [List.mem_replicate] at hev
  · exact ⟨[], Event.HAL_SPI_Abort, [Event.HAL_SPI_DISABLE], by simp, by simp [NoHigh], rfl,
      by simp [NoRequest, isRequest]⟩

/-- In a trace made of events that drive no pin high, then an event that ends the transfer,
then events that are not transfer requests, every high write comes after the ending event with
no transfer request in between. -/
theorem release_before_high (A C : List Event) (rel : Event) (hA : NoHigh A)
    (hrel : isRelease rel = true) (hC : NoRequest C) (pre post : List Event) (q : Nat)
    (h : A ++ rel :: C = pre ++ Event.fastDigitalWriteHigh q :: post) :
    ∃ a r c, pre = a ++ r :: c ∧ isRelease r = true ∧ NoRequest c := by
  rcases List.append_eq_append_iff.1 h with ⟨a2, hpre, hrest⟩ | ⟨c2, hA2, hrest⟩
  · cases a2 with
    | nil =>
      simp at hrest
      rw [hrest.1] at hrel
      simp [isRelease] at hrel
    | cons x a3 =>
      simp at hrest
      refine ⟨A, rel, a3, by rw [hpre, hrest.1], hrel, ?_⟩
      intro ev hev
      exact hC ev (by rw [hrest.2]; exact List.mem_append_left _ hev)
  · cases c2 with
    | nil =>
      simp at hrest
      rw [← hrest.1] at hrel
      simp [isRelease] at hrel
    | cons x c3 =>
      simp at hrest
      exact absurd hrest.1.symm (hA x (by rw [hA2]; simp) q)

theorem completionIRQ_agree (b : Build) (s s2 : Sys) (h : agree s s2) :
    agree (completionIRQ b s) (completionIRQ b s2) := by
  obtain ⟨h1, h2, h3, h4⟩ := h
  rcases hf : s.inFlight with _ | f
  · rw [completionIRQ_none b s hf, completionIRQ_none b s2 (h3 ▸ hf)]
    exact ⟨h1, h2, h3, h4⟩
  · rw [completionIRQ_some b s f hf, completionIRQ_some b s2 f (h3 ▸ hf)]
    simp [agree, h1, h2, h4]

theorem took_agree (b : Build) (r : Bool) (s s2 : Sys) (h : agree s s2) :
    agree (took b r s) (took b r s2) := by
  simpa [took_eq, agree] using h

/-- The wait loop does not look at the trace. -/
theorem waitLoop_agree (b : Build) (ws : List Wait) (s s2 : Sys) (h : agree s s2) :
    agree (waitLoop b ws s) (waitLoop b ws s2) := by
  induction ws generalizing s s2 with
  | nil =>
    have ha : s2.spi.transferActive = s.spi.transferActive := by rw [h.1]
    cases hact : s.spi.transferActive <;> simp only [waitLoop, hact, ha]
    · simpa using h
    · simpa using took_agree b false s s2 h
  | cons w ws ih =>
    have ha : s2.spi.transferActive = s.spi.transferActive := by rw [h.1]
    cases w <;> cases hact : s.spi.transferActive <;> simp only [waitLoop, hact, ha]
    · simpa using h
    · simpa using ih _ _ (took_agree b true _ _ (completionIRQ_agree b s s2 h))
    · simpa using h
    · simpa using ih _ _ (took_agree b true _ _ h)
    · simpa using h
    · simpa using took_agree b false s s2 h

/-- Wake-ups that come first while the busy flag is set do not change how the wait ends. -/
theorem waitLoop_wakes (b : Build) (k : Nat) (ws : List Wait) (s : Sys) :
    (waitLoop b (List.replicate k Wait.wake ++ ws) s).spi.transferActive
      = (waitLoop b ws s).spi.transferActive := by
  induction k generalizing s with
  | zero => simp
  | succ k ih =>
    cases hact : s.spi.transferActive
    · rw [waitLoop_inactive b _ s hact, waitLoop_inactive b _ s hact]
    · have hcons : List.replicate (k + 1) Wait.wake ++ ws
          = Wait.wake :: (List.replicate k Wait.wake ++ ws) := rfl
      have hag : agree (took b true s) s := by simp [took_eq, agree]
      rw [hcons]
      simp only [waitLoop, hact, if_true]
      refine (ih (took b true s)).trans ?_
      rw [(waitLoop_agree b ws _ _ hag).1]

theorem quiet_count_disable (l : List Event) (h : Quiet l) :
    l.count Event.HAL_SPI_DISABLE = 0 := by
  rw [List.count_eq_zero]
  intro hmem
  have := h _ hmem
  simp [quietEv] at this

theorem abortEvents_count_disable (b : Build) (s : Sys) :
    (abortEvents b s).count Event.HAL_SPI_DISABLE = 1 := by
  unfold abortEvents
  split_ifs <;> simp [List.count_cons, List.count_replicate]

theorem lowEvents_count_disable (cs : Pin) : (lowEvents cs).count Event.HAL_SPI_DISABLE = 0 := by
  cases cs <;> simp [lowEvents]

theorem highEvents_count_disable (cs : Pin) :
    (highEvents cs).count Event.HAL_SPI_DISABLE = 0 := by
  cases cs <;> simp [highEvents]

theorem giveEvents_count_disable (b : Build) (e : Env) :
    (giveEvents b e).count Event.HAL_SPI_DISABLE = 0 := by
  unfold giveEvents
  split_ifs <;> simp

theorem invalEvents_count_disable (io : SpiIoType) (rx len : Nat) :
    (invalEvents io rx len).count Event.HAL_SPI_DISABLE = 0 := by
  unfold invalEvents
  split_ifs <;> simp

/-- Normal form of configureDevice when its test fails: nothing happens. -/
theorem configureDevice_noop (deviceMode bits clockMode bitRate : Nat) (cs : Pin) (s : Sys)
    (h : mustReinit bits clockMode bitRate s.spi = false) :
    configureDevice deviceMode bits clockMode bitRate cs s = s := by
  unfold mustReinit at h
  simp only [configureDevice, h]
  simp

/-- Normal form of configureDevice when its test holds. -/
theorem configureDevice_reinit (deviceMode bits clockMode bitRate : Nat) (cs : Pin) (s : Sys)
    (h : mustReinit bits clockMode bitRate s.spi = true) :
    configureDevice deviceMode bits clockMode bitRate cs s =
      { s with
        spi := { s.spi with
          pin_ssel := cs
          initMode := deviceMode
          initComplete := true
          transferActive := false
          curBitRate := bitRate
          curBits := bits
          curClockMode := clockMode }
        inFlight := if s.spi.initComplete then none else s.inFlight
        trace := s.trace ++ (teardownEvents s.spi ++
          [Event.spi_init deviceMode bitRate clockMode cs]) } := by
  unfold mustReinit at h
  simp only [configureDevice, h, if_true, teardownEvents]
  cases hi : s.spi.initComplete <;> by_cases hd : s.spi.ioType = SpiIoType.dma <;>
    simp [hd, spi_init, spi_deinit, HAL_SPI_DMAStop, emits]

theorem initCount_append (l1 l2 : List Event) :
    initCount (l1 ++ l2) = initCount l1 + initCount l2 := by
  simp [initCount]

theorem initCount_teardownEvents (d : HardwareSPI) : initCount (teardownEvents d) = 0 := by
  unfold teardownEvents initCount
  split_ifs <;> simp

theorem deinitCount_teardownEvents (d : HardwareSPI) :
    deinitCount (teardownEvents d) = if d.initComplete then 1 else 0 := by
  unfold teardownEvents deinitCount
  split_ifs <;> simp

theorem initPins_transferActive (clk miso mosi : Pin) (priority : Nat) (s : Sys) :
    (initPins clk miso mosi priority s).spi.transferActive = s.spi.transferActive := by
  unfold initPins initDma
  by_cases hd : s.spi.ioType = SpiIoType.dma <;> by_cases hp : s.spi.ioType = SpiIoType.polled <;>
    simp [hd, hp, emits]

/-- A call through the registered callback pointer only appends the events of the callback. -/
theorem call_eq (b : Build) (s : Sys) :
    call b s.spi.callback s = emits (cbEvents b s.spi) s := by
  unfold call cbEvents
  rcases hcb : s.spi.callback with _ | cb
  · simp
  · cases cb with
    | user id => simp [invoke]
    | transferComplete =>
      rcases hp : s.spi.csPin with _ | p <;> rcases ht : s.spi.waitingTask with _ | t <;>
        cases hR : b.RTOS <;> simp [invoke, transferComplete, hp, ht, hR]

theorem cbEvents_started (b : Build) (d : HardwareSPI) (cb : Option SPICallbackFunction)
    (a1 a2 : Bool) : cbEvents b (started d cb a1) = cbEvents b (started d cb a2) := rfl

theorem cbEvents_no_cplt (b : Build) (d : HardwareSPI) (h : Handler) :
    Event.cpltCallback h ∉ cbEvents b d := by
  unfold cbEvents
  rcases d.callback with _ | cb
  · simp
  · cases cb with
    | user id => simp
    | transferComplete =>
      rcases d.csPin with _ | p <;> rcases d.waitingTask with _ | w <;> cases b.RTOS <;> simp

/-- An operation that finds the busy flag set and leaves it clear is one of those that may
clear it. -/
theorem step_clears (b : Build) (op : Op) (s : Sys) (h : s.spi.transferActive = true)
    (h2 : (step b op s).spi.transferActive = false) : clears b op s := by
  cases op with
  | initPins clk miso mosi priority =>
    simp only [step, initPins_transferActive, h] at h2
    exact absurd h2 (by simp)
  | configureDevice deviceMode bits clockMode bitRate cs =>
    left
    cases hm : mustReinit bits clockMode bitRate s.spi
    · simp only [step, configureDevice_noop deviceMode bits clockMode bitRate cs s hm, h] at h2
      exact absurd h2 (by simp)
    · exact hm
  | startTransfer e tx rx len cb =>
    right
    rcases startTransfer_cases b e tx rx len cb s with ⟨Q, fl, _, hst⟩ | ⟨_, _, q, m, _, hst⟩
    · simp only [step, hst, started] at h2
      exact absurd h2 (by simp)
    · exact ⟨Handler.Rx, by simp [step, hst, since]⟩
  | stopTransfer => exact Or.inl trivial
  | disable => exact Or.inl trivial
  | flushRx =>
    simp only [step, flushRx, flushRxFifo, h] at h2
    exact absurd h2 (by simp)
  | interrupt =>
    right
    rcases hf : s.inFlight with _ | f
    · simp only [step, completionIRQ_none b s hf, h] at h2
      exact absurd h2 (by simp)
    · exact ⟨handlerOf f.dir, by simp [step, completionIRQ_some b s f hf, since]⟩

/-- Along any sequence of operations, the busy flag stays set until an operation that may clear
it runs. -/
theorem run_clears (b : Build) (ops : List Op) (s : Sys) (h : s.spi.transferActive = true)
    (h2 : (run b ops s).spi.transferActive = false) :
    ∃ pre op post, ops = pre ++ op :: post ∧ (run b pre s).spi.transferActive = true ∧
      clears b op (run b pre s) := by
  induction ops generalizing s with
  | nil =>
    simp only [run, h] at h2
    exact absurd h2 (by simp)
  | cons op ops ih =>
    cases hs : (step b op s).spi.transferActive
    · exact ⟨[], op, ops, rfl, h, step_clears b op s h hs⟩
    · obtain ⟨pre, op2, post, ho, ha, hc⟩ := ih (step b op s) hs h2
      exact ⟨op :: pre, op2, post, by rw [ho]; rfl, ha, hc⟩

theorem filter_isFlush_notReadyEvents (c : Bool) (m : Msg) :
    (notReadyEvents c m).filter isFlush = [] := by
  unfold notReadyEvents
  split <;> simp [isFlush]

theorem filter_isFlush_dmaPrelude (e : Env) (tx rx len : Nat) :
    (dmaPrelude e tx rx len).filter isFlush = flushEvents tx rx len := by
  unfold dmaPrelude
  simp only [List.filter_append, filter_isFlush_notReadyEvents]
  unfold flushEvents
  split_ifs <;> simp [isFlush]

theorem filter_isInvalidate_quiet (l : List Event) (h : Quiet l) :
    l.filter isInvalidate = [] := by
  rw [List.filter_eq_nil_iff]
  intro ev hev
  have := h ev hev
  cases ev <;> simp_all [quietEv, isInvalidate]

theorem filter_isInvalidate_abortEvents (b : Build) (s : Sys) :
    (abortEvents b s).filter isInvalidate = [] := by
  unfold abortEvents
  split_ifs <;> simp [isInvalidate, List.filter_replicate]

theorem filter_isInvalidate_lowEvents (cs : Pin) : (lowEvents cs).filter isInvalidate = [] := by
  cases cs <;> simp [lowEvents, isInvalidate]

theorem filter_isInvalidate_highEvents (cs : Pin) :
    (highEvents cs).filter isInvalidate = [] := by
  cases cs <;> simp [highEvents, isInvalidate]

theorem filter_isInvalidate_giveEvents (b : Build) (e : Env) :
    (giveEvents b e).filter isInvalidate = [] := by
  unfold giveEvents
  split_ifs <;> simp [isInvalidate]

theorem filter_isInvalidate_invalEvents (io : SpiIoType) (rx len : Nat) :
    (invalEvents io rx len).filter isInvalidate = invalEvents io rx len := by
  unfold invalEvents
  split_ifs <;> simp [isInvalidate]

theorem disable_ioType (s : Sys) : (disable s).spi.ioType = s.spi.ioType := by
  unfold disable
  cases hi : s.spi.initComplete <;> by_cases hd : s.spi.ioType = SpiIoType.dma <;>
    simp [hd, HAL_SPI_DMAStop, flushRxFifo, spi_deinit]

theorem initPins_ioType (clk miso mosi : Pin) (priority : Nat) (s : Sys) :
    (initPins clk miso mosi priority s).spi.ioType = s.spi.ioType := by
  unfold initPins initDma
  by_cases hd : s.spi.ioType = SpiIoType.dma <;> by_cases hp : s.spi.ioType = SpiIoType.polled <;>
    simp [hd, hp, emits]

theorem configureDevice_ioType (deviceMode bits clockMode bitRate : Nat) (cs : Pin) (s : Sys) :
    (configureDevice deviceMode bits clockMode bitRate cs s).spi.ioType = s.spi.ioType := by
  cases hm : mustReinit bits clockMode bitRate s.spi
  · rw [configureDevice_noop deviceMode bits clockMode bitRate cs s hm]
  · rw [configureDevice_reinit deviceMode bits clockMode bitRate cs s hm]

theorem startTransfer_ioType (b : Build) (e : Env) (tx rx len : Nat)
    (cb : Option SPICallbackFunction) (s : Sys) :
    (startTransfer b e tx rx len cb s).spi.ioType = s.spi.ioType := by
  rcases startTransfer_cases b e tx rx len cb s with ⟨Q, fl, _, hst⟩ | ⟨_, _, q, m, _, hst⟩ <;>
    rw [hst] <;> rfl

theorem stopTransfer_ioType (b : Build) (s : Sys) :
    (stopTransfer b s).spi.ioType = s.spi.ioType := by
  cases hi : s.spi.initComplete
  · rw [stopTransfer_uninit b s hi]
  · cases ha : s.spi.transferActive
    · rw [stopTransfer_idle b s hi ha]
      rfl
    · rw [stopTransfer_active b s hi ha]

theorem completionIRQ_ioType (b : Build) (s : Sys) :
    (completionIRQ b s).spi.ioType = s.spi.ioType := by
  rcases hf : s.inFlight with _ | f
  · rw [completionIRQ_none b s hf]
  · rw [completionIRQ_some b s f hf]

theorem handlerFn_eq (h : Handler) (b : Build) (s : Sys) :
    handlerFn h b s =
      { s with spi.transferActive := false
               trace := s.trace ++ Event.cpltCallback h :: cbEvents b s.spi } := by
  cases h
  · exact (handler_eq b s).1
  · exact (handler_eq b s).2.1
  · exact (handler_eq b s).2.2

/-- Every operation leaves the strategy of the device as it was. -/
theorem step_ioType (b : Build) (op : Op) (s : Sys) :
    (step b op s).spi.ioType = s.spi.ioType := by
  cases op with
  | initPins clk miso mosi priority => exact initPins_ioType clk miso mosi priority s
  | configureDevice deviceMode bits clockMode bitRate cs =>
    exact configureDevice_ioType deviceMode bits clockMode bitRate cs s
  | startTransfer e tx rx len cb => exact startTransfer_ioType b e tx rx len cb s
  | stopTransfer => exact stopTransfer_ioType b s
  | disable => exact disable_ioType s
  | flushRx => rfl
  | interrupt => exact completionIRQ_ioType b s

theorem run_ioType (b : Build) (ops : List Op) (s : Sys) :
    (run b ops s).spi.ioType = s.spi.ioType := by
  induction ops generalizing s with
  | nil => rfl
  | cons op ops ih => exact (ih (step b op s)).trans (step_ioType b op s)

/-- The device record when transceivePacket returns: the record at entry with csPin, the
waiting task, the callback and the busy flag rewritten. -/
theorem transceivePacket_spi (b : Build) (e : Env) (tx rx len : Nat) (cs : Pin) (s : Sys) :
    ∃ a, (transceivePacket b e tx rx len cs s).2.spi = finalSpi b s.spi a := by
  obtain ⟨Q, _, h | h | h⟩ := transceivePacket_shape b e tx rx len cs s
  · exact ⟨false, h.2.2.1⟩
  · exact ⟨true, h.2.2.1⟩
  · exact ⟨false, h.2.1⟩

theorem startTransfer_initComplete (b : Build) (e : Env) (tx rx len : Nat)
    (cb : Option SPICallbackFunction) (s : Sys) :
    (startTransfer b e tx rx len cb s).spi.initComplete = s.spi.initComplete := by
  rcases startTransfer_cases b e tx rx len cb s with ⟨Q, fl, _, hst⟩ | ⟨_, _, q, m, _, hst⟩ <;>
    rw [hst] <;> rfl

/-- Normal form of disable on an initialised device. -/
theorem disable_init (s : Sys) (hi : s.spi.initComplete = true) :
    disable s =
      { s with
        spi := { s.spi with initComplete := false, transferActive := false }
        inFlight := none
        rxFifo := 0
        trace := s.trace ++ ((if s.spi.ioType = SpiIoType.dma then [Event.HAL_SPI_DMAStop] else [])
          ++ List.replicate s.rxFifo Event.readDR ++ [Event.spi_deinit]) } := by
  unfold disable
  by_cases hd : s.spi.ioType = SpiIoType.dma <;>
    simp [hi, hd, HAL_SPI_DMAStop, flushRxFifo, spi_deinit, emits]

/-- On a device that is not initialised disable does nothing. -/
theorem disable_uninit (s : Sys) (hi : s.spi.initComplete = false) : disable s = s := by
  simp [disable, hi]

theorem since_startTransferDMA (e : Env) (tx rx len : Nat) (s : Sys) :
    since s (startTransferDMA e tx rx len s).2 =
      dmaPrelude e tx rx len ++ [Event.halStart Xfer.viaDMA (dirOf tx rx) tx rx len] := by
  rw [startTransferDMA_eq]
  exact since_of_trace _ _ _ rfl

theorem since_startTransferIT (e : Env) (tx rx len : Nat) (s : Sys) :
    since s (startTransferIT e tx rx len s).2 =
      itPrelude e ++ [Event.halStart Xfer.viaIT (dirOf tx rx) tx rx len] := by
  rw [startTransferIT_eq]
  exact since_of_trace _ _ _ rfl

/-- A DMA start primitive among the events of startTransfer means the dispatch took the DMA
path. -/
theorem startTransfer_dmaStart_usesDMA (b : Build) (e : Env) (tx rx len : Nat)
    (cb : Option SPICallbackFunction) (s : Sys)
    (h : ∃ ev ∈ since s (startTransfer b e tx rx len cb s), isDMAStart ev = true) :
    usesDMA b s.spi.ioType tx rx len := by
  obtain ⟨ev, hev, hd⟩ := h
  have hcb : ∀ d, ev ∈ cbEvents b d → False := by
    intro d hm
    have := noRequest_cbEvents b d ev hm
    cases ev <;> simp_all [isRequest, isDMAStart]
  have herr : ev ∈ errEvents e.started → False := by
    intro hm
    have := noRequest_errEvents e.started ev hm
    cases ev <;> simp_all [isRequest, isDMAStart]
  rcases dispatch_cases b s.spi.ioType tx rx len with h | h | ⟨h1, h2⟩ | ⟨h1, h2⟩
  · exact h
  · exfalso
    by_cases hs : e.blocking = HAL_StatusTypeDef.HAL_OK
    · rw [startTransfer_polled_ok b e tx rx len cb s h hs,
        since_of_trace s _ _ rfl] at hev
      rcases List.mem_cons.1 hev with h3 | h3
      · subst h3; simp [isDMAStart] at hd
      · rcases List.mem_cons.1 h3 with h4 | h4
        · subst h4; simp [isDMAStart] at hd
        · exact hcb _ h4
    · rw [startTransfer_polled_fail b e tx rx len cb s h hs,
        since_of_trace s _ _ rfl] at hev
      simp only [List.mem_cons, List.mem_singleton, List.not_mem_nil, or_false] at hev
      rcases hev with h3 | h3 <;> subst h3 <;> simp [isDMAStart] at hd
  · exfalso
    rw [startTransfer_it b e tx rx len cb s h1 h2, since_of_trace s _ _ rfl] at hev
    rcases List.mem_append.1 hev with h3 | h3
    · rcases List.mem_append.1 h3 with h4 | h4
      · have hq : ∀ ev2 ∈ itPrelude e, isDMAStart ev2 = false := by
          unfold itPrelude notReadyEvents
          by_cases hr : e.spiState = HAL_SPI_StateTypeDef.READY <;> simp [hr, isDMAStart]
        rw [hq ev h4] at hd
        exact absurd hd (by simp)
      · simp only [List.mem_singleton] at h4
        subst h4; simp [isDMAStart] at hd
    · exact herr h3
  · exfalso
    rw [startTransfer_unhandled b e tx rx len cb s h1 h2, since_of_trace s _ _ rfl] at hev
    simp only [List.mem_singleton] at hev
    subst hev; simp [isDMAStart] at hd

/-- What the non-H7 CAN_USE_DMA says about a non-null pointer: it is outside the closed range
from _sccmram to _ccmramend. The length plays no part. -/
theorem CAN_USE_DMA_nonH7 (b : Build) (ptr len : Nat) (hb : b.STM32H7 = false)
    (hnz : ptr ≠ 0) :
    CAN_USE_DMA b ptr len = true ↔ (ptr < b.sccmram ∨ b.ccmramend < ptr) := by
  simp only [CAN_USE_DMA, hb, Bool.false_eq_true, if_false, beq_iff_eq, hnz, Bool.false_or,
    Bool.not_eq_true', Bool.and_eq_false_iff, decide_eq_false_iff_not, not_le, ge_iff_le]
  simp [hnz]

/-- What the H7 CAN_USE_DMA says about a non-null pointer. -/
theorem CAN_USE_DMA_H7 (b : Build) (ptr len : Nat) (hb : b.STM32H7 = true) (hnz : ptr ≠ 0) :
    CAN_USE_DMA b ptr len = true ↔
      (b.nocache_ram_start ≤ ptr ∧ (ptr + len) % 2 ^ 32 < b.nocache_ram_end) := by
  simp [CAN_USE_DMA, hb, hnz]

/-- Masking a 32-bit value with the complement of 2^k - 1 rounds it down to a multiple
of 2^k. -/
theorem and_not32_pow (x k : Nat) (hx : x < 2 ^ 32) (hk : k < 32) :
    x &&& not32 (sub32 (2 ^ k) 1) = x - x % 2 ^ k := by
  have hpos : 1 ≤ 2 ^ k := Nat.one_le_two_pow
  have hlt : 2 ^ k < 2 ^ 32 := Nat.pow_lt_pow_right (by norm_num) hk
  have hm : not32 (sub32 (2 ^ k) 1) = 2 ^ 32 - ((2 ^ k - 1) + 1) := by
    unfold not32 sub32
    rw [Nat.mod_eq_of_lt hlt, Nat.mod_eq_of_lt (by norm_num : 1 < 2 ^ 32)]
    have h3 : (2 ^ k + 2 ^ 32 - 1) % 2 ^ 32 = 2 ^ k - 1 := by
      rw [show 2 ^ k + 2 ^ 32 - 1 = (2 ^ k - 1) + 2 ^ 32 by omega, Nat.add_mod_right]
      exact Nat.mod_eq_of_lt (by omega)
    rw [h3, Nat.mod_eq_of_lt (by omega)]
    omega
  have h2 : x - x % 2 ^ k = 2 ^ k * (x >>> k) := by
    rw [Nat.shiftRight_eq_div_pow]
    have := Nat.div_add_mod x (2 ^ k)
    omega
  rw [hm, h2]
  apply Nat.eq_of_testBit_eq
  intro i
  rw [Nat.testBit_and, Nat.testBit_two_pow_sub_succ (by omega), Nat.testBit_two_pow_sub_one,
    Nat.testBit_mul_pow_two, Nat.testBit_shiftRight]
  by_cases hik : k ≤ i
  · have hki : k + (i - k) = i := by omega
    rw [hki]
    by_cases hi : i < 32
    · simp [hik, hi, Nat.not_lt.2 hik]
    · have hx2 : x < 2 ^ i :=
        lt_of_lt_of_le hx (Nat.pow_le_pow_right (by norm_num) (by omega))
      simp [hi, Nat.testBit_lt_two_pow hx2]
  · have hik2 : i < k := by omega
    simp [hik, hik2]

/-- The new heap limit when the subtraction does not wrap: the old limit less the size, rounded
down to the alignment. -/
theorem newHeapLimit_no_wrap (sz k L : Nat) (hk : k < 32) (hL : L < 2 ^ 32) (hsz : sz ≤ L) :
    sub32 L sz &&& not32 (sub32 (2 ^ k) 1) = (L - sz) - (L - sz) % 2 ^ k := by
  have hs : sub32 L sz = L - sz := by
    unfold sub32
    rw [Nat.mod_eq_of_lt hL, Nat.mod_eq_of_lt (lt_of_le_of_lt hsz hL),
      show L + 2 ^ 32 - sz = (L - sz) + 2 ^ 32 by omega, Nat.add_mod_right]
    exact Nat.mod_eq_of_lt (by omega)
  rw [hs]
  exact and_not32_pow (L - sz) k (by omega) hk

/-- CoreAllocCCMRAMPermanent on a request no larger than the address in ccmHeapLimit: a call
that returns gives an aligned block between ccmHeapTop and the old ccmHeapLimit and moves
ccmHeapLimit to the start of the block. -/
theorem CoreAllocCCMRAMPermanent_no_wrap (sz k : Nat) (h : CcmHeap) (p : Nat) (h2 : CcmHeap)
    (hk : k < 32) (hL : h.ccmHeapLimit < 2 ^ 32) (hsz : sz ≤ h.ccmHeapLimit)
    (hr : CoreAllocCCMRAMPermanent sz (2 ^ k) h = some (p, h2)) :
    p % 2 ^ k = 0 ∧ h.ccmHeapTop ≤ p ∧ p + sz ≤ h.ccmHeapLimit ∧
      h2.ccmHeapLimit = p ∧ h2.ccmHeapTop = h.ccmHeapTop := by
  unfold CoreAllocCCMRAMPermanent at hr
  rw [newHeapLimit_no_wrap sz k h.ccmHeapLimit hk hL hsz] at hr
  simp only at hr
  split_ifs at hr with hlt
  simp only [Option.some.injEq, Prod.mk.injEq] at hr
  obtain ⟨hp, hh⟩ := hr
  subst hh
  have hmod := Nat.mod_lt (h.ccmHeapLimit - sz) (Nat.two_pow_pos k)
  have hdvd : 2 ^ k ∣ (h.ccmHeapLimit - sz) - (h.ccmHeapLimit - sz) % 2 ^ k :=
    Nat.dvd_sub_mod _
  refine ⟨?_, ?_, ?_, hp, rfl⟩
  · rw [← hp]
    exact Nat.mod_eq_zero_of_dvd hdvd
  · omega
  · omega

/-- A request no larger than ccmHeapLimit that returns keeps the heap pointers in bounds and
does not lower ccmUsed. -/
theorem CoreAllocCCMRAMPermanent_inBounds (l : CcmSymbols) (sz k : Nat) (h : CcmHeap) (p : Nat)
    (h2 : CcmHeap) (hl : l.wellFormed) (hb : h.inBounds l) (hk : k < 32)
    (hsz : sz ≤ h.ccmHeapLimit)
    (hr : CoreAllocCCMRAMPermanent sz (2 ^ k) h = some (p, h2)) :
    h2.inBounds l ∧ (CoreCCMRAMUsage l h).ccmUsed ≤ (CoreCCMRAMUsage l h2).ccmUsed := by
  obtain ⟨hS, hE, hR⟩ := hl
  obtain ⟨ht, hlo, hhi⟩ := hb
  obtain ⟨_, h1, h3, h4, h5⟩ :=
    CoreAllocCCMRAMPermanent_no_wrap sz k h p h2 hk (by omega) hsz hr
  refine ⟨⟨by omega, by omega, by omega⟩, ?_⟩
  unfold CoreCCMRAMUsage sub32
  simp only
  rw [Nat.mod_eq_of_lt hR, Nat.mod_eq_of_lt (show h.ccmHeapLimit < 2 ^ 32 by omega),
    Nat.mod_eq_of_lt (show h2.ccmHeapLimit < 2 ^ 32 by omega),
    show l.ccmramend + 2 ^ 32 - h.ccmHeapLimit = (l.ccmramend - h.ccmHeapLimit) + 2 ^ 32 by omega,
    show l.ccmramend + 2 ^ 32 - h2.ccmHeapLimit = (l.ccmramend - h2.ccmHeapLimit) + 2 ^ 32
      by omega,
    Nat.add_mod_right, Nat.add_mod_right, Nat.mod_eq_of_lt (by omega),
    Nat.mod_eq_of_lt (by omega)]
  omega

/-- While the heap pointers are in bounds the three values of CoreCCMRAMUsage add up to the
size of CCM RAM. -/
theorem CoreCCMRAMUsage_sum (l : CcmSymbols) (h : CcmHeap) (hl : l.wellFormed)
    (hb : h.inBounds l) :
    (CoreCCMRAMUsage l h).ccmStatic + (CoreCCMRAMUsage l h).ccmUsed +
      (CoreCCMRAMUsage l h).ccmFree = l.ccmramend - l.sccmram := by
  obtain ⟨hS, hE, hR⟩ := hl
  obtain ⟨ht, hlo, hhi⟩ := hb
  unfold CoreCCMRAMUsage sub32
  simp only
  rw [Nat.mod_eq_of_lt hR, Nat.mod_eq_of_lt (show h.ccmHeapLimit < 2 ^ 32 by omega),
    Nat.mod_eq_of_lt (show h.ccmHeapTop < 2 ^ 32 by omega),
    Nat.mod_eq_of_lt (show l.eccmram < 2 ^ 32 by omega),
    Nat.mod_eq_of_lt (show l.sccmram < 2 ^ 32 by omega),
    show l.eccmram + 2 ^ 32 - l.sccmram = (l.eccmram - l.sccmram) + 2 ^ 32 by omega,
    show l.ccmramend + 2 ^ 32 - h.ccmHeapLimit = (l.ccmramend - h.ccmHeapLimit) + 2 ^ 32 by omega,
    show h.ccmHeapLimit + 2 ^ 32 - h.ccmHeapTop = (h.ccmHeapLimit - h.ccmHeapTop) + 2 ^ 32
      by omega,
    Nat.add_mod_right, Nat.add_mod_right, Nat.add_mod_right, Nat.mod_eq_of_lt (by omega),
    Nat.mod_eq_of_lt (by omega), Nat.mod_eq_of_lt (by omega)]
  omega

/-- Along a sequence of requests, each no larger than the address of the end of the static
data and each with a power of two below 2^32 as alignment, the heap pointers stay in bounds
and ccmUsed does not decrease. -/
theorem allocAll_inBounds (l : CcmSymbols) (hl : l.wellFormed) (calls : List (Nat × Nat))
    (h h2 : CcmHeap) (hb : h.inBounds l)
    (hc : ∀ c ∈ calls, c.1 ≤ l.eccmram ∧ ∃ k, k < 32 ∧ c.2 = 2 ^ k)
    (hr : allocAll calls h = some h2) :
    h2.inBounds l ∧ (CoreCCMRAMUsage l h).ccmUsed ≤ (CoreCCMRAMUsage l h2).ccmUsed := by
  induction calls generalizing h with
  | nil =>
    simp only [allocAll, Option.some.injEq] at hr
    subst hr
    exact ⟨hb, le_refl _⟩
  | cons c rest ih =>
    obtain ⟨sz, al⟩ := c
    obtain ⟨hsz, k, hk, hal⟩ := hc (sz, al) (List.mem_cons_self _ _)
    simp only at hsz hal
    subst hal
    unfold allocAll at hr
    cases hcall : CoreAllocCCMRAMPermanent sz (2 ^ k) h with
    | none =>
      rw [hcall] at hr
      simp at hr
    | some r =>
      rw [hcall] at hr
      obtain ⟨p, h1⟩ := r
      have hstep := CoreAllocCCMRAMPermanent_inBounds l sz k h p h1 hl hb hk
        (le_trans hsz hb.2.1) hcall
      have hrest := ih h1 hstep.1 (fun c2 hc2 => hc c2 (List.mem_cons_of_mem _ hc2)) hr
      exact ⟨hrest.1, le_trans hstep.2 hrest.2⟩

/-- A scan of a table that ends with the terminator stops inside the table. -/
theorem pinmapScan_terminated (pin : String) (t : List PinMap) (h : Terminated t) :
    pinmapScan pin t ≠ none := by
  have hl := h.2
  clear h
  induction t with
  | nil => simp at hl
  | cons e rest ih =>
    unfold pinmapScan
    by_cases h1 : e.pin = "NC"
    · simp [h1]
    · by_cases h2 : e.pin = pin
      · rw [if_neg h1, if_pos h2]
        simp
      · rw [if_neg h1, if_neg h2]
        cases rest with
        | nil =>
          simp only [List.getLast?_singleton, Option.some.injEq] at hl
          rw [hl] at h1
          exact absurd rfl h1
        | cons e2 rest2 =>
          rw [List.getLast?_cons_cons] at hl
          exact ih hl

/-- A scan of a table without entries leaves the table at once. -/
theorem pinmapScan_nil (pin : String) : pinmapScan pin [] = none := rfl

/-! ## The claims -/

/-- C1: on an initialised device, if the peripheral never completes the transfer (on the
polled path the blocking primitive does not return HAL_OK, and no completion interrupt arrives
before the wait times out), transceivePacket returns SPI_TIMEOUT, transferActive is false on
return, and a chip-select pin that was given is high. This holds for every length and every
pair of buffers. -/
theorem C1_timeout_leaves_device_idle (b : Build) (e : Env) (tx rx len : Nat) (cs : Pin)
    (s : Sys) (hinit : s.spi.initComplete = true)
    (hnever : stalls b s.spi.ioType tx rx len e) :
    (transceivePacket b e tx rx len cs s).1 = spi_status_t.SPI_TIMEOUT ∧
    (transceivePacket b e tx rx len cs s).2.spi.transferActive = false ∧
    ∀ p, cs = some p → pinLevel p (transceivePacket b e tx rx len cs s).2.trace = some true := by
  have hact := transceiveWait_never b e tx rx len cs s hnever
  have hret : (transceivePacket b e tx rx len cs s).1 = spi_status_t.SPI_TIMEOUT := by
    simp [transceivePacket, hact]
  obtain ⟨Q, hQ, h⟩ := transceivePacket_shape b e tx rx len cs s
  rcases h with ⟨_, _, hspi, _, _, htr⟩ | ⟨_, hi, _⟩ | ⟨hok, _⟩
  · refine ⟨hret, by rw [hspi]; rfl, ?_⟩
    intro p hp
    subst hp
    rw [htr]
    exact pinLevel_append p _ _ _ true (csWrites_timeout_init b p rx len s Q hQ) rfl
  · rw [hinit] at hi
    exact absurd hi (by simp)
  · rw [hret] at hok
    exact absurd hok (by simp)

/-- C1 witness: an initialised DMA device on the F4 build, chip-select on pin 4, against the
stalled peripheral (the specification scenario of a peripheral that never completes). -/
theorem C1_timeout_leaves_device_idle_witness :
    (transceivePacket buildF4 envStall 0x20000100 0x20000200 2 (some 4)
        (world SpiIoType.dma true)).1 = spi_status_t.SPI_TIMEOUT ∧
    (transceivePacket buildF4 envStall 0x20000100 0x20000200 2 (some 4)
        (world SpiIoType.dma true)).2.spi.transferActive = false ∧
    pinLevel 4 (transceivePacket buildF4 envStall 0x20000100 0x20000200 2 (some 4)
        (world SpiIoType.dma true)).2.trace = some true :=
  ⟨(C1_timeout_leaves_device_idle buildF4 envStall 0x20000100 0x20000200 2 (some 4)
      (world SpiIoType.dma true) rfl ⟨fun _ => by decide, rfl⟩).1,
    (C1_timeout_leaves_device_idle buildF4 envStall 0x20000100 0x20000200 2 (some 4)
      (world SpiIoType.dma true) rfl ⟨fun _ => by decide, rfl⟩).2.1,
    (C1_timeout_leaves_device_idle buildF4 envStall 0x20000100 0x20000200 2 (some 4)
      (world SpiIoType.dma true) rfl ⟨fun _ => by decide, rfl⟩).2.2 4 rfl⟩

/-- C2: on an initialised device of any of the three strategies (handled by the dispatch of
the build), with both buffers given and a loopback-wired peripheral that completes the transfer,
transceivePacket(tx, rx, n, cs) returns SPI_OK and the n bytes at rx afterwards equal the n
bytes that were at tx. -/
theorem C2_loopback_roundtrip (b : Build) (e : Env) (tx rx n : Nat) (cs : Pin) (s : Sys)
    (_hinit : s.spi.initComplete = true) (_hn : 0 < n) (htx : tx ≠ 0) (hrx : rx ≠ 0)
    (hh : handled b s.spi.ioType) (hc : e.completes) (hl : e.loopback) :
    (transceivePacket b e tx rx n cs s).1 = spi_status_t.SPI_OK ∧
    readBytes (transceivePacket b e tx rx n cs s).2.mem rx n = readBytes s.mem tx n := by
  obtain ⟨hok, hmem⟩ := transceive_completes b e tx rx n cs s hc hh
  refine ⟨hok, ?_⟩
  rw [hmem, hl]
  have hd : dirOf tx rx = Dir.transmitReceive := by simp [dirOf, htx, hrx]
  simp only [hd, deposit, sentBytes]
  rw [List.take_of_length_le (by simp [readBytes])]
  have hrw := readBytes_writeBytes s.mem rx (readBytes s.mem tx n)
  rwa [readBytes_length] at hrw

/-- C2 witness: the instance of the specification, tx = [0xAA, 0x55] and n = 2, for a DMA,
an interrupt and a polled device. -/
theorem C2_loopback_roundtrip_witness :
    ((transceivePacket buildF4 envLoop 0x20000100 0x20000200 2 (some 4)
        (world SpiIoType.dma true)).1 = spi_status_t.SPI_OK ∧
      readBytes (transceivePacket buildF4 envLoop 0x20000100 0x20000200 2 (some 4)
        (world SpiIoType.dma true)).2.mem 0x20000200 2 = readBytes memAA55 0x20000100 2) ∧
    ((transceivePacket buildF4 envLoop 0x20000100 0x20000200 2 (some 4)
        (world SpiIoType.interrupt true)).1 = spi_status_t.SPI_OK ∧
      readBytes (transceivePacket buildF4 envLoop 0x20000100 0x20000200 2 (some 4)
        (world SpiIoType.interrupt true)).2.mem 0x20000200 2 = readBytes memAA55 0x20000100 2) ∧
    ((transceivePacket buildF4 envLoop 0x20000100 0x20000200 2 (some 4)
        (world SpiIoType.polled true)).1 = spi_status_t.SPI_OK ∧
      readBytes (transceivePacket buildF4 envLoop 0x20000100 0x20000200 2 (some 4)
        (world SpiIoType.polled true)).2.mem 0x20000200 2 = readBytes memAA55 0x20000100 2) ∧
    readBytes memAA55 0x20000100 2 = [0xAA, 0x55] :=
  ⟨C2_loopback_roundtrip buildF4 envLoop 0x20000100 0x20000200 2 (some 4)
      (world SpiIoType.dma true) rfl (by decide) (by decide) (by decide) (fun _ => rfl)
      ⟨rfl, rfl, rfl⟩ (fun _ => rfl),
    C2_loopback_roundtrip buildF4 envLoop 0x20000100 0x20000200 2 (some 4)
      (world SpiIoType.interrupt true) rfl (by decide) (by decide) (by decide) (fun _ => rfl)
      ⟨rfl, rfl, rfl⟩ (fun _ => rfl),
    C2_loopback_roundtrip buildF4 envLoop 0x20000100 0x20000200 2 (some 4)
      (world SpiIoType.polled true) rfl (by decide) (by decide) (by decide) (fun _ => rfl)
      ⟨rfl, rfl, rfl⟩ (fun _ => rfl),
    by decide⟩

/-- C3: calling configureDevice twice in a row with the same parameters gives the same world
as calling it once: the device fields are those left by the first call and the second call
adds nothing to the trace, so the numbers of spi_init and spi_deinit calls are unchanged by the
second call. -/
theorem C3_configureDevice_idempotent (deviceMode bits clockMode bitRate : Nat) (cs : Pin)
    (s : Sys) :
    configureDevice deviceMode bits clockMode bitRate cs
        (configureDevice deviceMode bits clockMode bitRate cs s)
      = configureDevice deviceMode bits clockMode bitRate cs s ∧
    initCount (configureDevice deviceMode bits clockMode bitRate cs
        (configureDevice deviceMode bits clockMode bitRate cs s)).trace
      = initCount (configureDevice deviceMode bits clockMode bitRate cs s).trace ∧
    deinitCount (configureDevice deviceMode bits clockMode bitRate cs
        (configureDevice deviceMode bits clockMode bitRate cs s)).trace
      = deinitCount (configureDevice deviceMode bits clockMode bitRate cs s).trace := by
  have h : configureDevice deviceMode bits clockMode bitRate cs
        (configureDevice deviceMode bits clockMode bitRate cs s)
      = configureDevice deviceMode bits clockMode bitRate cs s := by
    by_cases hc : (!s.spi.initComplete || bitRate != s.spi.curBitRate || bits != s.spi.curBits
        || clockMode != s.spi.curClockMode) = true
    · have h1 : configureDevice deviceMode bits clockMode bitRate cs s =
          { (spi_init deviceMode bitRate clockMode
              { (if s.spi.initComplete then
                  spi_deinit (if s.spi.ioType = SpiIoType.dma then HAL_SPI_DMAStop s else s)
                else s) with spi.pin_ssel := cs }) with
            spi.initComplete := true
            spi.transferActive := false
            spi.curBitRate := bitRate
            spi.curBits := bits
            spi.curClockMode := clockMode } := by
        simp only [configureDevice, hc, if_true]
      rw [h1]
      simp [configureDevice]
    · have h1 : configureDevice deviceMode bits clockMode bitRate cs s = s := by
        simp only [configureDevice, hc]
        simp
      rw [h1, h1]
  rw [h]
  exact ⟨rfl, rfl, rfl⟩

/-- C4: on an initialised device, after a transceivePacket call that returned SPI_TIMEOUT the
device is initialised, not busy and holds the same cached bits, clock mode and bit rate, and
a following transceivePacket (any buffers, length and chip-select) against a peripheral that
completes returns SPI_OK, the strategy being one the dispatch handles. -/
theorem C4_reusable_after_timeout (b : Build) (e : Env) (tx rx len : Nat) (cs : Pin) (s : Sys)
    (hinit : s.spi.initComplete = true)
    (hto : (transceivePacket b e tx rx len cs s).1 = spi_status_t.SPI_TIMEOUT) :
    (transceivePacket b e tx rx len cs s).2.spi.initComplete = true ∧
    (transceivePacket b e tx rx len cs s).2.spi.transferActive = false ∧
    (transceivePacket b e tx rx len cs s).2.spi.curBits = s.spi.curBits ∧
    (transceivePacket b e tx rx len cs s).2.spi.curClockMode = s.spi.curClockMode ∧
    (transceivePacket b e tx rx len cs s).2.spi.curBitRate = s.spi.curBitRate ∧
    ∀ (e2 : Env) (tx2 rx2 len2 : Nat) (cs2 : Pin),
      handled b s.spi.ioType → e2.completes →
      (transceivePacket b e2 tx2 rx2 len2 cs2 (transceivePacket b e tx rx len cs s).2).1
        = spi_status_t.SPI_OK := by
  obtain ⟨Q, _, h⟩ := transceivePacket_shape b e tx rx len cs s
  rcases h with ⟨_, _, hspi, _, _, _⟩ | ⟨_, hi, _⟩ | ⟨hok, _⟩
  · refine ⟨by rw [hspi]; exact hinit, by rw [hspi]; rfl, by rw [hspi]; rfl, by rw [hspi]; rfl,
      by rw [hspi]; rfl, ?_⟩
    intro e2 tx2 rx2 len2 cs2 hh hc
    have hio : (transceivePacket b e tx rx len cs s).2.spi.ioType = s.spi.ioType := by
      rw [hspi]; rfl
    exact (transceive_completes b e2 tx2 rx2 len2 cs2 _ hc (hio ▸ hh)).1
  · rw [hinit] at hi
    exact absurd hi (by simp)
  · rw [hto] at hok
    exact absurd hok (by simp)

/-- C4 witness: the DMA device of the F4 build times out against the stalled peripheral and
then succeeds against the loopback peripheral. -/
theorem C4_reusable_after_timeout_witness :
    (transceivePacket buildF4 envLoop 0x20000100 0x20000200 2 (some 4)
      (transceivePacket buildF4 envStall 0x20000100 0x20000200 2 (some 4)
        (world SpiIoType.dma true)).2).1 = spi_status_t.SPI_OK :=
  (C4_reusable_after_timeout buildF4 envStall 0x20000100 0x20000200 2 (some 4)
    (world SpiIoType.dma true) rfl rfl).2.2.2.2.2 envLoop 0x20000100 0x20000200 2 (some 4)
    (fun _ => rfl) ⟨rfl, rfl, rfl⟩

/-- C5: on a DMA-strategy device, startTransfer issues a DMA start primitive only if
CAN_USE_DMA holds for both tx and rx; if it fails for either, no DMA primitive is issued and
the blocking primitive is issued exactly once; if it holds for both, the DMA primitive is
issued exactly once and no blocking primitive. -/
theorem C5_dma_only_when_eligible (b : Build) (e : Env) (tx rx len : Nat)
    (cb : Option SPICallbackFunction) (s : Sys) (hdma : s.spi.ioType = SpiIoType.dma) :
    ((∃ ev ∈ since s (startTransfer b e tx rx len cb s), isDMAStart ev = true) →
      CAN_USE_DMA b tx len = true ∧ CAN_USE_DMA b rx len = true) ∧
    (¬ (CAN_USE_DMA b tx len = true ∧ CAN_USE_DMA b rx len = true) →
      (∀ ev ∈ since s (startTransfer b e tx rx len cb s), isDMAStart ev = false) ∧
      (since s (startTransfer b e tx rx len cb s)).countP isBlockingStart = 1) ∧
    (CAN_USE_DMA b tx len = true ∧ CAN_USE_DMA b rx len = true →
      (since s (startTransfer b e tx rx len cb s)).countP isDMAStart = 1 ∧
      (since s (startTransfer b e tx rx len cb s)).countP isBlockingStart = 0) := by
  by_cases hcan : (CAN_USE_DMA b tx len && CAN_USE_DMA b rx len) = true
  · have hboth : CAN_USE_DMA b tx len = true ∧ CAN_USE_DMA b rx len = true := by
      simpa using hcan
    have hst := startTransfer_dma b e tx rx len cb s ⟨hdma, hcan⟩
    have hsince : since s (startTransfer b e tx rx len cb s) =
        dmaPrelude e tx rx len ++ [Event.halStart Xfer.viaDMA (dirOf tx rx) tx rx len] ++
          errEvents e.started := by
      rw [hst]; simp [since]
    have h1 := countP_noRequest _ (noRequest_dmaPrelude e tx rx len)
    have h2 := countP_noRequest _ (noRequest_errEvents e.started)
    refine ⟨fun _ => hboth, fun hn => absurd hboth hn, fun _ => ?_⟩
    rw [hsince]
    simp [List.countP_append, h1.1, h1.2, h2.1, h2.2, isDMAStart, isBlockingStart]
  · have hnot : ¬ (CAN_USE_DMA b tx len = true ∧ CAN_USE_DMA b rx len = true) := by
      simpa using hcan
    have hcan2 : (CAN_USE_DMA b tx len && CAN_USE_DMA b rx len) = false := by
      simpa using hcan
    have hpol : usesPolled b s.spi.ioType tx rx len := Or.inr ⟨hdma, hcan2⟩
    have key : (∀ ev ∈ since s (startTransfer b e tx rx len cb s), isDMAStart ev = false) ∧
        (since s (startTransfer b e tx rx len cb s)).countP isBlockingStart = 1 := by
      by_cases hs : e.blocking = HAL_StatusTypeDef.HAL_OK
      · have hsince : since s (startTransfer b e tx rx len cb s) =
            Event.halStart Xfer.blocking (dirOf tx rx) tx rx len ::
              Event.cpltCallback Handler.Rx :: cbEvents b (started s.spi cb true) := by
          rw [startTransfer_polled_ok b e tx rx len cb s hpol hs]; simp [since]
        have h1 := countP_noRequest _ (noRequest_cbEvents b (started s.spi cb true))
        rw [hsince]
        constructor
        · intro ev hev
          rcases List.mem_cons.1 hev with h | h
          · subst h; rfl
          · rcases List.mem_cons.1 h with h | h
            · subst h; rfl
            · have := noRequest_cbEvents b (started s.spi cb true) ev h
              cases ev <;> simp_all [isRequest, isDMAStart]
        · simp [List.countP_cons, h1.2, isBlockingStart]
      · have hsince : since s (startTransfer b e tx rx len cb s) =
            [Event.halStart Xfer.blocking (dirOf tx rx) tx rx len,
              Event.debugPrintf Msg.spiError] := by
          rw [startTransfer_polled_fail b e tx rx len cb s hpol hs]; simp [since]
        rw [hsince]
        simp [isDMAStart, isBlockingStart]
    refine ⟨?_, fun _ => key, fun hb => absurd hb hnot⟩
    rintro ⟨ev, hev, hd⟩
    rw [key.1 ev hev] at hd
    exact absurd hd (by simp)

/-- C5 witness: the DMA device of the F4 build with a transmit buffer inside CCM RAM. -/
theorem C5_dma_only_when_eligible_witness :
    (∀ ev ∈ since (world SpiIoType.dma true)
        (startTransfer buildF4 envLoop 0x10000100 0x20000200 2 none (world SpiIoType.dma true)),
      isDMAStart ev = false) ∧
    (since (world SpiIoType.dma true)
      (startTransfer buildF4 envLoop 0x10000100 0x20000200 2 none
        (world SpiIoType.dma true))).countP isBlockingStart = 1 :=
  (C5_dma_only_when_eligible buildF4 envLoop 0x10000100 0x20000200 2 none
    (world SpiIoType.dma true) rfl).2.1 (by decide)

/-- C6: in every transceivePacket call with a chip-select pin, on every device and whatever
the hardware does, the writes to that pin during the call are one low write followed by high
writes only (one on timeout, two on success: the continuation and the end of the call). So
the line goes low once, makes exactly one low-to-high transition whatever its level before
the call, falls exactly once when it was high before, and is high on return. -/
theorem C6_cs_discipline (b : Build) (e : Env) (tx rx len p : Nat) (s : Sys) :
    (((transceivePacket b e tx rx len (some p) s).1 = spi_status_t.SPI_TIMEOUT ∧
        csWrites p (since s (transceivePacket b e tx rx len (some p) s).2) = [false, true]) ∨
      ((transceivePacket b e tx rx len (some p) s).1 = spi_status_t.SPI_OK ∧
        csWrites p (since s (transceivePacket b e tx rx len (some p) s).2)
          = [false, true, true])) ∧
    (csWrites p (since s (transceivePacket b e tx rx len (some p) s).2)).count false = 1 ∧
    (∀ l0, risingEdges l0
      (csWrites p (since s (transceivePacket b e tx rx len (some p) s).2)) = 1) ∧
    fallingEdges true (csWrites p (since s (transceivePacket b e tx rx len (some p) s).2)) = 1 ∧
    pinLevel p (transceivePacket b e tx rx len (some p) s).2.trace = some true := by
  obtain ⟨Q, hQ, h⟩ := transceivePacket_shape b e tx rx len (some p) s
  rcases h with ⟨hret, _, _, _, _, htr⟩ | ⟨hret, _, _, _, htr⟩ | ⟨hret, _, h, T, hT, htr⟩
  · have hw := csWrites_timeout_init b p rx len s Q hQ
    rw [since_of_trace _ _ _ htr, htr, hw]
    exact ⟨Or.inl ⟨hret, rfl⟩, rfl, fun l0 => (risingEdges_low_high l0).1, rfl,
      pinLevel_append p _ _ _ true hw rfl⟩
  · have hw := csWrites_timeout_uninit p rx len s.spi.ioType Q hQ
    rw [since_of_trace _ _ _ htr, htr, hw]
    exact ⟨Or.inl ⟨hret, rfl⟩, rfl, fun l0 => (risingEdges_low_high l0).1, rfl,
      pinLevel_append p _ _ _ true hw rfl⟩
  · have hw := csWrites_completed b e p rx len s.spi.ioType Q T h hQ hT.quiet
    rw [since_of_trace _ _ _ htr, htr, hw]
    exact ⟨Or.inr ⟨hret, rfl⟩, rfl, fun l0 => (risingEdges_low_high l0).2, rfl,
      pinLevel_append p _ _ _ true hw rfl⟩

/-- C7 (as amended): in the event trace of every transceivePacket call with a chip-select
pin, on every device, initialised or not, the chip-select-low write precedes every hardware
transfer request; and on an initialised device every high write of the call comes after an
event that ends the transfer (the entry of a completion handler, or the abort made by
stopTransfer), with no transfer request between that event and the high write. -/
theorem C7_cs_brackets_transfer (b : Build) (e : Env) (tx rx len p : Nat) (s : Sys) :
    (∀ pre ev post, since s (transceivePacket b e tx rx len (some p) s).2 = pre ++ ev :: post →
      isRequest ev = true → Event.fastDigitalWriteLow p ∈ pre) ∧
    (s.spi.initComplete = true →
      ∀ pre q post, since s (transceivePacket b e tx rx len (some p) s).2
          = pre ++ Event.fastDigitalWriteHigh q :: post →
        ∃ a r c, pre = a ++ r :: c ∧ isRelease r = true ∧ NoRequest c) := by
  have first : ∀ (X pre post : List Event) (ev : Event),
      Event.fastDigitalWriteLow p :: X = pre ++ ev :: post → isRequest ev = true →
      Event.fastDigitalWriteLow p ∈ pre := by
    intro X pre post ev h hr
    cases pre with
    | nil =>
      simp at h
      rw [← h.1] at hr
      simp [isRequest] at hr
    | cons x pre2 =>
      simp at h
      simp [h.1]
  obtain ⟨Q, hQ, h⟩ := transceivePacket_shape b e tx rx len (some p) s
  rcases h with ⟨_, _, _, _, _, htr⟩ | ⟨_, hi, _, _, htr⟩ | ⟨_, _, h, T, hT, htr⟩
  · obtain ⟨A, rel, C, hab, hA, hrel, hC⟩ := abortEvents_split b s
    rw [since_of_trace _ _ _ htr]
    constructor
    · intro pre ev post heq hr
      exact first _ pre post ev (by simpa [lowEvents] using heq) hr
    · intro _ pre q post heq
      refine release_before_high
        (lowEvents (some p) ++ Q ++ Event.debugPrintf Msg.spiTimeout :: A)
        (C ++ invalEvents s.spi.ioType rx len ++ highEvents (some p)) rel ?_ hrel ?_ pre post q ?_
      · refine noHigh_append (noHigh_append (noHigh_lowEvents _) hQ.noHigh) ?_
        intro ev hev
        rcases List.mem_cons.1 hev with h1 | h1
        · subst h1; simp
        · exact hA ev h1
      · exact noRequest_append (noRequest_append hC (noRequest_invalEvents _ _ _))
          (noRequest_highEvents _)
      · rw [← heq, hab]
        simp
  · rw [since_of_trace _ _ _ htr]
    constructor
    · intro pre ev post heq hr
      exact first _ pre post ev (by simpa [lowEvents] using heq) hr
    · intro hinit
      rw [hinit] at hi
      exact absurd hi (by simp)
  · rw [since_of_trace _ _ _ htr]
    constructor
    · intro pre ev post heq hr
      exact first _ pre post ev (by simpa [lowEvents] using heq) hr
    · intro _ pre q post heq
      refine release_before_high (lowEvents (some p) ++ Q)
        (highEvents (some p) ++ giveEvents b e ++ T ++ invalEvents s.spi.ioType rx len ++
          highEvents (some p)) (Event.cpltCallback h) ?_ rfl ?_ pre post q ?_
      · exact noHigh_append (noHigh_lowEvents _) hQ.noHigh
      · exact noRequest_append (noRequest_append (noRequest_append (noRequest_append
          (noRequest_highEvents _) (noRequest_giveEvents _ _)) hT.noRequest)
          (noRequest_invalEvents _ _ _)) (noRequest_highEvents _)
      · rw [← heq]
        simp

/-- C7 witness: on the polled device of the F4 build that is not initialised, against the
stalled peripheral, the low write stands before the blocking request; and on the initialised
DMA device of the H7 build the only high write of the call comes after HAL_SPI_Abort. -/
theorem C7_cs_brackets_transfer_witness :
    Event.fastDigitalWriteLow 4 ∈ [Event.fastDigitalWriteLow 4] ∧
    ∃ a r c,
      [Event.fastDigitalWriteLow 4, Event.HAL_SPI_GetState, Event.HAL_DMA_GetState true,
        Event.HAL_DMA_GetState false, Event.FlushBeforeDMASend 0x30000100 2,
        Event.FlushBeforeDMAReceive 0x30000200 2,
        Event.halStart Xfer.viaDMA Dir.transmitReceive 0x30000100 0x30000200 2,
        Event.Take 2000 true, Event.Take 2000 false, Event.debugPrintf Msg.spiTimeout,
        Event.HAL_SPI_Abort, Event.HAL_SPI_DISABLE,
        Event.InvalidateAfterDMAReceive 0x30000200 2] = a ++ r :: c ∧
      isRelease r = true ∧ NoRequest c :=
  ⟨(C7_cs_brackets_transfer buildF4 envStall 0x20000100 0x20000200 2 4
      (world SpiIoType.polled false)).1 [Event.fastDigitalWriteLow 4]
      (Event.halStart Xfer.blocking Dir.transmitReceive 0x20000100 0x20000200 2)
      [Event.debugPrintf Msg.spiError, Event.Take 2000 true, Event.Take 2000 false,
        Event.debugPrintf Msg.spiTimeout, Event.fastDigitalWriteHigh 4] rfl rfl,
    (C7_cs_brackets_transfer buildH7 envStall 0x30000100 0x30000200 2 4
      (world SpiIoType.dma true)).2 rfl _ 4 [] rfl⟩

/-- C7 counterexample: on a polled device that is not initialised, against the stalled
peripheral, stopTransfer aborts nothing: chip-select is driven high although no completion
handler and no abort came before, and the busy flag is still set on return. -/
theorem C7_counterexample :
    (transceivePacket buildF4 envStall 0x20000100 0x20000200 2 (some 4)
      (world SpiIoType.polled false)).2.spi.transferActive = true ∧
    ∃ pre post,
      since (world SpiIoType.polled false)
        (transceivePacket buildF4 envStall 0x20000100 0x20000200 2 (some 4)
          (world SpiIoType.polled false)).2 = pre ++ Event.fastDigitalWriteHigh 4 :: post ∧
      ∀ ev ∈ pre, isRelease ev = false :=
  ⟨rfl,
    [Event.fastDigitalWriteLow 4,
      Event.halStart Xfer.blocking Dir.transmitReceive 0x20000100 0x20000200 2,
      Event.debugPrintf Msg.spiError, Event.Take 2000 true, Event.Take 2000 false,
      Event.debugPrintf Msg.spiTimeout], [], rfl, by decide⟩

/-- C8: transceivePacket returns SPI_OK exactly when transferActive is false at the end of its
wait; when it is still set the call returns SPI_TIMEOUT and finishes through stopTransfer,
applied once to the state at the end of the wait, and otherwise stopTransfer is not applied.
On an initialised device this shows in the trace as exactly one __HAL_SPI_DISABLE on timeout
and none on success. Wake-ups that arrive while transferActive is still set leave the returned
status unchanged. -/
theorem C8_status_follows_busy_flag (b : Build) (e : Env) (tx rx len : Nat) (cs : Pin)
    (s : Sys) :
    ((transceivePacket b e tx rx len cs s).1 = spi_status_t.SPI_OK ↔
      (transceiveWait b e tx rx len cs s).spi.transferActive = false) ∧
    ((transceiveWait b e tx rx len cs s).spi.transferActive = true →
      (transceivePacket b e tx rx len cs s).1 = spi_status_t.SPI_TIMEOUT ∧
      (transceivePacket b e tx rx len cs s).2 =
        transceiveEnd b rx len cs
          (stopTransfer b (emit (Event.debugPrintf Msg.spiTimeout)
            (transceiveWait b e tx rx len cs s)))) ∧
    ((transceiveWait b e tx rx len cs s).spi.transferActive = false →
      (transceivePacket b e tx rx len cs s).2 =
        transceiveEnd b rx len cs (transceiveWait b e tx rx len cs s)) ∧
    (s.spi.initComplete = true →
      (since s (transceivePacket b e tx rx len cs s).2).count Event.HAL_SPI_DISABLE =
        if (transceivePacket b e tx rx len cs s).1 = spi_status_t.SPI_TIMEOUT then 1 else 0) ∧
    (∀ k, (transceivePacket b { e with waits := List.replicate k Wait.wake ++ e.waits }
        tx rx len cs s).1 = (transceivePacket b e tx rx len cs s).1) := by
  refine ⟨?_, ?_, ?_, ?_, ?_⟩
  · cases h : (transceiveWait b e tx rx len cs s).spi.transferActive <;>
      simp [transceivePacket, h]
  · intro h
    simp [transceivePacket, h]
  · intro h
    simp [transceivePacket, h]
  · intro hinit
    obtain ⟨Q, hQ, h⟩ := transceivePacket_shape b e tx rx len cs s
    rcases h with ⟨hret, _, _, _, _, htr⟩ | ⟨_, hi, _⟩ | ⟨hret, _, h, T, hT, htr⟩
    · rw [since_of_trace _ _ _ htr, hret]
      simp [List.count_append, List.count_cons, quiet_count_disable Q hQ,
        abortEvents_count_disable, lowEvents_count_disable, highEvents_count_disable,
        invalEvents_count_disable]
    · rw [hinit] at hi
      exact absurd hi (by simp)
    · rw [since_of_trace _ _ _ htr, hret]
      simp [List.count_append, List.count_cons, quiet_count_disable Q hQ,
        quiet_count_disable T hT.quiet, lowEvents_count_disable, highEvents_count_disable,
        invalEvents_count_disable, giveEvents_count_disable]
  · intro k
    have hw : (transceiveWait b { e with waits := List.replicate k Wait.wake ++ e.waits }
          tx rx len cs s).spi.transferActive
        = (transceiveWait b e tx rx len cs s).spi.transferActive := by
      rw [transceiveWait_eq, transceiveWait_eq]
      exact waitLoop_wakes b k e.waits _
    simp only [transceivePacket, hw]
    split <;> rfl

/-- C8 witness: on the initialised DMA device of the F4 build the stalled peripheral gives one
__HAL_SPI_DISABLE during the call. -/
theorem C8_status_follows_busy_flag_witness :
    (since (world SpiIoType.dma true)
      (transceivePacket buildF4 envStall 0x20000100 0x20000200 2 (some 4)
        (world SpiIoType.dma true)).2).count Event.HAL_SPI_DISABLE =
      if (transceivePacket buildF4 envStall 0x20000100 0x20000200 2 (some 4)
        (world SpiIoType.dma true)).1 = spi_status_t.SPI_TIMEOUT then 1 else 0 :=
  (C8_status_follows_busy_flag buildF4 envStall 0x20000100 0x20000200 2 (some 4)
    (world SpiIoType.dma true)).2.2.2.1 rfl

/-- C9 counterexample: an interrupt device in the build without USE_SSP1 reaches the default
label of the dispatch, and transceivePacket returns SPI_TIMEOUT, not a status other than
SPI_OK and SPI_TIMEOUT. -/
theorem C9_counterexample :
    ¬ ((transceivePacket buildF4noSSP1 envLoop 0x20000100 0x20000200 2 (some 4)
          (world SpiIoType.interrupt true)).1 ≠ spi_status_t.SPI_OK ∧
        (transceivePacket buildF4noSSP1 envLoop 0x20000100 0x20000200 2 (some 4)
          (world SpiIoType.interrupt true)).1 ≠ spi_status_t.SPI_TIMEOUT) :=
  fun h => h.2 rfl

/-- C9 (as amended): when the strategy is not handled by the dispatch (interrupt in a build
without USE_SSP1) and no earlier request is in flight, startTransfer issues no hardware request
and only prints the warning, and transceivePacket returns SPI_TIMEOUT whatever the hardware
answers. -/
theorem C9_unhandled_strategy_times_out (b : Build) (e : Env) (tx rx len : Nat) (cs : Pin)
    (s : Sys) (hio : s.spi.ioType = SpiIoType.interrupt) (hb : b.USE_SSP1 = false)
    (hidle : s.inFlight = none) :
    (∀ cb, since s (startTransfer b e tx rx len cb s) = [Event.debugPrintf Msg.invalidIoType]) ∧
    (transceivePacket b e tx rx len cs s).1 = spi_status_t.SPI_TIMEOUT := by
  constructor
  · intro cb
    rw [startTransfer_unhandled b e tx rx len cb s hio hb]
    simp [since]
  · have hst := startTransfer_unhandled b e tx rx len
      (some SPICallbackFunction.transferComplete) (selected b e cs s) hio hb
    have hact : (transceiveWait b e tx rx len cs s).spi.transferActive = true := by
      rw [transceiveWait_eq]
      obtain ⟨W, _, hw⟩ := waitLoop_idle b e.waits
        (startTransfer b e tx rx len (some SPICallbackFunction.transferComplete)
          (selected b e cs s)) (by rw [hst]; rfl) (by rw [hst]; exact hidle)
      rw [hw, hst]
      rfl
    simp [transceivePacket, hact]

/-- C9 witness: the interrupt device of the build without USE_SSP1, against a peripheral that
would complete. -/
theorem C9_unhandled_strategy_times_out_witness :
    (transceivePacket buildF4noSSP1 envLoop 0x20000100 0x20000200 2 (some 4)
      (world SpiIoType.interrupt true)).1 = spi_status_t.SPI_TIMEOUT :=
  (C9_unhandled_strategy_times_out buildF4noSSP1 envLoop 0x20000100 0x20000200 2 (some 4)
    (world SpiIoType.interrupt true) rfl rfl rfl).2

/-- C10 counterexample: on a device that is not initialised, with the busy flag set,
stopTransfer changes nothing and issues no __HAL_SPI_DISABLE. -/
theorem C10_counterexample :
    Event.HAL_SPI_DISABLE ∉
      since (startTransfer buildH7 envStall 0x30000100 0x30000200 2 none
          (world SpiIoType.dma false))
        (stopTransfer buildH7
          (startTransfer buildH7 envStall 0x30000100 0x30000200 2 none
            (world SpiIoType.dma false))) := by
  decide

/-- C10 (as amended): on every initialised device, whether or not a transfer is active,
stopTransfer issues __HAL_SPI_DISABLE exactly once, as its last action. -/
theorem C10_disable_when_initialised (b : Build) (s : Sys)
    (hinit : s.spi.initComplete = true) :
    (stopTransfer b s).trace = s.trace ++ since s (stopTransfer b s) ∧
    (since s (stopTransfer b s)).getLast? = some Event.HAL_SPI_DISABLE ∧
    (since s (stopTransfer b s)).count Event.HAL_SPI_DISABLE = 1 := by
  cases hact : s.spi.transferActive
  · rw [stopTransfer_idle b s hinit hact]
    simp [since]
  · rw [stopTransfer_active b s hinit hact]
    have hs : since s { s with
        spi := { s.spi with transferActive := false }
        inFlight := none
        rxFifo := if b.STM32H7 then s.rxFifo else 0
        trace := s.trace ++ abortEvents b s } = abortEvents b s := by
      simp [since]
    rw [hs]
    refine ⟨rfl, ?_, abortEvents_count_disable b s⟩
    have hlast : ∀ (l : List Event) (x y z : Event), (l ++ [x, y, z]).getLast? = some z := by
      intro l x y z
      rw [show l ++ [x, y, z] = (l ++ [x, y]) ++ [z] by simp]
      exact List.getLast?_concat _
    unfold abortEvents
    cases b.STM32H7
    · exact hlast _ _ _ _
    · rfl

/-- C10 witness: the initialised DMA device of the F4 build with a request in flight. -/
theorem C10_disable_when_initialised_witness :
    (since (startTransfer buildF4 envStall 0x20000100 0x20000200 2 none
          (world SpiIoType.dma true))
        (stopTransfer buildF4
          (startTransfer buildF4 envStall 0x20000100 0x20000200 2 none
            (world SpiIoType.dma true)))).count Event.HAL_SPI_DISABLE = 1 :=
  (C10_disable_when_initialised buildF4
    (startTransfer buildF4 envStall 0x20000100 0x20000200 2 none (world SpiIoType.dma true))
    rfl).2.2

/-- C11: on an initialised device with no transfer in progress, stopTransfer aborts nothing and
reinitialises nothing: every device field (initComplete, transferActive, the cached bits, clock
mode and bit rate, csPin, callback, ioType and the rest), memory, the receive FIFO and the
request in flight are unchanged, and the only call made is __HAL_SPI_DISABLE. -/
theorem C11_stopTransfer_idle_frame (b : Build) (s : Sys) (hinit : s.spi.initComplete = true)
    (hidle : s.spi.transferActive = false) :
    (stopTransfer b s).spi = s.spi ∧
    (stopTransfer b s).mem = s.mem ∧
    (stopTransfer b s).rxFifo = s.rxFifo ∧
    (stopTransfer b s).inFlight = s.inFlight ∧
    (stopTransfer b s).trace = s.trace ++ [Event.HAL_SPI_DISABLE] := by
  rw [stopTransfer_idle b s hinit hidle]
  exact ⟨rfl, rfl, rfl, rfl, rfl⟩

/-- C11 witness: the idle initialised DMA device of the F4 build. -/
theorem C11_stopTransfer_idle_frame_witness :
    (stopTransfer buildF4 (world SpiIoType.dma true)).spi = (world SpiIoType.dma true).spi ∧
    (stopTransfer buildF4 (world SpiIoType.dma true)).trace = [Event.HAL_SPI_DISABLE] :=
  ⟨(C11_stopTransfer_idle_frame buildF4 (world SpiIoType.dma true) rfl rfl).1,
    (C11_stopTransfer_idle_frame buildF4 (world SpiIoType.dma true) rfl rfl).2.2.2.2⟩

/-- C12: on an initialised device with a transfer active, stopTransfer leaves every device
field as it was except transferActive, which is false: the device is still initialised and
holds the same bits, clock mode, bit rate, device mode and ssel pin. On H7 it calls
HAL_SPI_Abort and then __HAL_SPI_DISABLE; on other parts it is disable() followed by
configureDevice with the cached values and then __HAL_SPI_DISABLE, with exactly one spi_deinit
and exactly one spi_init, the latter with the cached device mode, bit rate, clock mode and ssel
pin. -/
theorem C12_stopTransfer_active (b : Build) (s : Sys) (hinit : s.spi.initComplete = true)
    (hact : s.spi.transferActive = true) :
    (stopTransfer b s).spi = { s.spi with transferActive := false } ∧
    (stopTransfer b s).trace = s.trace ++ since s (stopTransfer b s) ∧
    (b.STM32H7 = true →
      since s (stopTransfer b s) = [Event.HAL_SPI_Abort, Event.HAL_SPI_DISABLE]) ∧
    (b.STM32H7 = false →
      stopTransfer b s = HAL_SPI_DISABLE
        (configureDevice s.spi.initMode s.spi.curBits s.spi.curClockMode s.spi.curBitRate
          s.spi.pin_ssel (disable s)) ∧
      deinitCount (since s (stopTransfer b s)) = 1 ∧
      initCount (since s (stopTransfer b s)) = 1 ∧
      Event.spi_init s.spi.initMode s.spi.curBitRate s.spi.curClockMode s.spi.pin_ssel
        ∈ since s (stopTransfer b s)) := by
  have hn := stopTransfer_active b s hinit hact
  have hs : since s (stopTransfer b s) = abortEvents b s := by
    rw [hn]; simp [since]
  refine ⟨by rw [hn], by rw [hs, hn], ?_, ?_⟩
  · intro hH
    rw [hs]
    simp [abortEvents, hH]
  · intro hH
    refine ⟨?_, ?_, ?_, ?_⟩
    · have hf : (disable s).spi.initMode = s.spi.initMode ∧
          (disable s).spi.curBits = s.spi.curBits ∧
          (disable s).spi.curClockMode = s.spi.curClockMode ∧
          (disable s).spi.curBitRate = s.spi.curBitRate ∧
          (disable s).spi.pin_ssel = s.spi.pin_ssel := by
        unfold disable
        by_cases hdma : s.spi.ioType = SpiIoType.dma <;>
          simp [hinit, hdma, spi_deinit, flushRxFifo, HAL_SPI_DMAStop, emits]
      simp only [stopTransfer, hinit, hact, hH, if_true, Bool.false_eq_true, if_false]
      rw [hf.1, hf.2.1, hf.2.2.1, hf.2.2.2.1, hf.2.2.2.2]
    · rw [hs]
      unfold abortEvents deinitCount
      split_ifs <;> simp_all [List.count_cons, List.count_replicate]
    · rw [hs]
      unfold abortEvents initCount
      split_ifs <;> simp_all [List.filter_replicate]
    · rw [hs]
      simp [abortEvents, hH]

/-- C12 witness: the initialised DMA device of the F4 build with a request in flight. -/
theorem C12_stopTransfer_active_witness :
    (stopTransfer buildF4
      (startTransfer buildF4 envStall 0x20000100 0x20000200 2 none
        (world SpiIoType.dma true))).spi =
    { (startTransfer buildF4 envStall 0x20000100 0x20000200 2 none
        (world SpiIoType.dma true)).spi with transferActive := false } :=
  (C12_stopTransfer_active buildF4
    (startTransfer buildF4 envStall 0x20000100 0x20000200 2 none (world SpiIoType.dma true))
    rfl rfl).1

/-- C13: whenever configureDevice does not take the no-op path (its test of line 322 holds),
on return initComplete is true, transferActive is false, the cached bits, clock mode and bit
rate are the requested ones, and the calls made are: when the device was initialised
beforehand, HAL_SPI_DMAStop (DMA strategy only) and then spi_deinit; then exactly one spi_init,
with the requested device mode, bit rate, clock mode and chip-select. -/
theorem C13_configureDevice_reinit (deviceMode bits clockMode bitRate : Nat) (cs : Pin)
    (s : Sys) (h : mustReinit bits clockMode bitRate s.spi = true) :
    (configureDevice deviceMode bits clockMode bitRate cs s).spi.initComplete = true ∧
    (configureDevice deviceMode bits clockMode bitRate cs s).spi.transferActive = false ∧
    (configureDevice deviceMode bits clockMode bitRate cs s).spi.curBits = bits ∧
    (configureDevice deviceMode bits clockMode bitRate cs s).spi.curClockMode = clockMode ∧
    (configureDevice deviceMode bits clockMode bitRate cs s).spi.curBitRate = bitRate ∧
    (configureDevice deviceMode bits clockMode bitRate cs s).trace = s.trace ++
      ((if s.spi.initComplete then
          (if s.spi.ioType = SpiIoType.dma then [Event.HAL_SPI_DMAStop] else []) ++
            [Event.spi_deinit]
        else []) ++ [Event.spi_init deviceMode bitRate clockMode cs]) ∧
    initCount (since s (configureDevice deviceMode bits clockMode bitRate cs s)) = 1 := by
  rw [configureDevice_reinit deviceMode bits clockMode bitRate cs s h]
  refine ⟨rfl, rfl, rfl, rfl, rfl, rfl, ?_⟩
  simp only [since, List.drop_left]
  rw [initCount_append, initCount_teardownEvents]
  simp [initCount]

/-- C13 witness: the initialised DMA device of the F4 build asked for another bit rate. -/
theorem C13_configureDevice_reinit_witness :
    (configureDevice 260 8 0 1000000 NoPin (world SpiIoType.dma true)).trace =
      [Event.HAL_SPI_DMAStop, Event.spi_deinit, Event.spi_init 260 1000000 0 NoPin] :=
  (C13_configureDevice_reinit 260 8 0 1000000 NoPin (world SpiIoType.dma true) rfl).2.2.2.2.2.1

/-- C14 counterexample: the initialised device was configured with device mode 260; asked for
device mode 0 with the same bits, clock mode and bit rate, configureDevice initialises nothing,
although the requested device mode differs. -/
theorem C14_counterexample :
    ¬ (0 < initCount (since (world SpiIoType.dma true)
          (configureDevice 0 8 0 4000000 NoPin (world SpiIoType.dma true))) ↔
        ((world SpiIoType.dma true).spi.initComplete = false ∨
          0 ≠ (world SpiIoType.dma true).spi.initMode ∨
          8 ≠ (world SpiIoType.dma true).spi.curBits ∨
          0 ≠ (world SpiIoType.dma true).spi.curClockMode ∨
          4000000 ≠ (world SpiIoType.dma true).spi.curBitRate)) := by
  decide

/-- C14 (as amended): configureDevice initialises the peripheral (after tearing it down when
it was initialised) exactly when the device is not initialised or the requested word size,
clock mode or bit rate differs from the cached one; otherwise it changes nothing. The device
mode and the chip-select pin are not compared. -/
theorem C14_reinit_iff_snapshot_differs (deviceMode bits clockMode bitRate : Nat) (cs : Pin)
    (s : Sys) :
    (0 < initCount (since s (configureDevice deviceMode bits clockMode bitRate cs s)) ↔
      (s.spi.initComplete = false ∨ bits ≠ s.spi.curBits ∨ clockMode ≠ s.spi.curClockMode ∨
        bitRate ≠ s.spi.curBitRate)) ∧
    ((s.spi.initComplete = false ∨ bits ≠ s.spi.curBits ∨ clockMode ≠ s.spi.curClockMode ∨
        bitRate ≠ s.spi.curBitRate) →
      initCount (since s (configureDevice deviceMode bits clockMode bitRate cs s)) = 1 ∧
      deinitCount (since s (configureDevice deviceMode bits clockMode bitRate cs s))
        = if s.spi.initComplete then 1 else 0) ∧
    (¬ (s.spi.initComplete = false ∨ bits ≠ s.spi.curBits ∨ clockMode ≠ s.spi.curClockMode ∨
        bitRate ≠ s.spi.curBitRate) →
      configureDevice deviceMode bits clockMode bitRate cs s = s) := by
  have hiff : mustReinit bits clockMode bitRate s.spi = true ↔
      (s.spi.initComplete = false ∨ bits ≠ s.spi.curBits ∨ clockMode ≠ s.spi.curClockMode ∨
        bitRate ≠ s.spi.curBitRate) := by
    unfold mustReinit
    cases s.spi.initComplete <;> simp
    tauto
  have hyes : mustReinit bits clockMode bitRate s.spi = true →
      initCount (since s (configureDevice deviceMode bits clockMode bitRate cs s)) = 1 ∧
      deinitCount (since s (configureDevice deviceMode bits clockMode bitRate cs s))
        = if s.spi.initComplete then 1 else 0 := by
    intro h
    rw [configureDevice_reinit deviceMode bits clockMode bitRate cs s h]
    simp only [since, List.drop_left]
    constructor
    · rw [initCount_append, initCount_teardownEvents]
      simp [initCount]
    · have := deinitCount_teardownEvents s.spi
      simp only [deinitCount] at this ⊢
      rw [List.count_append, this]
      simp
  have hno : mustReinit bits clockMode bitRate s.spi = false →
      configureDevice deviceMode bits clockMode bitRate cs s = s :=
    configureDevice_noop deviceMode bits clockMode bitRate cs s
  refine ⟨?_, fun h => hyes (hiff.2 h), fun h => hno ?_⟩
  · rw [← hiff]
    cases hm : mustReinit bits clockMode bitRate s.spi
    · rw [hno hm]
      simp [since, initCount]
    · rw [(hyes hm).1]
      simp
  · cases hm : mustReinit bits clockMode bitRate s.spi
    · rfl
    · exact absurd (hiff.1 hm) h

/-- C15: after startTransfer(tx, rx, len, cb) on a DMA device with eligible buffers or on an
interrupt device, callback is cb and transferActive is true; and along any sequence of
operations run afterwards (initPins, configureDevice, startTransfer, stopTransfer, disable,
flushRx, the completion interrupt), if transferActive has become false then some operation of
the sequence found it still true and was stopTransfer, disable, a configureDevice whose test
holds, or an operation during which a completion handler ran. -/
theorem C15_busy_until_cleared (b : Build) (e : Env) (tx rx len : Nat)
    (cb : Option SPICallbackFunction) (s : Sys)
    (hpath : usesDMA b s.spi.ioType tx rx len ∨ s.spi.ioType = SpiIoType.interrupt) :
    (startTransfer b e tx rx len cb s).spi.callback = cb ∧
    (startTransfer b e tx rx len cb s).spi.transferActive = true ∧
    ∀ ops, (run b ops (startTransfer b e tx rx len cb s)).spi.transferActive = false →
      ∃ pre op post, ops = pre ++ op :: post ∧
        (run b pre (startTransfer b e tx rx len cb s)).spi.transferActive = true ∧
        clears b op (run b pre (startTransfer b e tx rx len cb s)) := by
  have hspi : (startTransfer b e tx rx len cb s).spi = started s.spi cb true := by
    rcases hpath with h | h
    · rw [startTransfer_dma b e tx rx len cb s h]
    · cases hb : b.USE_SSP1
      · rw [startTransfer_unhandled b e tx rx len cb s h hb]
      · rw [startTransfer_it b e tx rx len cb s h hb]
  have hact : (startTransfer b e tx rx len cb s).spi.transferActive = true := by
    rw [hspi]; rfl
  refine ⟨by rw [hspi]; rfl, hact, ?_⟩
  intro ops h2
  exact run_clears b ops _ hact h2

/-- C15 witness: on the DMA device of the F4 build, a request followed by flushRx and the
completion interrupt: the flag is cleared by the interrupt, during which a handler runs. -/
theorem C15_busy_until_cleared_witness :
    ∃ pre op post, [Op.flushRx, Op.interrupt] = pre ++ op :: post ∧
      (run buildF4 pre (startTransfer buildF4 envLoop 0x20000100 0x20000200 2 none
        (world SpiIoType.dma true))).spi.transferActive = true ∧
      clears buildF4 op (run buildF4 pre (startTransfer buildF4 envLoop 0x20000100 0x20000200 2
        none (world SpiIoType.dma true))) :=
  (C15_busy_until_cleared buildF4 envLoop 0x20000100 0x20000200 2 none
    (world SpiIoType.dma true) (Or.inl ⟨rfl, by decide⟩)).2.2 [Op.flushRx, Op.interrupt] rfl

/-- C16: on the polled path of startTransfer a completion handler runs during the call if and
only if the blocking primitive returned HAL_OK. With HAL_OK, startTransfer is the blocking
primitive, then HAL_SPI_RxCpltCallback, that is transferActive cleared and one call through the
callback pointer on the device: it returns with transferActive false, one handler entry in the
trace and, for a caller-supplied callback, one invocation of it. With any other status no
handler and no callback runs and transferActive is still true on return. -/
theorem C16_polled_completion_iff_ok (b : Build) (e : Env) (tx rx len : Nat)
    (cb : Option SPICallbackFunction) (s : Sys) (hp : usesPolled b s.spi.ioType tx rx len) :
    ((∃ h, Event.cpltCallback h ∈ since s (startTransfer b e tx rx len cb s)) ↔
      e.blocking = HAL_StatusTypeDef.HAL_OK) ∧
    (e.blocking = HAL_StatusTypeDef.HAL_OK →
      startTransfer b e tx rx len cb s =
        call b cb
          { s with
            spi := started s.spi cb false
            mem := deposit (dirOf tx rx) rx
              ((e.miso (sentBytes (dirOf tx rx) tx rx len s.mem)).take len) s.mem
            trace := s.trace ++ [Event.halStart Xfer.blocking (dirOf tx rx) tx rx len,
              Event.cpltCallback Handler.Rx] } ∧
      (startTransfer b e tx rx len cb s).spi.transferActive = false ∧
      (since s (startTransfer b e tx rx len cb s)).count (Event.cpltCallback Handler.Rx) = 1 ∧
      ∀ id, cb = some (SPICallbackFunction.user id) →
        since s (startTransfer b e tx rx len cb s) =
          [Event.halStart Xfer.blocking (dirOf tx rx) tx rx len,
            Event.cpltCallback Handler.Rx, Event.userCallback id]) ∧
    (e.blocking ≠ HAL_StatusTypeDef.HAL_OK →
      (startTransfer b e tx rx len cb s).spi.transferActive = true ∧
      since s (startTransfer b e tx rx len cb s) =
        [Event.halStart Xfer.blocking (dirOf tx rx) tx rx len,
          Event.debugPrintf Msg.spiError]) := by
  have hok : e.blocking = HAL_StatusTypeDef.HAL_OK →
      since s (startTransfer b e tx rx len cb s) =
        Event.halStart Xfer.blocking (dirOf tx rx) tx rx len ::
          Event.cpltCallback Handler.Rx :: cbEvents b (started s.spi cb true) := by
    intro hs
    rw [startTransfer_polled_ok b e tx rx len cb s hp hs]
    simp [since]
  have hfail : e.blocking ≠ HAL_StatusTypeDef.HAL_OK →
      since s (startTransfer b e tx rx len cb s) =
        [Event.halStart Xfer.blocking (dirOf tx rx) tx rx len,
          Event.debugPrintf Msg.spiError] := by
    intro hs
    rw [startTransfer_polled_fail b e tx rx len cb s hp hs]
    simp [since]
  refine ⟨?_, ?_, ?_⟩
  · constructor
    · rintro ⟨h, hmem⟩
      by_contra hs
      rw [hfail hs] at hmem
      simp at hmem
    · intro hs
      exact ⟨Handler.Rx, by rw [hok hs]; simp⟩
  · intro hs
    refine ⟨?_, ?_, ?_, ?_⟩
    · rw [startTransfer_polled_ok b e tx rx len cb s hp hs]
      have hc := call_eq b
        { s with
          spi := started s.spi cb false
          mem := deposit (dirOf tx rx) rx
            ((e.miso (sentBytes (dirOf tx rx) tx rx len s.mem)).take len) s.mem
          trace := s.trace ++ [Event.halStart Xfer.blocking (dirOf tx rx) tx rx len,
            Event.cpltCallback Handler.Rx] }
      have hcb : (started s.spi cb false).callback = cb := rfl
      simp only [hcb] at hc
      rw [hc, cbEvents_started b s.spi cb false true]
      simp [emits]
    · rw [startTransfer_polled_ok b e tx rx len cb s hp hs]
      rfl
    · rw [hok hs]
      have hn := cbEvents_no_cplt b (started s.spi cb true) Handler.Rx
      simp [List.count_cons, List.count_eq_zero.2 hn]
    · intro id hid
      rw [hok hs, hid]
      simp [cbEvents, started]
  · intro hs
    refine ⟨?_, hfail hs⟩
    rw [startTransfer_polled_fail b e tx rx len cb s hp hs]
    rfl

/-- C16 witness: the polled device of the F4 build with a caller-supplied callback, against the
loopback peripheral. -/
theorem C16_polled_completion_iff_ok_witness :
    since (world SpiIoType.polled true)
      (startTransfer buildF4 envLoop 0x20000100 0x20000200 2
        (some (SPICallbackFunction.user 3)) (world SpiIoType.polled true)) =
      [Event.halStart Xfer.blocking (dirOf 0x20000100 0x20000200) 0x20000100 0x20000200 2,
        Event.cpltCallback Handler.Rx, Event.userCallback 3] :=
  ((C16_polled_completion_iff_ok buildF4 envLoop 0x20000100 0x20000200 2
    (some (SPICallbackFunction.user 3)) (world SpiIoType.polled true) (Or.inl rfl)).2.1
      rfl).2.2.2 3 rfl

/-- C17: each of the three completion handlers (Tx, TxRx, Rx) is: set transferActive to false,
then one call through the callback pointer of the device, on that device. The handler leaves
every other device field, memory, the receive FIFO and the request in flight as they were; with
no callback registered nothing else happens, and with a caller-supplied callback that callback
is invoked exactly once. -/
theorem C17_completion_handlers (b : Build) (h : Handler) (s : Sys) :
    handlerFn h b s =
      call b s.spi.callback
        { s with spi.transferActive := false
                 trace := s.trace ++ [Event.cpltCallback h] } ∧
    (handlerFn h b s).spi = { s.spi with transferActive := false } ∧
    (handlerFn h b s).mem = s.mem ∧
    (handlerFn h b s).rxFifo = s.rxFifo ∧
    (handlerFn h b s).inFlight = s.inFlight ∧
    (s.spi.callback = none →
      handlerFn h b s =
        { s with spi.transferActive := false
                 trace := s.trace ++ [Event.cpltCallback h] }) ∧
    (∀ id, s.spi.callback = some (SPICallbackFunction.user id) →
      (handlerFn h b s).trace = s.trace ++ [Event.cpltCallback h, Event.userCallback id]) := by
  have hn : handlerFn h b s =
      { s with spi.transferActive := false
               trace := s.trace ++ Event.cpltCallback h :: cbEvents b s.spi } := by
    cases h
    · exact (handler_eq b s).1
    · exact (handler_eq b s).2.1
    · exact (handler_eq b s).2.2
  have hc := call_eq b
    { s with spi.transferActive := false
             trace := s.trace ++ [Event.cpltCallback h] }
  have hcb : cbEvents b { s.spi with transferActive := false } = cbEvents b s.spi := rfl
  simp only [hcb] at hc
  refine ⟨?_, by rw [hn], by rw [hn], by rw [hn], by rw [hn], ?_, ?_⟩
  · rw [hn]
    exact (hc.trans (by simp [emits])).symm
  · intro hnone
    rw [hn]
    simp [cbEvents, hnone]
  · intro id hid
    rw [hn]
    simp [cbEvents, hid]

/-- C18: in startTransferDMA, for every (tx, rx, len), FlushBeforeDMASend(tx, len) is issued
exactly when rx is null or both buffers are given, FlushBeforeDMAReceive(rx, len) exactly when
rx is non-null, each at most once and no other flush; the DMA start primitive is the last event
and the only transfer request, so every flush precedes it. On the DMA path of startTransfer the
same events are followed only by the error message for a status other than HAL_OK. -/
theorem C18_flush_before_dma_start (b : Build) (e : Env) (tx rx len : Nat)
    (cb : Option SPICallbackFunction) (s : Sys) :
    (Event.FlushBeforeDMASend tx len ∈ since s (startTransferDMA e tx rx len s).2 ↔
      (rx = 0 ∨ (tx ≠ 0 ∧ rx ≠ 0))) ∧
    (Event.FlushBeforeDMAReceive rx len ∈ since s (startTransferDMA e tx rx len s).2 ↔
      rx ≠ 0) ∧
    (since s (startTransferDMA e tx rx len s).2).filter isFlush =
      (if rx = 0 ∨ tx ≠ 0 then [Event.FlushBeforeDMASend tx len] else []) ++
      (if rx ≠ 0 then [Event.FlushBeforeDMAReceive rx len] else []) ∧
    (∃ pre, since s (startTransferDMA e tx rx len s).2 =
        pre ++ [Event.halStart Xfer.viaDMA (dirOf tx rx) tx rx len] ∧ NoRequest pre) ∧
    (usesDMA b s.spi.ioType tx rx len →
      since s (startTransfer b e tx rx len cb s) =
        since s (startTransferDMA e tx rx len s).2 ++
          (if e.started ≠ HAL_StatusTypeDef.HAL_OK then [Event.debugPrintf Msg.spiError]
            else [])) := by
  have hs : since s (startTransferDMA e tx rx len s).2 =
      dmaPrelude e tx rx len ++ [Event.halStart Xfer.viaDMA (dirOf tx rx) tx rx len] := by
    rw [startTransferDMA_eq]
    simp [since]
  have hfil : (since s (startTransferDMA e tx rx len s).2).filter isFlush =
      flushEvents tx rx len := by
    rw [hs, List.filter_append, filter_isFlush_dmaPrelude]
    simp [isFlush]
  have hmem : ∀ ev, isFlush ev = true →
      (ev ∈ since s (startTransferDMA e tx rx len s).2 ↔ ev ∈ flushEvents tx rx len) := by
    intro ev hev
    rw [← hfil, List.mem_filter]
    simp [hev]
  refine ⟨?_, ?_, ?_, ⟨_, hs, noRequest_dmaPrelude e tx rx len⟩, ?_⟩
  · rw [hmem (Event.FlushBeforeDMASend tx len) rfl]
    unfold flushEvents
    by_cases h1 : rx = 0 <;> by_cases h2 : tx = 0 <;> simp [h1, h2]
  · rw [hmem (Event.FlushBeforeDMAReceive rx len) rfl]
    unfold flushEvents
    by_cases h1 : rx = 0 <;> by_cases h2 : tx = 0 <;> simp [h1, h2]
  · rw [hfil]
    unfold flushEvents
    by_cases h1 : rx = 0 <;> by_cases h2 : tx = 0 <;> simp [h1, h2]
  · intro hd
    rw [hs, startTransfer_dma b e tx rx len cb s hd]
    simp [since, errEvents]

/-- C18 witness: the DMA device of the F4 build with both buffers outside CCM RAM. -/
theorem C18_flush_before_dma_start_witness :
    since (world SpiIoType.dma true)
      (startTransfer buildF4 envLoop 0x20000100 0x20000200 2 none (world SpiIoType.dma true)) =
      since (world SpiIoType.dma true)
        (startTransferDMA envLoop 0x20000100 0x20000200 2 (world SpiIoType.dma true)).2 ++
        (if envLoop.started ≠ HAL_StatusTypeDef.HAL_OK then [Event.debugPrintf Msg.spiError]
          else []) :=
  (C18_flush_before_dma_start buildF4 envLoop 0x20000100 0x20000200 2 none
    (world SpiIoType.dma true)).2.2.2.2 ⟨rfl, by decide⟩

/-- C19 counterexample: on the DMA device of the F4 build with the transmit buffer inside CCM
RAM, the transfer is carried out by the blocking primitive (no DMA start primitive is issued),
and InvalidateAfterDMAReceive(rx, len) is issued all the same. -/
theorem C19_counterexample :
    Event.InvalidateAfterDMAReceive 0x20000200 2 ∈
      since (world SpiIoType.dma true)
        (transceivePacket buildF4 envLoop 0x10000100 0x20000200 2 (some 4)
          (world SpiIoType.dma true)).2 ∧
    (∀ ev ∈ since (world SpiIoType.dma true)
        (transceivePacket buildF4 envLoop 0x10000100 0x20000200 2 (some 4)
          (world SpiIoType.dma true)).2, isDMAStart ev = false) ∧
    Event.halStart Xfer.blocking Dir.transmitReceive 0x10000100 0x20000200 2 ∈
      since (world SpiIoType.dma true)
        (transceivePacket buildF4 envLoop 0x10000100 0x20000200 2 (some 4)
          (world SpiIoType.dma true)).2 := by
  decide

/-- C19 (as amended): transceivePacket issues InvalidateAfterDMAReceive(rx, len) exactly when
the strategy of the device is DMA and rx is non-null, whether the transfer was carried out by
the DMA primitive or fell back to the blocking one; it does so once, after everything the
start, the wait and the abort did, and only the release of chip-select follows it. When the
strategy is interrupt or polled, or rx is null, no invalidate is issued. -/
theorem C19_invalidate_by_strategy (b : Build) (e : Env) (tx rx len : Nat) (cs : Pin)
    (s : Sys) :
    (since s (transceivePacket b e tx rx len cs s).2).filter isInvalidate =
      (if s.spi.ioType = SpiIoType.dma ∧ rx ≠ 0 then [Event.InvalidateAfterDMAReceive rx len]
        else []) ∧
    ∃ pre, pre.filter isInvalidate = [] ∧
      since s (transceivePacket b e tx rx len cs s).2 =
        pre ++
        (if s.spi.ioType = SpiIoType.dma ∧ rx ≠ 0 then [Event.InvalidateAfterDMAReceive rx len]
          else []) ++
        (match cs with
          | some p => [Event.fastDigitalWriteHigh p]
          | none => []) := by
  have key : ∃ pre, pre.filter isInvalidate = [] ∧
      since s (transceivePacket b e tx rx len cs s).2 =
        pre ++ invalEvents s.spi.ioType rx len ++ highEvents cs := by
    obtain ⟨Q, hQ, h⟩ := transceivePacket_shape b e tx rx len cs s
    have hQ0 := filter_isInvalidate_quiet Q hQ
    rcases h with ⟨_, _, _, _, _, htr⟩ | ⟨_, _, _, _, htr⟩ | ⟨_, _, h, T, hT, htr⟩
    · refine ⟨lowEvents cs ++ Q ++ Event.debugPrintf Msg.spiTimeout :: abortEvents b s, ?_,
        since_of_trace _ _ _ htr⟩
      simp [List.filter_append, List.filter_cons, hQ0, filter_isInvalidate_lowEvents,
        filter_isInvalidate_abortEvents, isInvalidate]
    · refine ⟨lowEvents cs ++ Q ++ [Event.debugPrintf Msg.spiTimeout], ?_,
        since_of_trace _ _ _ htr⟩
      simp [List.filter_append, hQ0, filter_isInvalidate_lowEvents, isInvalidate]
    · refine ⟨lowEvents cs ++ Q ++ Event.cpltCallback h ::
          (highEvents cs ++ giveEvents b e ++ T), ?_, since_of_trace _ _ _ htr⟩
      simp [List.filter_append, List.filter_cons, hQ0, filter_isInvalidate_lowEvents,
        filter_isInvalidate_highEvents, filter_isInvalidate_giveEvents,
        filter_isInvalidate_quiet T hT.quiet, isInvalidate]
  obtain ⟨pre, hpre, hs⟩ := key
  constructor
  · rw [hs]
    simp only [List.filter_append, hpre, filter_isInvalidate_highEvents,
      filter_isInvalidate_invalEvents, List.nil_append, List.append_nil]
    rfl
  · exact ⟨pre, hpre, by rw [hs]; cases cs <;> rfl⟩

/-- C20: transferComplete performs exactly these actions, in this order: if the recorded csPin
is not NoPin it drives that pin high; then, if a waiting task is recorded, it signals that task
once. It changes no device field, nor memory, the receive FIFO or the request in flight, and
makes no other call. (A build without RTOS has no waiting task.) -/
theorem C20_transferComplete_actions (b : Build) (s : Sys)
    (hwf : b.RTOS = false → s.spi.waitingTask = none) :
    (transferComplete b s).spi = s.spi ∧
    (transferComplete b s).mem = s.mem ∧
    (transferComplete b s).rxFifo = s.rxFifo ∧
    (transferComplete b s).inFlight = s.inFlight ∧
    (transferComplete b s).trace = s.trace ++
      ((match s.spi.csPin with
        | some p => [Event.fastDigitalWriteHigh p]
        | none => []) ++
       (match s.spi.waitingTask with
        | some t => [Event.GiveFromISR t]
        | none => [])) := by
  unfold transferComplete
  cases hR : b.RTOS
  · have hw := hwf hR
    rcases hp : s.spi.csPin with _ | p <;> simp [hw, emits]
  · rcases hp : s.spi.csPin with _ | p <;> rcases ht : s.spi.waitingTask with _ | t <;>
      simp [emits, ht]

/-- C20 witness: the DMA device of the F4 build as transceivePacket has set it up, with
chip-select pin 4 and waiting task 7. -/
theorem C20_transferComplete_actions_witness :
    (transferComplete buildF4 (selected buildF4 envLoop (some 4) (world SpiIoType.dma true))).trace
      = (selected buildF4 envLoop (some 4) (world SpiIoType.dma true)).trace ++
        ([Event.fastDigitalWriteHigh 4] ++ [Event.GiveFromISR 7]) :=
  (C20_transferComplete_actions buildF4
    (selected buildF4 envLoop (some 4) (world SpiIoType.dma true)) (by decide)).2.2.2.2

/-- C21: the strategy is fixed by the constructor (eight arguments: DMA; two: interrupt; one:
polled), and initPins, configureDevice, startTransfer, stopTransfer, disable, flushRx,
transceivePacket, the completion interrupt and the three completion handlers all leave ioType
as it was, as does every sequence of operations. -/
theorem C21_strategy_fixed_at_construction (b : Build) (s : Sys) :
    (∀ d0 spi spiIrqNo rxStream rxChan rxIrqNo txStream txChan txIrqNo,
      (HardwareSPI.HardwareSPI8 d0 spi spiIrqNo rxStream rxChan rxIrqNo txStream txChan
        txIrqNo).spi.ioType = SpiIoType.dma) ∧
    (∀ d0 spi spiIrqNo,
      (HardwareSPI.HardwareSPI2 d0 spi spiIrqNo).ioType = SpiIoType.interrupt) ∧
    (∀ d0 spi, (HardwareSPI.HardwareSPI1 d0 spi).ioType = SpiIoType.polled) ∧
    (∀ clk miso mosi priority,
      (initPins clk miso mosi priority s).spi.ioType = s.spi.ioType) ∧
    (∀ deviceMode bits clockMode bitRate cs,
      (configureDevice deviceMode bits clockMode bitRate cs s).spi.ioType = s.spi.ioType) ∧
    (∀ e tx rx len cb, (startTransfer b e tx rx len cb s).spi.ioType = s.spi.ioType) ∧
    (stopTransfer b s).spi.ioType = s.spi.ioType ∧
    (disable s).spi.ioType = s.spi.ioType ∧
    (flushRx s).spi.ioType = s.spi.ioType ∧
    (∀ e tx rx len cs, (transceivePacket b e tx rx len cs s).2.spi.ioType = s.spi.ioType) ∧
    (completionIRQ b s).spi.ioType = s.spi.ioType ∧
    (∀ h, (handlerFn h b s).spi.ioType = s.spi.ioType) ∧
    (∀ ops, (run b ops s).spi.ioType = s.spi.ioType) := by
  refine ⟨fun _ _ _ _ _ _ _ _ _ => rfl, fun _ _ _ => rfl, fun _ _ => rfl,
    fun clk miso mosi priority => initPins_ioType clk miso mosi priority s,
    fun deviceMode bits clockMode bitRate cs =>
      configureDevice_ioType deviceMode bits clockMode bitRate cs s,
    fun e tx rx len cb => startTransfer_ioType b e tx rx len cb s,
    stopTransfer_ioType b s, disable_ioType s, rfl, ?_, completionIRQ_ioType b s, ?_,
    fun ops => run_ioType b ops s⟩
  · intro e tx rx len cs
    obtain ⟨a, ha⟩ := transceivePacket_spi b e tx rx len cs s
    rw [ha]
    rfl
  · intro h
    rw [handlerFn_eq h b s]

/-- C22 counterexample: a DMA device that is not initialised and whose busy flag was set by
startTransfer; disable does nothing and the busy flag is still set afterwards. -/
theorem C22_counterexample :
    (startTransfer buildF4 envStall 0x20000100 0x20000200 2 none
      (world SpiIoType.dma false)).spi.transferActive = true ∧
    (disable (startTransfer buildF4 envStall 0x20000100 0x20000200 2 none
      (world SpiIoType.dma false))).spi.transferActive = true := by
  decide

/-- C22 (as amended): after disable, initComplete is false in every state. If the device was
initialised, transferActive is false too, and disable stopped the DMA when the strategy is DMA,
drained the receive FIFO and deinitialised the peripheral exactly once. If the device was not
initialised, disable changes nothing, the busy flag included. A second disable changes
nothing. -/
theorem C22_disable (s : Sys) :
    (disable s).spi.initComplete = false ∧
    (s.spi.initComplete = true →
      (disable s).spi.transferActive = false ∧
      (disable s).rxFifo = 0 ∧
      (disable s).inFlight = none ∧
      since s (disable s) =
        (if s.spi.ioType = SpiIoType.dma then [Event.HAL_SPI_DMAStop] else []) ++
          List.replicate s.rxFifo Event.readDR ++ [Event.spi_deinit] ∧
      deinitCount (since s (disable s)) = 1) ∧
    (s.spi.initComplete = false → disable s = s) ∧
    disable (disable s) = disable s := by
  cases hi : s.spi.initComplete
  · rw [disable_uninit s hi, disable_uninit s hi]
    exact ⟨hi, fun h => absurd h (by simp), fun _ => rfl, rfl⟩
  · have hs : since s (disable s) =
        (if s.spi.ioType = SpiIoType.dma then [Event.HAL_SPI_DMAStop] else []) ++
          List.replicate s.rxFifo Event.readDR ++ [Event.spi_deinit] := by
      rw [disable_init s hi]
      exact since_of_trace _ _ _ rfl
    refine ⟨by rw [disable_init s hi], fun _ => ⟨by rw [disable_init s hi],
      by rw [disable_init s hi], by rw [disable_init s hi], hs, ?_⟩,
      fun h => absurd h (by simp), ?_⟩
    · rw [hs]
      unfold deinitCount
      by_cases hd : s.spi.ioType = SpiIoType.dma <;> simp [hd, List.count_replicate]
    · exact disable_uninit _ (by rw [disable_init s hi])

/-- C22 witness: the initialised DMA device with a request in flight. -/
theorem C22_disable_witness :
    (disable (startTransfer buildF4 envStall 0x20000100 0x20000200 2 none
      (world SpiIoType.dma true))).spi.transferActive = false :=
  ((C22_disable (startTransfer buildF4 envStall 0x20000100 0x20000200 2 none
    (world SpiIoType.dma true))).2.1 rfl).1

/-- C23 counterexample: in the F4 build (CCM RAM from 0x10000000) a two-byte transmit buffer
at 0x0FFFFFFF passes CAN_USE_DMA, startTransfer on the DMA device starts the DMA, and the
second byte of the buffer, at 0x10000000, lies inside CCM RAM. -/
theorem C23_counterexample :
    (∃ ev ∈ since (world SpiIoType.dma true)
        (startTransfer buildF4 envLoop 0x0FFFFFFF 0 2 none (world SpiIoType.dma true)),
      isDMAStart ev = true) ∧
    buildF4.sccmram ≤ 0x0FFFFFFF + 1 ∧ 0x0FFFFFFF + 1 ≤ buildF4.ccmramend := by
  refine ⟨⟨Event.halStart Xfer.viaDMA Dir.transmit 0x0FFFFFFF 0 2, ?_, rfl⟩, ?_, ?_⟩
  · decide
  · decide
  · decide

/-- C23 (as amended): on non-H7 builds, whenever startTransfer issues a DMA start, no non-null
participating buffer starts inside CCM RAM (the closed range from _sccmram to _ccmramend), and
no byte of such a buffer lies inside CCM RAM unless the buffer starts below _sccmram and runs
past it: the test looks at the start address only. -/
theorem C23_dma_buffers_outside_ccm (b : Build) (e : Env) (tx rx len : Nat)
    (cb : Option SPICallbackFunction) (s : Sys) (hb : b.STM32H7 = false)
    (hsel : ∃ ev ∈ since s (startTransfer b e tx rx len cb s), isDMAStart ev = true)
    (ptr : Nat) (hptr : ptr = tx ∨ ptr = rx) (hnz : ptr ≠ 0) :
    s.spi.ioType = SpiIoType.dma ∧
    ¬ (b.sccmram ≤ ptr ∧ ptr ≤ b.ccmramend) ∧
    (b.sccmram ≤ ptr ∨ ptr + len ≤ b.sccmram →
      ∀ i, i < len → ¬ (b.sccmram ≤ ptr + i ∧ ptr + i ≤ b.ccmramend)) := by
  obtain ⟨hio, hcan⟩ := startTransfer_dmaStart_usesDMA b e tx rx len cb s hsel
  have hboth : CAN_USE_DMA b tx len = true ∧ CAN_USE_DMA b rx len = true := by
    simpa using hcan
  have hp : CAN_USE_DMA b ptr len = true := by
    rcases hptr with h | h <;> subst h
    · exact hboth.1
    · exact hboth.2
  have hout := (CAN_USE_DMA_nonH7 b ptr len hb hnz).1 hp
  refine ⟨hio, by omega, ?_⟩
  intro hns i hi
  omega

/-- C23 witness: the F4 build, a receive buffer in main RAM at 0x20000200 and no transmit
buffer; the second of its two bytes does not lie in CCM RAM. -/
theorem C23_dma_buffers_outside_ccm_witness :
    ¬ (buildF4.sccmram ≤ 0x20000200 + 1 ∧ 0x20000200 + 1 ≤ buildF4.ccmramend) :=
  (C23_dma_buffers_outside_ccm buildF4 envLoop 0 0x20000200 2 none (world SpiIoType.dma true)
    rfl ⟨Event.halStart Xfer.viaDMA Dir.receive 0 0x20000200 2, by decide, rfl⟩
    0x20000200 (Or.inr rfl) (by decide)).2.2 (Or.inl (by decide)) 1 (by decide)

/-- C24 counterexample: in the H7 build (non-cached RAM from 0x30000000 to 0x30008000) the
pointer 0xF0000000 with length 0x40000000 passes CAN_USE_DMA, because the 32-bit sum wraps to
0x30000000, although the first byte of the buffer is far above the region. -/
theorem C24_counterexample :
    CAN_USE_DMA buildH7 0xF0000000 0x40000000 = true ∧
    (0xF0000000 + 0x40000000) % 2 ^ 32 = 0x30000000 ∧
    ¬ (0xF0000000 < buildH7.nocache_ram_end) := by
  decide

/-- C24 (as amended): on H7 builds, when the buffer does not run past the top of the 32-bit
address space (ptr + len < 2^32) and CAN_USE_DMA holds for a non-null ptr, every byte of the
buffer lies inside the non-cached region. -/
theorem C24_nocache_bounds (b : Build) (ptr len : Nat) (hb : b.STM32H7 = true)
    (hnz : ptr ≠ 0) (hfit : ptr + len < 2 ^ 32) (hcan : CAN_USE_DMA b ptr len = true) :
    ∀ i, i < len → b.nocache_ram_start ≤ ptr + i ∧ ptr + i < b.nocache_ram_end := by
  have h := (CAN_USE_DMA_H7 b ptr len hb hnz).1 hcan
  rw [Nat.mod_eq_of_lt hfit] at h
  intro i hi
  omega

/-- C24 witness: a two-byte buffer at 0x30000100 in the H7 build, and its second byte. -/
theorem C24_nocache_bounds_witness :
    buildH7.nocache_ram_start ≤ 0x30000100 + 1 ∧ 0x30000100 + 1 < buildH7.nocache_ram_end :=
  C24_nocache_bounds buildH7 0x30000100 2 rfl (by decide) (by decide) (by decide) 1 (by decide)

/-- C25: whatever the peripheral and the two DMA channels report, startTransferDMA queries each
of the three once, issues exactly one transfer request, a DMA start, as its last action and
returns its status; startTransferIT queries the peripheral once and issues exactly one request,
an interrupt-driven start. Each check that finds the hardware not ready adds one message and one
delay of 100 and nothing else: with the messages and delays removed the events are those of the
all-ready case. -/
theorem C25_not_ready_only_delays (e : Env) (tx rx len : Nat) (s : Sys) :
    ((startTransferDMA e tx rx len s).1 = e.started ∧
      (since s (startTransferDMA e tx rx len s).2).countP isDMAStart = 1 ∧
      (since s (startTransferDMA e tx rx len s).2).countP isRequest = 1 ∧
      (since s (startTransferDMA e tx rx len s).2).getLast? =
        some (Event.halStart Xfer.viaDMA (dirOf tx rx) tx rx len) ∧
      (since s (startTransferDMA e tx rx len s).2).countP isReadinessQuery = 3 ∧
      (since s (startTransferDMA e tx rx len s).2).count (Event.delay 100) = dmaNotReady e ∧
      (since s (startTransferDMA e tx rx len s).2).countP isReport = 2 * dmaNotReady e ∧
      (since s (startTransferDMA e tx rx len s).2).filter (fun ev => !isReport ev) =
        [Event.HAL_SPI_GetState, Event.HAL_DMA_GetState true, Event.HAL_DMA_GetState false] ++
          flushEvents tx rx len ++ [Event.halStart Xfer.viaDMA (dirOf tx rx) tx rx len]) ∧
    ((startTransferIT e tx rx len s).1 = e.started ∧
      (since s (startTransferIT e tx rx len s).2).countP isITStart = 1 ∧
      (since s (startTransferIT e tx rx len s).2).countP isRequest = 1 ∧
      (since s (startTransferIT e tx rx len s).2).getLast? =
        some (Event.halStart Xfer.viaIT (dirOf tx rx) tx rx len) ∧
      (since s (startTransferIT e tx rx len s).2).countP isReadinessQuery = 1 ∧
      (since s (startTransferIT e tx rx len s).2).count (Event.delay 100) = itNotReady e ∧
      (since s (startTransferIT e tx rx len s).2).countP isReport = 2 * itNotReady e ∧
      (since s (startTransferIT e tx rx len s).2).filter (fun ev => !isReport ev) =
        [Event.HAL_SPI_GetState, Event.halStart Xfer.viaIT (dirOf tx rx) tx rx len]) := by
  constructor
  · refine ⟨by rw [startTransferDMA_eq], ?_⟩
    rw [since_startTransferDMA]
    unfold dmaPrelude notReadyEvents flushEvents dmaNotReady
    by_cases h1 : e.spiState = HAL_SPI_StateTypeDef.READY <;>
    by_cases h2 : e.dmaRxState = HAL_DMA_StateTypeDef.READY <;>
    by_cases h3 : e.dmaTxState = HAL_DMA_StateTypeDef.READY <;>
    by_cases h4 : rx = 0 <;> by_cases h5 : tx = 0 <;>
      simp [h1, h2, h3, h4, h5, isDMAStart, isRequest, isReadinessQuery, isReport]
  · refine ⟨by rw [startTransferIT_eq], ?_⟩
    rw [since_startTransferIT]
    unfold itPrelude notReadyEvents itNotReady
    by_cases h1 : e.spiState = HAL_SPI_StateTypeDef.READY <;>
      simp [h1, isITStart, isRequest, isReadinessQuery, isReport]

/-- C25 witness: a peripheral and two channels that all report busy; the DMA request is still
issued once, after three delays. -/
theorem C25_not_ready_only_delays_witness :
    (since (world SpiIoType.dma true)
      (startTransferDMA envBusy 0x20000100 0x20000200 2 (world SpiIoType.dma true)).2).countP
        isDMAStart = 1 ∧
    (since (world SpiIoType.dma true)
      (startTransferDMA envBusy 0x20000100 0x20000200 2 (world SpiIoType.dma true)).2).count
        (Event.delay 100) = 3 :=
  ⟨(C25_not_ready_only_delays envBusy 0x20000100 0x20000200 2
      (world SpiIoType.dma true)).1.2.1,
    (C25_not_ready_only_delays envBusy 0x20000100 0x20000200 2
      (world SpiIoType.dma true)).1.2.2.2.2.2.1⟩

/-- C26: on a device that is not initialised stopTransfer returns the state it was given, so a
busy flag that is set stays set, also the one a startTransfer has just set. In any state the
busy flag is clear after stopTransfer exactly when the device is initialised or the flag was
clear before. -/
theorem C26_stopTransfer_uninit_frame (b : Build) (s : Sys)
    (hinit : s.spi.initComplete = false) :
    stopTransfer b s = s ∧
    (s.spi.transferActive = true → (stopTransfer b s).spi.transferActive = true) ∧
    (∀ e tx rx len cb,
      stopTransfer b (startTransfer b e tx rx len cb s) = startTransfer b e tx rx len cb s) ∧
    (∀ w : Sys, (stopTransfer b w).spi.transferActive = false ↔
      (w.spi.initComplete = true ∨ w.spi.transferActive = false)) := by
  refine ⟨stopTransfer_uninit b s hinit, fun h => by rw [stopTransfer_uninit b s hinit]; exact h,
    fun e tx rx len cb => stopTransfer_uninit b _
      ((startTransfer_initComplete b e tx rx len cb s).trans hinit), ?_⟩
  intro w
  cases hi : w.spi.initComplete
  · rw [stopTransfer_uninit b w hi]
    simp
  · cases ha : w.spi.transferActive
    · rw [stopTransfer_idle b w hi ha]
      simp [ha]
    · rw [stopTransfer_active b w hi ha]
      simp

/-- C26 witness: the DMA device that is not initialised; the busy flag set by startTransfer is
still set after stopTransfer. -/
theorem C26_stopTransfer_uninit_frame_witness :
    (stopTransfer buildF4 (startTransfer buildF4 envStall 0x20000100 0x20000200 2 none
      (world SpiIoType.dma false))).spi.transferActive = true :=
  (C26_stopTransfer_uninit_frame buildF4
    (startTransfer buildF4 envStall 0x20000100 0x20000200 2 none (world SpiIoType.dma false))
    rfl).2.1 rfl

/-- C27: when transceivePacket has returned, with either status, the recorded csPin is NoPin, the
registered callback is transferComplete and, in the RTOS build, the waiting task is cleared (the
other build never signals a task). A completion handler that runs in that state only clears
transferActive: apart from the marker of its entry the trace gets no event, so no pin is
driven and no task is signalled, and so it is for a completion interrupt that arrives late. -/
theorem C27_late_completion_is_inert (b : Build) (e : Env) (tx rx len : Nat) (cs : Pin)
    (s : Sys) (h : Handler) :
    (transceivePacket b e tx rx len cs s).2.spi.csPin = NoPin ∧
    (transceivePacket b e tx rx len cs s).2.spi.callback =
      some SPICallbackFunction.transferComplete ∧
    (transceivePacket b e tx rx len cs s).2.spi.waitingTask =
      (if b.RTOS then none else s.spi.waitingTask) ∧
    cbEvents b (transceivePacket b e tx rx len cs s).2.spi = [] ∧
    handlerFn h b (transceivePacket b e tx rx len cs s).2 =
      { (transceivePacket b e tx rx len cs s).2 with
        spi.transferActive := false
        trace := (transceivePacket b e tx rx len cs s).2.trace ++ [Event.cpltCallback h] } ∧
    (completionIRQ b (transceivePacket b e tx rx len cs s).2).spi =
      { (transceivePacket b e tx rx len cs s).2.spi with
        transferActive := (transceivePacket b e tx rx len cs s).2.spi.transferActive &&
          (transceivePacket b e tx rx len cs s).2.inFlight.isNone } ∧
    (∀ ev ∈ since (transceivePacket b e tx rx len cs s).2
        (completionIRQ b (transceivePacket b e tx rx len cs s).2),
      ∃ h2, ev = Event.cpltCallback h2) := by
  obtain ⟨a, ha⟩ := transceivePacket_spi b e tx rx len cs s
  generalize (transceivePacket b e tx rx len cs s).2 = r at ha
  have hcb : cbEvents b r.spi = [] := by
    rw [ha]
    cases hR : b.RTOS <;> simp [cbEvents, finalSpi, NoPin, hR]
  refine ⟨by rw [ha]; rfl, by rw [ha]; rfl, by rw [ha]; rfl, hcb, ?_, ?_, ?_⟩
  · rw [handlerFn_eq h b r, hcb]
  · rcases hf : r.inFlight with _ | f
    · rw [completionIRQ_none b r hf]
      simp
    · rw [completionIRQ_some b r f hf]
      simp
  · rcases hf : r.inFlight with _ | f
    · rw [completionIRQ_none b r hf]
      simp [since]
    · rw [completionIRQ_some b r f hf, hcb]
      intro ev hev
      rw [since_of_trace r _ [Event.cpltCallback (handlerOf f.dir)] rfl] at hev
      exact ⟨handlerOf f.dir, by simpa using hev⟩

/-- C28, evaluated at the failing input: in the F4 layout, with the heap pointers as
initialised, a request for 0x20000000 bytes aligned to 4 returns instead of ending in
OutOfMemoryHandler. The subtraction wraps, the returned address 0xF0010000 lies above the end
of CCM RAM, the end of the block is not at or below the old ccmHeapLimit, and the block, taken
modulo 2^32, contains the first byte of the static CCM data. -/
theorem C28_oversized_request_returns :
    CoreAllocCCMRAMPermanent 0x20000000 4 (ccmHeapInit ccmF4) =
      some (0xF0010000, { ccmHeapLimit := 0xF0010000, ccmHeapTop := 0x10000400 }) ∧
    (ccmHeapInit ccmF4).ccmHeapLimit = 0x10010000 ∧
    ¬ (0xF0010000 + 0x20000000 ≤ (ccmHeapInit ccmF4).ccmHeapLimit) ∧
    ccmF4.ccmramend < 0xF0010000 ∧
    0x1FFF0000 < 0x20000000 ∧ (0xF0010000 + 0x1FFF0000) % 2 ^ 32 = ccmF4.sccmram := by
  decide

/-- C29, evaluated at the failing input: in the F4 layout two calls that both return, the first
for 0x20000000 bytes and the second for 0xE0000000 bytes; ccmUsed is 0x20000000 after the
first and 0 after the second. -/
theorem C29_ccmUsed_decreases :
    allocAll [(0x20000000, 4)] (ccmHeapInit ccmF4) =
      some { ccmHeapLimit := 0xF0010000, ccmHeapTop := 0x10000400 } ∧
    allocAll [(0x20000000, 4), (0xE0000000, 4)] (ccmHeapInit ccmF4) =
      some { ccmHeapLimit := 0x10010000, ccmHeapTop := 0x10000400 } ∧
    (CoreCCMRAMUsage ccmF4 { ccmHeapLimit := 0xF0010000, ccmHeapTop := 0x10000400 }).ccmUsed =
      0x20000000 ∧
    (CoreCCMRAMUsage ccmF4 { ccmHeapLimit := 0x10010000, ccmHeapTop := 0x10000400 }).ccmUsed =
      0 := by
  decide

/-- C30, evaluated at the failing input: the table PinMap_UART_RTS has no entry at all, so it
is neither non-empty nor ended by the terminator, whichever way USE_USB_HS_IN_FS is set; the
sixteen other tables are non-empty and end with the terminator. -/
theorem C30_PinMap_UART_RTS_not_terminated (USE_USB_HS_IN_FS : Bool) :
    PinMap_UART_RTS = [] ∧
    PinMap_UART_RTS.getLast? = none ∧
    ¬ Terminated PinMap_UART_RTS ∧
    ("PinMap_UART_RTS", PinMap_UART_RTS) ∈ pinMapTables USE_USB_HS_IN_FS ∧
    (∀ nt ∈ pinMapTables USE_USB_HS_IN_FS, nt.1 ≠ "PinMap_UART_RTS" → Terminated nt.2) := by
  cases USE_USB_HS_IN_FS <;> decide

end CoreN2G
